import Mathlib

/-!
# A shallow embedding of the zellij pane/tab engine

This file embeds, in Lean 4, the parts of the `kxt/zellij` repository that the
verified claims are about:

* `src/zellij-server/src/panes/grid.rs` — the VT grid: rows of terminal
  characters, the viewport, scrollback (`lines_above`), the cursor, the VT
  dispatch (`print` / `execute` / `csi_dispatch` / `esc_dispatch` /
  `osc_dispatch`), resize/reflow (`change_size`) and scrollback navigation.
* `src/zellij-server/src/tab.rs` — the tab layout engine: pane rectangles,
  splits, close-with-reflow, directional resize, and fullscreen toggling.

Rust `Vec<T>` and `VecDeque<T>` are both embedded as `List` (for the deque the
head of the list is the front, so `push_back` appends and `pop_front` drops the
head).  Machine integers (`usize`) are embedded as `Nat`; the few places where
the Rust code relies on wrapping or panicking arithmetic are flagged by
comments at the definition.  Types that live in files of the repository that
are not part of the given sources (`panes/terminal_character.rs`, the `vte`
parser, and the concrete `TerminalPane` geometry mutators) are modelled from
the specification and carry a doc comment starting with `Modelled from the
spec:`.
-/

namespace Zellij

/-- Modelled from the spec: a style color is a palette index (0–255), an RGB
triple, or "default" (`panes/terminal_character.rs` is not among the given
sources). -/
inductive AnsiColor where
  | palette (idx : Nat)
  | rgb (r g b : Nat)
  | colorDefault
deriving DecidableEq, Repr

/-- Modelled from the spec: the style mask of a character cell — foreground
and background colors, the boolean attributes, and an explicit "reset" bit. -/
structure CharacterStyles where
  foreground : AnsiColor := AnsiColor.colorDefault
  background : AnsiColor := AnsiColor.colorDefault
  bold : Bool := false
  dim : Bool := false
  italic : Bool := false
  underline : Bool := false
  blink : Bool := false
  reverse : Bool := false
  strikethrough : Bool := false
  reset : Bool := false
deriving DecidableEq, Repr

/-- Modelled from the spec: a character cell is a code point, a display width
in columns, and a style mask. -/
structure TerminalCharacter where
  character : Char
  width : Nat
  styles : CharacterStyles
deriving DecidableEq, Repr

/-- Modelled from the spec: an empty cell is a single ASCII space with default
style. -/
def EMPTY_TERMINAL_CHARACTER : TerminalCharacter :=
  { character := ' ', width := 1, styles := {} }

/-- Modelled from the spec: cursor shapes (block/beam/underline and blinking
variants). -/
inductive CursorShape where
  | block | blinkingBlock | underline | blinkingUnderline | beam | blinkingBeam
deriving DecidableEq, Repr

/-- Modelled from the spec: the supported charsets are ASCII and DEC
special-graphics. -/
inductive StandardCharset where
  | ascii
  | specialCharacterAndLineDrawing
deriving DecidableEq, Repr

/-- Modelled from the spec: the charset slots G0..G3. -/
inductive CharsetIndex where
  | g0 | g1 | g2 | g3
deriving DecidableEq, Repr

/-- Modelled from the spec: the per-index charset table of the cursor. -/
structure Charsets where
  g0 : StandardCharset := StandardCharset.ascii
  g1 : StandardCharset := StandardCharset.ascii
  g2 : StandardCharset := StandardCharset.ascii
  g3 : StandardCharset := StandardCharset.ascii
deriving DecidableEq, Repr

def Charsets.get (cs : Charsets) : CharsetIndex → StandardCharset
  | CharsetIndex.g0 => cs.g0
  | CharsetIndex.g1 => cs.g1
  | CharsetIndex.g2 => cs.g2
  | CharsetIndex.g3 => cs.g3

def Charsets.set (cs : Charsets) (i : CharsetIndex) (v : StandardCharset) : Charsets :=
  match i with
  | CharsetIndex.g0 => { cs with g0 := v }
  | CharsetIndex.g1 => { cs with g1 := v }
  | CharsetIndex.g2 => { cs with g2 := v }
  | CharsetIndex.g3 => { cs with g3 := v }

/-- Modelled from the spec: charset mapping.  The DEC special-graphics glyph
table lives in `panes/terminal_character.rs`, which is not among the given
sources; no claim depends on the glyph translation, so it is modelled as the
identity. -/
def StandardCharset.map (_cs : StandardCharset) (c : Char) : Char := c

/-- Modelled from the spec: the cursor — position, visibility flag, shape,
charset table, active pending style. -/
structure Cursor where
  x : Nat
  y : Nat
  is_hidden : Bool := false
  shape : CursorShape := CursorShape.block
  charsets : Charsets := {}
  pending_styles : CharacterStyles := {}
deriving DecidableEq, Repr

def Cursor.new (x y : Nat) : Cursor := { x := x, y := y }

def Cursor.change_shape (c : Cursor) (s : CursorShape) : Cursor := { c with shape := s }

/-! ## Rows (`struct Row` of `grid.rs`) -/

/-- A row of character cells plus the canonical flag (first row of a logical
line vs. soft-wrap continuation). -/
structure Row where
  columns : List TerminalCharacter
  is_canonical : Bool
deriving DecidableEq, Repr

namespace Row

def new : Row := { columns := [], is_canonical := false }

def from_columns (columns : List TerminalCharacter) : Row :=
  { columns := columns, is_canonical := false }

/-- `Row::from_rows`: concatenate the columns of all rows onto the first row
(keeping the first row's canonical flag); the empty list gives `Row::new()`. -/
def from_rows (rows : List Row) : Row :=
  match rows with
  | [] => Row.new
  | first :: rest => { first with columns := first.columns ++ rest.flatMap Row.columns }

def with_character (r : Row) (tc : TerminalCharacter) : Row :=
  { r with columns := r.columns ++ [tc] }

def canonical (r : Row) : Row := { r with is_canonical := true }

/-- `Row::width`: total display width of the row. -/
def width (r : Row) : Nat :=
  r.columns.foldl (fun acc tc => acc + tc.width) 0

/-- `Row::excess_width`: how many extra display columns wide characters use. -/
def excess_width (r : Row) : Nat :=
  r.columns.foldl (fun acc tc => if tc.width > 1 then acc + (tc.width - 1) else acc) 0

/-- `Row::excess_width_until`: excess width of the first `x` cells. -/
def excess_width_until (r : Row) (x : Nat) : Nat :=
  (r.columns.take x).foldl (fun acc tc => if tc.width > 1 then acc + (tc.width - 1) else acc) 0

/-- `Vec::resize(len, value)`: truncate or pad with `value` to exactly `len`. -/
def vecResize (l : List TerminalCharacter) (len : Nat) (value : TerminalCharacter) :
    List TerminalCharacter :=
  if len ≤ l.length then l.take len else l ++ List.replicate (len - l.length) value

/-- `Row::add_character_at` (replace semantics, wide-character aware). -/
def add_character_at (r : Row) (tc : TerminalCharacter) (x : Nat) : Row :=
  match compare r.width x with
  | Ordering.eq => { r with columns := r.columns ++ [tc] }
  | Ordering.lt =>
      let width_offset := r.excess_width_until x
      { r with columns :=
          vecResize r.columns (x - width_offset) EMPTY_TERMINAL_CHARACTER ++ [tc] }
  | Ordering.gt =>
      -- the Rust uses push + swap_remove; the net effect on the list is a
      -- replacement at index `x - width_offset` (the pushed element is the
      -- one swapped in)
      let width_offset := r.excess_width_until x
      let i := x - width_offset
      if i < r.columns.length then
        { r with columns := r.columns.set i tc }
      else
        -- i = len: push + swap_remove(len) nets no change in Rust;
        -- i > len: Rust panics; both are modelled as leaving the row as is
        r

/-- `Row::insert_character_at` (insert semantics, shifting right). -/
def insert_character_at (r : Row) (tc : TerminalCharacter) (x : Nat) : Row :=
  match compare r.columns.length x with
  | Ordering.eq => { r with columns := r.columns ++ [tc] }
  | Ordering.lt =>
      { r with columns :=
          r.columns ++ List.replicate (x - r.columns.length) EMPTY_TERMINAL_CHARACTER ++ [tc] }
  | Ordering.gt =>
      { r with columns := r.columns.take x ++ tc :: r.columns.drop x }

/-- `Row::replace_character_at`: replace the cell at `x` (when in bounds), then
re-insert `excess_width` copies to keep display width (wide-char handling). -/
def replace_character_at (r : Row) (tc : TerminalCharacter) (x : Nat) : Row :=
  if x < r.columns.length then
    let character := r.columns.getD x EMPTY_TERMINAL_CHARACTER
    let excess := character.width - 1
    let replaced := r.columns.set x tc
    { r with columns := replaced.take x ++ List.replicate excess tc ++ replaced.drop x }
  else r

def replace_columns (r : Row) (columns : List TerminalCharacter) : Row :=
  { r with columns := columns }

def push (r : Row) (tc : TerminalCharacter) : Row :=
  { r with columns := r.columns ++ [tc] }

/-- `Row::truncate`: truncate at display position `x` (wide-character aware). -/
def truncate (r : Row) (x : Nat) : Row :=
  let width_offset := r.excess_width_until x
  let truncate_position := x - width_offset
  if truncate_position < r.columns.length then
    { r with columns := r.columns.take truncate_position }
  else r

/-- `Row::position_accounting_for_widechars`. -/
def position_accounting_for_widechars (r : Row) (x : Nat) : Nat :=
  go r.columns 0 x
where
  go : List TerminalCharacter → Nat → Nat → Nat
    | [], _, position => position
    | tc :: rest, index, position =>
        if index = position then position
        else
          let position' := if tc.width > 1 then position - (tc.width - 1) else position
          go rest (index + 1) position'

/-- `Row::replace_and_pad_end`. -/
def replace_and_pad_end (r : Row) (from_ to_ : Nat) (tc : TerminalCharacter) : Row :=
  let fromPos := r.position_accounting_for_widechars from_
  let toPos := r.position_accounting_for_widechars to_
  let replacement_length := toPos - fromPos
  { r with columns := r.columns.take fromPos ++ List.replicate replacement_length tc }

/-- `Row::replace_and_pad_beginning`. -/
def replace_and_pad_beginning (r : Row) (to_ : Nat) (tc : TerminalCharacter) : Row :=
  let toPos := r.position_accounting_for_widechars to_
  -- out of bounds, `get` is None and `unwrap_or(1)` applies; the default
  -- EMPTY cell also has width 1
  let width_of_current_character :=
    (r.columns.getD toPos EMPTY_TERMINAL_CHARACTER).width
  let replace_with := List.replicate (to_ + width_of_current_character) tc
  -- toPos > len clears; toPos = len would panic in Rust (drain end past the
  -- length); otherwise indices 0..=toPos are removed
  let remainder :=
    if toPos > r.columns.length then [] else r.columns.drop (toPos + 1)
  { r with columns := replace_with ++ remainder }

def append (r : Row) (to_append : List TerminalCharacter) : Row :=
  { r with columns := r.columns ++ to_append }

def len (r : Row) : Nat := r.columns.length

/-- `Row::delete_and_return_character`. -/
def delete_and_return_character (r : Row) (x : Nat) : Option TerminalCharacter × Row :=
  if x < r.columns.length then
    (r.columns.get? x, { r with columns := r.columns.take x ++ r.columns.drop (x + 1) })
  else (none, r)

/-- `Row::drain_until`: drain whole cells from the front while their total
display width still fits in `x`; returns (drained, remaining columns). -/
def drain_until (r : Row) (x : Nat) : List TerminalCharacter × List TerminalCharacter :=
  go r.columns 0
where
  go : List TerminalCharacter → Nat → List TerminalCharacter × List TerminalCharacter
    | [], _ => ([], [])
    | tc :: rest, acc_len =>
        if acc_len + tc.width ≤ x then
          let (drained, remaining) := go rest (acc_len + tc.width)
          (tc :: drained, remaining)
        else ([], tc :: rest)

/-- `Row::split_to_rows_of_length`: greedily chunk the cells into rows of
display width at most `max_row_length`; the first part inherits the canonical
flag.  A cell wider than `max_row_length` opens a fresh (possibly empty) part
exactly as the Rust loop does. -/
def split_to_rows_of_length (r : Row) (max_row_length : Nat) : List Row :=
  let parts := go r.columns [] 0
  match parts with
  | [] => []
  | first :: rest => if r.is_canonical then { first with is_canonical := true } :: rest else parts
where
  go : List TerminalCharacter → List TerminalCharacter → Nat → List Row
    | [], current, _ => if current.isEmpty then [] else [Row.from_columns current.reverse]
    | tc :: rest, current, current_len =>
        if current_len + tc.width > max_row_length then
          Row.from_columns current.reverse :: go rest [tc] tc.width
        else
          go rest (tc :: current) (current_len + tc.width)

end Row

/-! ## Free helpers of `grid.rs` -/

def TABSTOP_WIDTH : Nat := 8
def SCROLL_BACK : Nat := 10000

/-- `parse_number`: parse a decimal `u8` from bytes, `None` on overflow or a
non-digit. -/
def parse_number (input : List Nat) : Option Nat :=
  if input.isEmpty then none
  else
    input.foldl
      (fun acc b =>
        match acc with
        | none => none
        | some num =>
            if 48 ≤ b ∧ b ≤ 57 then
              let v := num * 10 + (b - 48)
              if v ≤ 255 then some v else none
            else none)
      (some 0)

/-- `get_top_non_canonical_rows`: drain the maximal non-canonical prefix;
returns (drained prefix, remaining rows). -/
def get_top_non_canonical_rows (rows : List Row) : List Row × List Row :=
  (rows.takeWhile (fun r => !r.is_canonical), rows.dropWhile (fun r => !r.is_canonical))

/-- Index of the last canonical row, if any. -/
def lastCanonicalIdx (rows : List Row) : Option Nat :=
  (rows.foldl
      (fun (acc : Nat × Option Nat) r =>
        (acc.1 + 1, if r.is_canonical then some acc.1 else acc.2))
      (0, none)).2

/-- `get_bottom_canonical_row_and_wraps`: drain from the last canonical row to
the end (everything, if no row is canonical); returns (remaining, drained). -/
def get_bottom_canonical_row_and_wraps (rows : List Row) : List Row × List Row :=
  match lastCanonicalIdx rows with
  | some j => (rows.take j, rows.drop j)
  | none => ([], rows)

/-- Insert `a` before the first element that must come strictly after it
(`lt a b` = "a strictly precedes b"). -/
def insBy {α : Type} (lt : α → α → Bool) (a : α) : List α → List α
  | [] => [a]
  | b :: rest => if lt a b then a :: b :: rest else b :: insBy lt a rest

/-- A stable insertion sort (the embedding of the Rust stable
`sort_by_key`). -/
def sortByStable {α : Type} (lt : α → α → Bool) (l : List α) : List α :=
  l.foldl (fun acc a => insBy lt a acc) []

/-- `bounded_push`: push to the back of the scrollback deque, dropping the
front row once `SCROLL_BACK` is reached. -/
def bounded_push (vec : List Row) (value : Row) : List Row :=
  if SCROLL_BACK ≤ vec.length then vec.tail ++ [value] else vec ++ [value]

/-- `create_horizontal_tabstops`: multiples of `TABSTOP_WIDTH` up to
`columns`, as a sorted list (the Rust uses a `BTreeSet`). -/
def create_horizontal_tabstops (columns : Nat) : List Nat :=
  (List.range (columns / TABSTOP_WIDTH)).map (fun i => (i + 1) * TABSTOP_WIDTH)

/-- The `as usize` cast applied to the (possibly negative) signed counter in
`transfer_rows_down`; negative values wrap modulo 2^64. -/
def usizeCast (i : Int) : Nat := (i % (2 ^ 64 : Int)).toNat

/-- The inner phase of the `transfer_rows_down` loop: repeatedly
`destination.insert(0, next_lines.pop())` while the signed counter has not
reached `count`.  The rows still to move are passed reversed (head =
`Vec::pop` end) so the recursion is structural; returns (destination,
leftover rows still reversed, counter). -/
def tdown_consume (count : Nat) : List Row → List Row → Int → List Row × List Row × Int
  | destination, [], added => (destination, [], added)
  | destination, r :: rest_rev, added =>
      if usizeCast added = count then (destination, r :: rest_rev, added)
      else tdown_consume count (r :: destination) rest_rev (added + 1)

/-- The outer phase of the `transfer_rows_down` loop: pop a row off the back
of the scrollback deque (the source is passed reversed, so its head is the
deque's back), merge it with the top non-canonical rows of the destination,
rewrap, and hand the pieces to `tdown_consume`.  Returns (remaining source
still reversed, destination, leftover next_lines). -/
def tdown_outer (count : Nat) (max_dst_width : Option Nat) :
    List Row → List Row → Int → List Row × List Row × List Row
  | source_rev, destination, added =>
    if usizeCast added = count then (source_rev, destination, [])
    else
      match source_rev with
      | [] => (source_rev, destination, []) -- no more rows
      | next_line :: source_rev' =>
          let (top_non_canonical, destination') :=
            get_top_non_canonical_rows destination
          let added' := added - top_non_canonical.length
          let assembled := Row.from_rows (next_line :: top_non_canonical)
          let next_lines :=
            match max_dst_width with
            | some w => assembled.split_to_rows_of_length w
            | none => [assembled]
          if next_lines.isEmpty then
            -- "no more lines at source, the line we popped was probably
            -- empty": the Rust breaks out of the loop here
            (source_rev', destination', [])
          else
            let (destination2, leftover_rev, added2) :=
              tdown_consume count destination' next_lines.reverse added'
            if usizeCast added2 = count then (source_rev', destination2, leftover_rev.reverse)
            else tdown_outer count max_dst_width source_rev' destination2 added2

/-- `transfer_rows_down(source, destination, count, max_src_width,
max_dst_width)`: move `count` rows from the back of the scrollback deque to
the front of the viewport, rewrapping.  Returns the new (source,
destination). -/
def transfer_rows_down (source destination : List Row) (count : Nat)
    (max_src_width max_dst_width : Option Nat) : List Row × List Row :=
  let (source_rev', destination', leftover) :=
    tdown_outer count max_dst_width source.reverse destination 0
  let source' := source_rev'.reverse
  if leftover.isEmpty then (source', destination')
  else
    match max_src_width with
    | some w =>
        -- `source.extend(excess_rows)` appends at the back
        (source' ++ (Row.from_rows leftover).split_to_rows_of_length w, destination')
    | none => (bounded_push source' (Row.from_rows leftover), destination')

/-- The `for _ in 0..count` loop of `transfer_rows_up`; state is (source,
destination, next_lines). -/
def transfer_rows_up_loop (max_dst_width : Option Nat) :
    Nat → List Row → List Row → List Row → List Row × List Row × List Row
  | 0, source, destination, next_lines => (source, destination, next_lines)
  | Nat.succ k, source, destination, next_lines =>
      match next_lines with
      | [] =>
          match source with
          | [] => (source, destination, []) -- break: no more rows
          | next_line :: source' =>
              let (destination', merged) :=
                if next_line.is_canonical then (destination, [next_line])
                else
                  let (remaining, drained) :=
                    get_bottom_canonical_row_and_wraps destination
                  (remaining, drained ++ [next_line])
              let next_lines' :=
                match max_dst_width with
                | some w => (Row.from_rows merged).split_to_rows_of_length w
                | none => [Row.from_rows merged]
              match next_lines' with
              | [] =>
                  -- Rust would panic on `next_lines.remove(0)`; unreachable at
                  -- every call site of this repository (max_dst_width is None
                  -- there, so next_lines' is a singleton)
                  (source', destination', [])
              | row :: rest =>
                  transfer_rows_up_loop max_dst_width k
                    source' (bounded_push destination' row) rest
      | row :: rest =>
          transfer_rows_up_loop max_dst_width k
            source (bounded_push destination row) rest

/-- `transfer_rows_up(source, destination, count, max_src_width,
max_dst_width)`: move `count` rows from the front of the viewport into the
scrollback deque, merging continuation rows into the bottom canonical row.
Returns the new (source, destination). -/
def transfer_rows_up (source destination : List Row) (count : Nat)
    (max_src_width max_dst_width : Option Nat) : List Row × List Row :=
  let (source', destination', leftover) :=
    transfer_rows_up_loop max_dst_width count source destination []
  if leftover.isEmpty then (source', destination')
  else
    match max_src_width with
    | some w =>
        -- the Rust inserts each excess row at index 0 in turn, which reverses
        -- their order
        (((Row.from_rows leftover).split_to_rows_of_length w).reverse ++ source',
          destination')
    | none => (Row.from_rows leftover :: source', destination')

/-! ## The Grid -/

/-- A reply the grid synthesizes for the PTY.  The Rust pushes formatted byte
strings; the claims never inspect the bytes, so the replies are embedded as
tagged values carrying the same data. -/
inductive PtyReply where
  | colorResponse (dynamic_code : Nat)
  | primaryDeviceAttributes
  | secondaryDeviceAttributes
  | statusOk
  | cursorPositionReport (row col : Nat)
  | textAreaReport (rows cols : Nat)
deriving DecidableEq, Repr

/-- `struct Grid` of `grid.rs` (the `colors: Palette` field is dropped: it is
only read to format the OSC color reply, which is embedded as a tagged
value). -/
structure Grid where
  lines_above : List Row
  viewport : List Row
  lines_below : List Row
  horizontal_tabstops : List Nat
  alternative_lines_above_viewport_and_cursor : Option (List Row × List Row × Cursor)
  cursor : Cursor
  saved_cursor_position : Option Cursor
  scroll_region : Option (Nat × Nat)
  active_charset : CharsetIndex
  preceding_char : Option TerminalCharacter
  should_render : Bool
  cursor_key_mode : Bool
  erasure_mode : Bool
  insert_mode : Bool
  disable_linewrap : Bool
  clear_viewport_before_rendering : Bool
  width : Nat
  height : Nat
  pending_messages_to_pty : List PtyReply
deriving DecidableEq, Repr

namespace Grid

/-- `Grid::new(rows, columns, colors)`. -/
def new (rows columns : Nat) : Grid where
  lines_above := []
  viewport := [Row.new.canonical]
  lines_below := []
  horizontal_tabstops := create_horizontal_tabstops columns
  alternative_lines_above_viewport_and_cursor := none
  cursor := Cursor.new 0 0
  saved_cursor_position := none
  scroll_region := none
  active_charset := CharsetIndex.g0
  preceding_char := none
  should_render := true
  cursor_key_mode := false
  erasure_mode := false
  insert_mode := false
  disable_linewrap := false
  clear_viewport_before_rendering := false
  width := columns
  height := rows
  pending_messages_to_pty := []

/-- Replace viewport row `y` by `f row`.  The Rust call sites use
`viewport.get_mut(y).unwrap()`: an out-of-range `y` panics there and is
modelled as a no-op (the call sites that can be reached keep `y` in range). -/
def modifyViewportRow (g : Grid) (y : Nat) (f : Row → Row) : Grid :=
  { g with viewport := g.viewport.set y (f (g.viewport.getD y Row.new)) }

/-- `Grid::pad_current_line_until`: push empty cells at the end of the cursor
row up to `position` cells. -/
def pad_current_line_until (g : Grid) (position : Nat) : Grid :=
  g.modifyViewportRow g.cursor.y (fun r =>
    { r with columns :=
        r.columns ++ List.replicate (position - r.columns.length) EMPTY_TERMINAL_CHARACTER })

/-- `Grid::pad_lines_until`: push full-width rows of `pad_character` until the
viewport covers row index `position`. -/
def pad_lines_until (g : Grid) (position : Nat) (pad_character : TerminalCharacter) : Grid :=
  let pad_row := (Row.from_columns (List.replicate g.width pad_character)).canonical
  { g with viewport := g.viewport ++ List.replicate (position + 1 - g.viewport.length) pad_row }

/-- `Grid::advance_to_next_tabstop`. -/
def advance_to_next_tabstop (g : Grid) (_styles : CharacterStyles) : Grid :=
  let next_tabstop := g.horizontal_tabstops.find? (fun t => t > g.cursor.x)
  let x :=
    match next_tabstop with
    | some t => t
    | none => g.width - 1
  let g := { g with cursor := { g.cursor with x := x } }
  g.pad_current_line_until x

/-- `Grid::move_to_previous_tabstop`. -/
def move_to_previous_tabstop (g : Grid) : Grid :=
  let previous_tabstop := (g.horizontal_tabstops.filter (fun t => t < g.cursor.x)).getLast?
  match previous_tabstop with
  | some t => { g with cursor := { g.cursor with x := t } }
  | none => { g with cursor := { g.cursor with x := 0 } }

def set_horizontal_tabstop (g : Grid) : Grid :=
  if g.cursor.x ∈ g.horizontal_tabstops then g
  else { g with horizontal_tabstops := insBy (fun a b => a < b) g.cursor.x g.horizontal_tabstops }

def clear_tabstop (g : Grid) (position : Nat) : Grid :=
  { g with horizontal_tabstops := g.horizontal_tabstops.filter (fun t => t ≠ position) }

def clear_all_tabstops (g : Grid) : Grid :=
  { g with horizontal_tabstops := [] }

def save_cursor_position (g : Grid) : Grid :=
  { g with saved_cursor_position := some g.cursor }

def restore_cursor_position (g : Grid) : Grid :=
  match g.saved_cursor_position with
  | some c => { g with cursor := c }
  | none => g

def configure_charset (g : Grid) (charset : StandardCharset) (index : CharsetIndex) : Grid :=
  { g with cursor := { g.cursor with charsets := g.cursor.charsets.set index charset } }

def set_active_charset (g : Grid) (index : CharsetIndex) : Grid :=
  { g with active_charset := index }

/-- `Grid::cursor_canonical_line_index`: the number of canonical rows strictly
before the cursor row's logical line (walks the viewport, breaking at
`cursor.y`). -/
def cursor_canonical_line_index (g : Grid) : Nat :=
  go g.viewport 0 0 0
where
  go : List Row → Nat → Nat → Nat → Nat
    | [], _, ccli, _ => ccli
    | line :: rest, i, ccli, traversed =>
        let (ccli', traversed') :=
          if line.is_canonical then (traversed, traversed + 1) else (ccli, traversed)
        if i = go_y then ccli' else go rest (i + 1) ccli' traversed'
  go_y := g.cursor.y

/-- `Grid::cursor_index_in_canonical_line`: the cursor's column inside its
logical line (0 when the cursor row is past the viewport, as in the Rust). -/
def cursor_index_in_canonical_line (g : Grid) : Nat :=
  go g.viewport 0 0
where
  go : List Row → Nat → Nat → Nat
    | [], _, _ => 0
    | line :: rest, i, last_canonical =>
        let last_canonical' := if line.is_canonical then i else last_canonical
        if i = go_y then (go_y - last_canonical') + go_x
        else go rest (i + 1) last_canonical'
  go_y := g.cursor.y
  go_x := g.cursor.x

/-- `Grid::canonical_line_y_coordinates`: the viewport row index of the
`canonical_line_index`-th canonical row (0 when there is none, as in the
Rust). -/
def canonical_line_y_coordinates (g : Grid) (canonical_line_index : Nat) : Nat :=
  go g.viewport 0 0
where
  go : List Row → Nat → Nat → Nat
    | [], _, _ => 0
    | line :: rest, i, traversed =>
        if line.is_canonical then
          if traversed + 1 = go_target + 1 then i
          else go rest (i + 1) (traversed + 1)
        else go rest (i + 1) traversed
  go_target := canonical_line_index

/-- `Grid::scroll_up_one_line`: move the bottom viewport row below and pull
one scrollback row on top. -/
def scroll_up_one_line (g : Grid) : Grid :=
  if g.lines_above ≠ [] ∧ g.viewport.length = g.height then
    match g.viewport.getLast?, g.lines_above.getLast? with
    | some line_to_push_down, some line_to_insert_at_viewport_top =>
        { g with
            viewport := line_to_insert_at_viewport_top :: g.viewport.dropLast
            lines_below := line_to_push_down :: g.lines_below
            lines_above := g.lines_above.dropLast }
    | _, _ => g
  else g

/-- `Grid::scroll_down_one_line`: push the top viewport row into scrollback
(merging a continuation row into the bottom scrollback row) and pull one row
from below. -/
def scroll_down_one_line (g : Grid) : Grid :=
  if g.lines_below ≠ [] ∧ g.viewport.length = g.height then
    match g.viewport, g.lines_below with
    | line_to_push_up :: viewport', line_to_insert :: lines_below' =>
        let lines_above' :=
          if line_to_push_up.is_canonical then
            bounded_push g.lines_above line_to_push_up
          else
            -- Rust unwraps `lines_above.pop_back()` and panics when the
            -- scrollback is empty; that case is modelled as merging with an
            -- empty row
            let last_line_above := (g.lines_above.getLast?).getD Row.new
            bounded_push g.lines_above.dropLast
              (last_line_above.append line_to_push_up.columns)
        { g with
            lines_above := lines_above'
            viewport := viewport' ++ [line_to_insert]
            lines_below := lines_below' }
    | _, _ => g
  else g

def move_viewport_up (g : Grid) (count : Nat) : Grid :=
  (List.range count).foldl (fun g _ => g.scroll_up_one_line) g

def move_viewport_down (g : Grid) (count : Nat) : Grid :=
  (List.range count).foldl (fun g _ => g.scroll_down_one_line) g

def reset_viewport (g : Grid) : Grid :=
  let row_count_below := g.lines_below.length
  (List.range row_count_below).foldl (fun g _ => g.scroll_down_one_line) g

end Grid

/-! ## `Grid::change_size` (reflow on resize) -/

/-- The loop of `Grid::change_size` that walks the drained viewport assembling
canonical logical lines, pulling the last scrollback row when the first
viewport row is a continuation.  Returns `none` when the Rust hits the
"state is corrupted" early `return` (a continuation row with no preceding
canonical line and empty scrollback); state is (remaining scrollback,
assembled canonical lines, cursor canonical line index). -/
def assembleCanonicalLines :
    List Row → List Row → List Row → Nat → Option (List Row × List Row × Nat)
  | [], lines_above, acc, ccli => some (lines_above, acc, ccli)
  | row :: rest, lines_above, acc, ccli =>
      if ¬row.is_canonical ∧ acc.isEmpty ∧ ¬lines_above.isEmpty then
        let first_line_above := (lines_above.getLast?).getD Row.new
        assembleCanonicalLines rest lines_above.dropLast
          [first_line_above.append row.columns] (ccli + 1)
      else if row.is_canonical then
        assembleCanonicalLines rest lines_above (acc ++ [row]) ccli
      else
        match acc.getLast? with
        | some last_line =>
            assembleCanonicalLines rest lines_above
              (acc.dropLast ++ [last_line.append row.columns]) ccli
        | none => none

/-- One chunking step of the reflow `while` loop: the next wrap and the
remaining columns. -/
def reflow_chunk (cols : List TerminalCharacter) (is_can : Bool) (w : Nat) :
    List TerminalCharacter × List TerminalCharacter :=
  let asRow : Row := { columns := cols, is_canonical := is_can }
  if asRow.width > w then asRow.drain_until w else (cols, [])

/-- The body of the reflow `while` loop, with the number of cells still to
place as structural fuel (each iteration consumes at least one cell, so the
initial cell count always suffices; the fuel-exhausted branch is
unreachable). -/
def reflow_go (is_can : Bool) (new_columns : Nat) :
    Nat → List TerminalCharacter → Bool → List Row
  | _, [], _ => []
  | 0, _ :: _, _ => [] -- unreachable: at least one cell is consumed per step
  | Nat.succ fuel, c :: cs, first =>
      let pair := reflow_chunk (c :: cs) is_can new_columns
      let flag (r : Row) : Row := if first ∧ is_can then r.canonical else r
      match pair.1 with
      | [] =>
          -- the Rust `while` loop makes no progress here and spins forever
          -- (first remaining cell wider than new_columns); unreachable when
          -- every cell width is at most new_columns; modelled as emitting
          -- the remainder as one row
          [flag (Row.from_columns (c :: cs))]
      | _ :: _ =>
          flag (Row.from_columns pair.1) :: reflow_go is_can new_columns fuel pair.2 false

/-- The `while` loop of `Grid::change_size` that rewraps one canonical line
into rows of at most `new_columns` display columns.  An empty line becomes a
single empty canonical row. -/
def reflow_canonical_line (line : Row) (new_columns : Nat) : List Row :=
  if line.columns.isEmpty then [Row.new.canonical]
  else reflow_go line.is_canonical new_columns line.columns.length line.columns true

namespace Grid

/-- The tail of `Grid::change_size`: the height pass, the geometry update, and
the scroll-region clamp. -/
def change_size_rest (g : Grid) (new_rows new_columns : Nat) : Grid :=
  let g :=
    if new_rows ≠ g.height then
      let current_viewport_row_count := g.viewport.length
      match compare current_viewport_row_count new_rows with
      | Ordering.lt =>
          let row_count_to_transfer := new_rows - current_viewport_row_count
          let (lines_above', viewport') :=
            transfer_rows_down g.lines_above g.viewport row_count_to_transfer
              none (some new_columns)
          let rows_pulled := viewport'.length - current_viewport_row_count
          { g with
              lines_above := lines_above'
              viewport := viewport'
              cursor := { g.cursor with y := g.cursor.y + rows_pulled } }
      | Ordering.gt =>
          let row_count_to_transfer := current_viewport_row_count - new_rows
          let new_y :=
            if row_count_to_transfer > g.cursor.y then 0
            else g.cursor.y - row_count_to_transfer
          let (viewport', lines_above') :=
            transfer_rows_up g.viewport g.lines_above row_count_to_transfer
              (some new_columns) none
          { g with
              lines_above := lines_above'
              viewport := viewport'
              cursor := { g.cursor with y := new_y } }
      | Ordering.eq => g
    else g
  let g := { g with height := new_rows, width := new_columns }
  if g.scroll_region.isSome then
    { g with scroll_region := some (0, new_rows - 1) }
  else g

/-- `Grid::change_size(new_rows, new_columns)`.  On the corrupted-state early
`return` the dropped `Drain` leaves the viewport empty and nothing else is
touched (in particular `width`/`height` keep their old values). -/
def change_size (g : Grid) (new_rows new_columns : Nat) : Grid :=
  if new_columns ≠ g.width then
    let cursor_canonical_line_index0 := g.cursor_canonical_line_index
    let cursor_index_in_canonical_line0 := g.cursor_index_in_canonical_line
    match assembleCanonicalLines g.viewport g.lines_above [] cursor_canonical_line_index0 with
    | none => { g with viewport := [] }
    | some (lines_above', viewport_canonical_lines, cursor_canonical_line_index1) =>
        let new_viewport_rows :=
          viewport_canonical_lines.flatMap (fun l => reflow_canonical_line l new_columns)
        let g := { g with viewport := new_viewport_rows, lines_above := lines_above' }
        let new_cursor_y := g.canonical_line_y_coordinates cursor_canonical_line_index1
        -- division/modulus by zero: Rust panics when new_columns = 0 (no call
        -- site passes 0); Lean's Nat division yields 0
        let new_cursor_x :=
          cursor_index_in_canonical_line0 / new_columns +
            cursor_index_in_canonical_line0 % new_columns
        let current_viewport_row_count := g.viewport.length
        let (g, new_cursor_y) :=
          match compare current_viewport_row_count g.height with
          | Ordering.lt =>
              let row_count_to_transfer := g.height - current_viewport_row_count
              let (lines_above2, viewport2) :=
                transfer_rows_down g.lines_above g.viewport row_count_to_transfer
                  none (some new_columns)
              let rows_pulled := viewport2.length - current_viewport_row_count
              ({ g with lines_above := lines_above2, viewport := viewport2 },
                new_cursor_y + rows_pulled)
          | Ordering.gt =>
              let row_count_to_transfer := current_viewport_row_count - g.height
              let new_cursor_y' :=
                if row_count_to_transfer > new_cursor_y then 0
                else new_cursor_y - row_count_to_transfer
              let (viewport2, lines_above2) :=
                transfer_rows_up g.viewport g.lines_above row_count_to_transfer
                  (some new_columns) none
              ({ g with lines_above := lines_above2, viewport := viewport2 },
                new_cursor_y')
          | Ordering.eq => (g, new_cursor_y)
        let g := { g with cursor := { g.cursor with x := new_cursor_x, y := new_cursor_y } }
        g.change_size_rest new_rows new_columns
  else
    g.change_size_rest new_rows new_columns

/-- `Grid::as_character_lines` (`render_lines` of the spec): each viewport row
padded (or truncated) to `width - excess_width` cells, then empty rows up to
`height`. -/
def as_character_lines (g : Grid) : List (List TerminalCharacter) :=
  let lines := g.viewport.map (fun r =>
    Row.vecResize r.columns (g.width - r.excess_width) EMPTY_TERMINAL_CHARACTER)
  let empty_row := List.replicate g.width EMPTY_TERMINAL_CHARACTER
  lines ++ List.replicate (g.height - lines.length) empty_row

def cursor_coordinates (g : Grid) : Option (Nat × Nat) :=
  if g.cursor.is_hidden then none else some (g.cursor.x, g.cursor.y)

/-- `Grid::rotate_scroll_region_up`.  `Vec::insert` out of range panics in
Rust; `List.insertIdx` is a no-op there, and the source guards both edits. -/
def rotate_scroll_region_up (g : Grid) (count : Nat) : Grid :=
  match g.scroll_region with
  | some (scroll_region_top, scroll_region_bottom) =>
      (List.range count).foldl
        (fun g _ =>
          let columns := List.replicate g.width EMPTY_TERMINAL_CHARACTER
          let vp :=
            if scroll_region_bottom < g.viewport.length then
              g.viewport.eraseIdx scroll_region_bottom
            else g.viewport
          let vp :=
            if scroll_region_top < vp.length then
              vp.insertIdx scroll_region_top (Row.from_columns columns).canonical
            else vp
          { g with viewport := vp })
        g
  | none => g

/-- `Grid::rotate_scroll_region_down`.  The unguarded
`viewport.remove(scroll_region_top)` panics in Rust when out of range;
`List.eraseIdx` is a no-op there. -/
def rotate_scroll_region_down (g : Grid) (count : Nat) : Grid :=
  match g.scroll_region with
  | some (scroll_region_top, scroll_region_bottom) =>
      (List.range count).foldl
        (fun g _ =>
          let columns := List.replicate g.width EMPTY_TERMINAL_CHARACTER
          let vp := g.viewport.eraseIdx scroll_region_top
          let vp :=
            if vp.length > scroll_region_top then
              vp.insertIdx scroll_region_bottom (Row.from_columns columns).canonical
            else vp ++ [(Row.from_columns columns).canonical]
          { g with viewport := vp })
        g
  | none => g

/-- `Grid::fill_viewport`. -/
def fill_viewport (g : Grid) (character : TerminalCharacter) : Grid :=
  let row := (Row.from_columns (List.replicate g.width character)).canonical
  { g with viewport := List.replicate g.height row }

/-- The non-scroll-region tail of `Grid::add_canonical_line`. -/
def add_canonical_line_tail (g : Grid) : Grid :=
  let g :=
    if g.viewport.length ≤ g.cursor.y + 1 then
      { g with viewport := g.viewport ++ [Row.new.canonical] }
    else g
  if g.cursor.y = g.height - 1 then
    let (viewport', lines_above') :=
      transfer_rows_up g.viewport g.lines_above 1 (some g.width) none
    { g with viewport := viewport', lines_above := lines_above' }
  else
    { g with cursor := { g.cursor with y := g.cursor.y + 1 } }

/-- `Grid::add_canonical_line`. -/
def add_canonical_line (g : Grid) : Grid :=
  match g.scroll_region with
  | some (scroll_region_top, scroll_region_bottom) =>
      if g.cursor.y = scroll_region_bottom then
        if scroll_region_top ≥ g.viewport.length then g -- "the state is corrupted"
        else
          let vp := g.viewport.eraseIdx scroll_region_top
          let row :=
            (Row.from_columns
              (List.replicate g.width EMPTY_TERMINAL_CHARACTER)).canonical
          let vp :=
            if vp.length ≥ scroll_region_bottom then vp.insertIdx scroll_region_bottom row
            else vp ++ [row]
          { g with viewport := vp }
      else g.add_canonical_line_tail
  | none => g.add_canonical_line_tail

def move_cursor_to_beginning_of_line (g : Grid) : Grid :=
  { g with cursor := { g.cursor with x := 0 } }

/-- `Grid::insert_character_at_cursor_position`. -/
def insert_character_at_cursor_position (g : Grid) (tc : TerminalCharacter) : Grid :=
  if g.cursor.y < g.viewport.length then
    g.modifyViewportRow g.cursor.y (fun row =>
      let row := row.insert_character_at tc g.cursor.x
      if row.len > g.width then row.truncate g.width else row)
  else
    let pad := List.replicate (g.cursor.y - g.viewport.length) Row.new.canonical
    { g with viewport := g.viewport ++ pad ++ [(Row.new.with_character tc).canonical] }

/-- `Grid::add_character_at_cursor_position`. -/
def add_character_at_cursor_position (g : Grid) (tc : TerminalCharacter)
    (max_width : Nat) : Grid :=
  if g.cursor.y < g.viewport.length then
    g.modifyViewportRow g.cursor.y (fun row =>
      let row :=
        if g.insert_mode then row.insert_character_at tc g.cursor.x
        else row.add_character_at tc g.cursor.x
      row.truncate max_width)
  else
    let pad := List.replicate (g.cursor.y - g.viewport.length) Row.new.canonical
    { g with viewport := g.viewport ++ pad ++ [(Row.new.with_character tc).canonical] }

/-- `Grid::move_cursor_forward_until_edge`. -/
def move_cursor_forward_until_edge (g : Grid) (count : Nat) : Grid :=
  let count_to_move := min count (g.width - g.cursor.x)
  { g with cursor := { g.cursor with x := g.cursor.x + count_to_move } }

/-- `Grid::add_character` (place a printed cell, wrapping first when in the
pending-wrap state). -/
def add_character (g : Grid) (tc : TerminalCharacter) : Grid :=
  let character_width := tc.width
  if g.cursor.x ≥ g.width then
    if g.disable_linewrap then g
    else
      let g := { g with cursor := { g.cursor with x := 0 } }
      let g :=
        if g.cursor.y = g.height - 1 then
          let (viewport', lines_above') :=
            transfer_rows_up g.viewport g.lines_above 1 (some g.width) none
          { g with viewport := viewport' ++ [Row.new], lines_above := lines_above' }
        else
          let g := { g with cursor := { g.cursor with y := g.cursor.y + 1 } }
          if g.viewport.length ≤ g.cursor.y then
            { g with viewport := g.viewport ++ [Row.new] }
          else g
      let g := g.add_character_at_cursor_position tc g.width
      g.move_cursor_forward_until_edge character_width
  else
    let g := g.add_character_at_cursor_position tc g.width
    g.move_cursor_forward_until_edge character_width

/-- `Grid::replace_characters_in_line_after_cursor` (Rust unwraps the cursor
row; out of range is modelled as a no-op). -/
def replace_characters_in_line_after_cursor (g : Grid) (replace_with : TerminalCharacter) :
    Grid :=
  g.modifyViewportRow g.cursor.y (fun row =>
    row.replace_and_pad_end g.cursor.x g.width replace_with)

def replace_characters_in_line_before_cursor (g : Grid) (replace_with : TerminalCharacter) :
    Grid :=
  g.modifyViewportRow g.cursor.y (fun row =>
    row.replace_and_pad_beginning g.cursor.x replace_with)

/-- `Grid::clear_all_after_cursor`. -/
def clear_all_after_cursor (g : Grid) (replace_with : TerminalCharacter) : Grid :=
  if g.cursor.y < g.viewport.length then
    let g := g.modifyViewportRow g.cursor.y (fun row => row.truncate g.cursor.x)
    let replace_with_columns := List.replicate g.width replace_with
    let g := g.replace_characters_in_line_after_cursor replace_with
    { g with viewport :=
        g.viewport.enum.map (fun (i, row) =>
          if i ≥ g.cursor.y + 1 then row.replace_columns replace_with_columns else row) }
  else g

/-- `Grid::clear_all_before_cursor`. -/
def clear_all_before_cursor (g : Grid) (replace_with : TerminalCharacter) : Grid :=
  if g.cursor.y < g.viewport.length then
    let g := g.replace_characters_in_line_before_cursor replace_with
    let replace_with_columns := List.replicate g.width replace_with
    { g with viewport :=
        g.viewport.enum.map (fun (i, row) =>
          if i < g.cursor.y then row.replace_columns replace_with_columns else row) }
  else g

def clear_cursor_line (g : Grid) : Grid :=
  g.modifyViewportRow g.cursor.y (fun row => row.truncate 0)

/-- `Grid::clear_all`. -/
def clear_all (g : Grid) (replace_with : TerminalCharacter) : Grid :=
  let replace_with_columns := List.replicate g.width replace_with
  let g := g.replace_characters_in_line_after_cursor replace_with
  { g with viewport := g.viewport.map (fun row => row.replace_columns replace_with_columns) }

/-- `Grid::move_cursor_to`. -/
def move_cursor_to (g : Grid) (x y : Nat) (pad_character : TerminalCharacter) : Grid :=
  match g.scroll_region with
  | some (scroll_region_top, scroll_region_bottom) =>
      let y_offset := if g.erasure_mode then scroll_region_top else 0
      let g := { g with cursor :=
        { g.cursor with x := min (g.width - 1) x, y := min scroll_region_bottom (y + y_offset) } }
      let g := g.pad_lines_until g.cursor.y pad_character
      g.pad_current_line_until g.cursor.x
  | none =>
      let g := { g with cursor :=
        { g.cursor with x := min (g.width - 1) x, y := min (g.height - 1) y } }
      let g := g.pad_lines_until g.cursor.y pad_character
      g.pad_current_line_until g.cursor.x

/-- `Grid::move_cursor_up`. -/
def move_cursor_up (g : Grid) (count : Nat) : Grid :=
  match g.scroll_region with
  | some (scroll_region_top, scroll_region_bottom) =>
      if g.cursor.y ≥ scroll_region_top ∧ g.cursor.y ≤ scroll_region_bottom then
        { g with cursor :=
            { g.cursor with y := max (g.cursor.y - count) scroll_region_top } }
      else
        { g with cursor := { g.cursor with y := g.cursor.y - count } }
  | none =>
      { g with cursor := { g.cursor with y := g.cursor.y - count } }

/-- `Grid::move_cursor_up_with_scrolling`. -/
def move_cursor_up_with_scrolling (g : Grid) (count : Nat) : Grid :=
  let pair := g.scroll_region.getD (0, g.height - 1)
  let scroll_region_top := pair.1
  let scroll_region_bottom := pair.2
  (List.range count).foldl
    (fun g _ =>
      let current_line_index := g.cursor.y
      if current_line_index = scroll_region_top then
        let vp :=
          if scroll_region_bottom < g.viewport.length then
            g.viewport.eraseIdx scroll_region_bottom
          else g.viewport
        { g with viewport := vp.insertIdx current_line_index Row.new }
      else if current_line_index > scroll_region_top ∧
          current_line_index ≤ scroll_region_bottom then
        -- the Rust passes the whole `count` to move_cursor_up inside the loop
        g.move_cursor_up count
      else g)
    g

/-- The non-scroll-region tail of `Grid::move_cursor_down`. -/
def move_cursor_down_tail (g : Grid) (count : Nat) (pad_character : TerminalCharacter) :
    Grid :=
  let lines_to_add :=
    if g.cursor.y + count > g.height - 1 then (g.cursor.y + count) - (g.height - 1) else 0
  let new_y := if g.cursor.y + count > g.height - 1 then g.height - 1 else g.cursor.y + count
  let g := { g with cursor := { g.cursor with y := new_y } }
  let g := (List.range lines_to_add).foldl (fun g _ => g.add_canonical_line) g
  g.pad_lines_until g.cursor.y pad_character

/-- `Grid::move_cursor_down`. -/
def move_cursor_down (g : Grid) (count : Nat) (pad_character : TerminalCharacter) : Grid :=
  match g.scroll_region with
  | some (scroll_region_top, scroll_region_bottom) =>
      if g.cursor.y ≥ scroll_region_top ∧ g.cursor.y ≤ scroll_region_bottom then
        { g with cursor :=
            { g.cursor with y := min (g.cursor.y + count) scroll_region_bottom } }
      else g.move_cursor_down_tail count pad_character
  | none => g.move_cursor_down_tail count pad_character

/-- `Grid::move_cursor_back` (pending-wrap pre-decrement at the right edge). -/
def move_cursor_back (g : Grid) (count : Nat) : Grid :=
  let g :=
    if g.cursor.x = g.width then
      { g with cursor := { g.cursor with x := g.cursor.x - 1 } }
    else g
  { g with cursor := { g.cursor with x := g.cursor.x - count } }

def hide_cursor (g : Grid) : Grid :=
  { g with cursor := { g.cursor with is_hidden := true } }

def show_cursor (g : Grid) : Grid :=
  { g with cursor := { g.cursor with is_hidden := false } }

/-- `Grid::set_scroll_region` (an absent bottom index defaults to `height`). -/
def set_scroll_region (g : Grid) (top_line_index : Nat) (bottom_line_index : Option Nat) :
    Grid :=
  { g with scroll_region := some (top_line_index, bottom_line_index.getD g.height) }

def clear_scroll_region (g : Grid) : Grid :=
  { g with scroll_region := none }

def set_scroll_region_to_viewport_size (g : Grid) : Grid :=
  { g with scroll_region := some (0, g.height - 1) }

/-- `Grid::delete_lines_in_scroll_region`. -/
def delete_lines_in_scroll_region (g : Grid) (count : Nat)
    (pad_character : TerminalCharacter) : Grid :=
  match g.scroll_region with
  | some (scroll_region_top, scroll_region_bottom) =>
      let current_line_index := g.cursor.y
      if current_line_index ≥ scroll_region_top ∧
          current_line_index ≤ scroll_region_bottom then
        (List.range count).foldl
          (fun g _ =>
            let vp := g.viewport.eraseIdx current_line_index
            let row := (Row.from_columns (List.replicate g.width pad_character)).canonical
            let vp :=
              if vp.length > scroll_region_bottom then vp.insertIdx scroll_region_bottom row
              else vp ++ [row]
            { g with viewport := vp })
          g
      else g
  | none => g

/-- `Grid::add_empty_lines_in_scroll_region`. -/
def add_empty_lines_in_scroll_region (g : Grid) (count : Nat)
    (pad_character : TerminalCharacter) : Grid :=
  match g.scroll_region with
  | some (scroll_region_top, scroll_region_bottom) =>
      let current_line_index := g.cursor.y
      if current_line_index ≥ scroll_region_top ∧
          current_line_index ≤ scroll_region_bottom then
        (List.range count).foldl
          (fun g _ =>
            let vp :=
              if scroll_region_bottom < g.viewport.length then
                g.viewport.eraseIdx scroll_region_bottom
              else g.viewport
            let row := (Row.from_columns (List.replicate g.width pad_character)).canonical
            { g with viewport := vp.insertIdx current_line_index row })
          g
      else g
  | none => g

/-- `Grid::move_cursor_to_column` (sets `cursor.x` without clamping). -/
def move_cursor_to_column (g : Grid) (column : Nat) : Grid :=
  let g := { g with cursor := { g.cursor with x := column } }
  g.pad_current_line_until g.cursor.x

/-- `Grid::move_cursor_to_line`. -/
def move_cursor_to_line (g : Grid) (line : Nat) (pad_character : TerminalCharacter) : Grid :=
  let g := { g with cursor := { g.cursor with y := min (g.height - 1) line } }
  let g := g.pad_lines_until g.cursor.y pad_character
  g.pad_current_line_until g.cursor.x

/-- `Grid::replace_with_empty_chars`. -/
def replace_with_empty_chars (g : Grid) (count : Nat)
    (empty_char_style : CharacterStyles) : Grid :=
  let empty_character := { EMPTY_TERMINAL_CHARACTER with styles := empty_char_style }
  let pad_until := min g.width (g.cursor.x + count)
  let g := g.pad_current_line_until pad_until
  g.modifyViewportRow g.cursor.y (fun row =>
    (List.range count).foldl
      (fun row i => row.replace_character_at empty_character (go_x g + i)) row)
where
  go_x (g : Grid) : Nat := g.cursor.x

/-- `Grid::erase_characters`. -/
def erase_characters (g : Grid) (count : Nat) (empty_char_style : CharacterStyles) : Grid :=
  let empty_character := { EMPTY_TERMINAL_CHARACTER with styles := empty_char_style }
  g.modifyViewportRow g.cursor.y (fun row =>
    (List.range count).foldl
      (fun row _ =>
        let (deleted_character, row) := row.delete_and_return_character (go_x g)
        let excess_width :=
          (match deleted_character with
            | some tc => tc.width
            | none => 0) - 1
        (List.range excess_width).foldl
          (fun row _ => row.insert_character_at empty_character (go_x g)) row)
      row)
where
  go_x (g : Grid) : Nat := g.cursor.x

def mark_for_rerender (g : Grid) : Grid :=
  { g with should_render := true }

def add_newline (g : Grid) : Grid :=
  g.add_canonical_line.mark_for_rerender

/-- `Grid::reset_terminal_state` (`ESC c`): note `insert_mode`, the pending
styles and the preceding character are not reset, as in the source. -/
def reset_terminal_state (g : Grid) : Grid :=
  { g with
      lines_above := []
      lines_below := []
      viewport := [Row.new.canonical]
      alternative_lines_above_viewport_and_cursor := none
      cursor_key_mode := false
      scroll_region := none
      clear_viewport_before_rendering := true
      cursor := (Cursor.new 0 0).change_shape CursorShape.block
      saved_cursor_position := none
      active_charset := CharsetIndex.g0
      erasure_mode := false
      disable_linewrap := false }

def set_preceding_character (g : Grid) (tc : TerminalCharacter) : Grid :=
  { g with preceding_char := some tc }

end Grid

/-! ## The `Perform` implementation (VT dispatch) -/

/-- Modelled from the spec: SGR style accumulation
(`CharacterStyles::add_style_from_ansi_params` lives in
`panes/terminal_character.rs`, which is not among the given sources).  The
classic attribute and color codes are interpreted; parameter `0` resets. -/
def applySgrParams : CharacterStyles → List Nat → CharacterStyles
  | s, [] => s
  | _, 0 :: rest => applySgrParams {} rest
  | s, 1 :: rest => applySgrParams { s with bold := true } rest
  | s, 2 :: rest => applySgrParams { s with dim := true } rest
  | s, 3 :: rest => applySgrParams { s with italic := true } rest
  | s, 4 :: rest => applySgrParams { s with underline := true } rest
  | s, 5 :: rest => applySgrParams { s with blink := true } rest
  | s, 7 :: rest => applySgrParams { s with reverse := true } rest
  | s, 9 :: rest => applySgrParams { s with strikethrough := true } rest
  | s, 38 :: 5 :: n :: rest =>
      applySgrParams { s with foreground := AnsiColor.palette n } rest
  | s, 38 :: 2 :: r :: gr :: b :: rest =>
      applySgrParams { s with foreground := AnsiColor.rgb r gr b } rest
  | s, 39 :: rest => applySgrParams { s with foreground := AnsiColor.colorDefault } rest
  | s, 48 :: 5 :: n :: rest =>
      applySgrParams { s with background := AnsiColor.palette n } rest
  | s, 48 :: 2 :: r :: gr :: b :: rest =>
      applySgrParams { s with background := AnsiColor.rgb r gr b } rest
  | s, 49 :: rest => applySgrParams { s with background := AnsiColor.colorDefault } rest
  | s, n :: rest =>
      if 30 ≤ n ∧ n ≤ 37 then
        applySgrParams { s with foreground := AnsiColor.palette (n - 30) } rest
      else if 40 ≤ n ∧ n ≤ 47 then
        applySgrParams { s with background := AnsiColor.palette (n - 40) } rest
      else if 90 ≤ n ∧ n ≤ 97 then
        applySgrParams { s with foreground := AnsiColor.palette (n - 90 + 8) } rest
      else if 100 ≤ n ∧ n ≤ 107 then
        applySgrParams { s with background := AnsiColor.palette (n - 100 + 8) } rest
      else applySgrParams s rest

/-- An action emitted by the `vte` state machine (the parser lives in the
repository's `zellij-utils` re-export, not among the given sources; `advance`
is the fold of these actions over the grid, exactly as `impl Perform for
Grid`).  `print` carries the display width that `unicode_width` computes for
the character (1 for printable ASCII). -/
inductive VteEvent where
  | print (c : Char) (w : Nat)
  | execute (byte : Nat)
  | csi (params : List Nat) (intermediates : List Nat) (action : Char)
  | esc (intermediates : List Nat) (byte : Nat)
  | osc (params : List (List Nat)) (bell_terminated : Bool)
deriving DecidableEq, Repr

namespace Grid

/-- `next_param_or(default)` on the `i`-th parameter: a missing or zero
parameter yields the default. -/
def nextParamOr (params : List Nat) (i : Nat) (default : Nat) : Nat :=
  match params.get? i with
  | some v => if v = 0 then default else v
  | none => default

/-- `Perform::print`. -/
def print (g : Grid) (c : Char) (w : Nat) : Grid :=
  let c := (g.cursor.charsets.get g.active_charset).map c
  let terminal_character : TerminalCharacter :=
    { character := c, width := w, styles := g.cursor.pending_styles }
  let g := g.set_preceding_character terminal_character
  g.add_character terminal_character

/-- `Perform::execute`. -/
def execute (g : Grid) (byte : Nat) : Grid :=
  if byte = 8 then g.move_cursor_back 1
  else if byte = 9 then g.advance_to_next_tabstop g.cursor.pending_styles
  else if byte = 10 ∨ byte = 11 ∨ byte = 12 then g.add_newline
  else if byte = 13 then g.move_cursor_to_beginning_of_line
  else if byte = 14 then g.set_active_charset CharsetIndex.g1
  else if byte = 15 then g.set_active_charset CharsetIndex.g0
  else g

/-- `Perform::csi_dispatch`. -/
def csi_dispatch (g : Grid) (params : List Nat) (intermediates : List Nat)
    (c : Char) : Grid :=
  if c = 'm' then
    { g with cursor :=
        { g.cursor with pending_styles := applySgrParams g.cursor.pending_styles params } }
  else if c = 'C' ∨ c = 'a' then
    g.move_cursor_forward_until_edge (nextParamOr params 0 1)
  else if c = 'K' then
    match params.head? with
    | some 0 =>
        g.replace_characters_in_line_after_cursor
          { EMPTY_TERMINAL_CHARACTER with styles := g.cursor.pending_styles }
    | some 1 =>
        g.replace_characters_in_line_before_cursor
          { EMPTY_TERMINAL_CHARACTER with styles := g.cursor.pending_styles }
    | some 2 => g.clear_cursor_line
    | _ => g
  else if c = 'J' then
    let char_to_replace := { EMPTY_TERMINAL_CHARACTER with styles := g.cursor.pending_styles }
    match params.head? with
    | some 0 => g.clear_all_after_cursor char_to_replace
    | some 1 => g.clear_all_before_cursor char_to_replace
    | some 2 => g.fill_viewport char_to_replace
    | _ => g
  else if c = 'H' ∨ c = 'f' then
    let row := nextParamOr params 0 1 - 1
    let col := nextParamOr params 1 1 - 1
    g.move_cursor_to col row EMPTY_TERMINAL_CHARACTER
  else if c = 'A' then
    g.move_cursor_up (nextParamOr params 0 1)
  else if c = 'B' ∨ c = 'e' then
    g.move_cursor_down (nextParamOr params 0 1) EMPTY_TERMINAL_CHARACTER
  else if c = 'D' then
    g.move_cursor_back (nextParamOr params 0 1)
  else if c = 'l' then
    if intermediates.head? = some 63 then -- b'?'
      match params.head? with
      | some 1049 =>
          let g :=
            match g.alternative_lines_above_viewport_and_cursor with
            | some (alternative_lines_above, alternative_viewport, alternative_cursor) =>
                { g with
                    lines_above := alternative_lines_above
                    viewport := alternative_viewport
                    cursor := alternative_cursor
                    alternative_lines_above_viewport_and_cursor := none }
            | none => g
          let g := { g with
              alternative_lines_above_viewport_and_cursor := none
              clear_viewport_before_rendering := true }
          (g.change_size g.height g.width).mark_for_rerender
      | some 25 => g.hide_cursor.mark_for_rerender
      | some 1 => { g with cursor_key_mode := false }
      | some 3 =>
          let g := { g with scroll_region := none }
          let g := g.clear_all EMPTY_TERMINAL_CHARACTER
          { g with cursor := { g.cursor with x := 0, y := 0 } }
      | some 6 => { g with erasure_mode := false }
      | some 7 => { g with disable_linewrap := true }
      | _ => g
    else if params.head? = some 4 then { g with insert_mode := false }
    else g
  else if c = 'h' then
    if intermediates.head? = some 63 then -- b'?'
      match params.head? with
      | some 25 => g.show_cursor.mark_for_rerender
      | some 1049 =>
          { g with
              lines_above := []
              viewport := [Row.new.canonical]
              cursor := Cursor.new 0 0
              alternative_lines_above_viewport_and_cursor :=
                some (g.lines_above, g.viewport, g.cursor)
              clear_viewport_before_rendering := true }
      | some 1 => { g with cursor_key_mode := true }
      | some 3 =>
          let g := { g with scroll_region := none }
          let g := g.clear_all EMPTY_TERMINAL_CHARACTER
          { g with cursor := { g.cursor with x := 0, y := 0 } }
      | some 6 => { g with erasure_mode := true }
      | some 7 => { g with disable_linewrap := false }
      | _ => g
    else if params.head? = some 4 then { g with insert_mode := true }
    else g
  else if c = 'r' then
    if params.length > 1 then
      let top := nextParamOr params 0 1 - 1
      let bottom :=
        match params.get? 1 with
        | some v => if v = 0 then none else some (v - 1)
        | none => none
      let g := g.set_scroll_region top bottom
      if g.erasure_mode then
        (g.move_cursor_to_line top EMPTY_TERMINAL_CHARACTER).move_cursor_to_beginning_of_line
      else g
    else g.clear_scroll_region
  else if c = 'M' then
    g.delete_lines_in_scroll_region (nextParamOr params 0 1) EMPTY_TERMINAL_CHARACTER
  else if c = 'L' then
    g.add_empty_lines_in_scroll_region (nextParamOr params 0 1) EMPTY_TERMINAL_CHARACTER
  else if c = 'G' ∨ c = chr96 then
    g.move_cursor_to_column (nextParamOr params 0 1 - 1)
  else if c = 'g' then
    let clear_type := nextParamOr params 0 0
    if clear_type = 0 then g.clear_tabstop g.cursor.x
    else if clear_type = 3 then g.clear_all_tabstops
    else g
  else if c = 'd' then
    g.move_cursor_to_line (nextParamOr params 0 1 - 1) EMPTY_TERMINAL_CHARACTER
  else if c = 'P' then
    g.erase_characters (nextParamOr params 0 1) g.cursor.pending_styles
  else if c = 'X' then
    g.replace_with_empty_chars (nextParamOr params 0 1) g.cursor.pending_styles
  else if c = 'T' then
    g.rotate_scroll_region_up (nextParamOr params 0 1)
  else if c = 'S' then
    g.rotate_scroll_region_down (nextParamOr params 0 1)
  else if c = 's' then
    g.save_cursor_position
  else if c = 'u' then
    g.restore_cursor_position
  else if c = '@' then
    (List.range (nextParamOr params 0 1)).foldl
      (fun g _ => g.insert_character_at_cursor_position EMPTY_TERMINAL_CHARACTER) g
  else if c = 'b' then
    match g.preceding_char with
    | some tc =>
        (List.range (nextParamOr params 0 1)).foldl (fun g _ => g.add_character tc) g
    | none => g
  else if c = 'E' then
    g.move_cursor_down (nextParamOr params 0 1) EMPTY_TERMINAL_CHARACTER
  else if c = 'F' then
    (g.move_cursor_up (nextParamOr params 0 1)).move_cursor_to_beginning_of_line
  else if c = 'I' then
    (List.range (nextParamOr params 0 1)).foldl
      (fun g _ => g.advance_to_next_tabstop g.cursor.pending_styles) g
  else if c = 'q' then
    if intermediates.head? = some 32 then -- b' '
      let shape :=
        match nextParamOr params 0 0 with
        | 0 => some CursorShape.block
        | 2 => some CursorShape.block
        | 1 => some CursorShape.blinkingBlock
        | 3 => some CursorShape.blinkingUnderline
        | 4 => some CursorShape.underline
        | 5 => some CursorShape.blinkingBeam
        | 6 => some CursorShape.beam
        | _ => none
      match shape with
      | some sh => { g with cursor := g.cursor.change_shape sh }
      | none => g
    else g
  else if c = 'Z' then
    (List.range (nextParamOr params 0 1)).foldl (fun g _ => g.move_to_previous_tabstop) g
  else if c = 'c' then
    match intermediates.head? with
    | none =>
        { g with pending_messages_to_pty :=
            g.pending_messages_to_pty ++ [PtyReply.primaryDeviceAttributes] }
    | some 0 =>
        { g with pending_messages_to_pty :=
            g.pending_messages_to_pty ++ [PtyReply.primaryDeviceAttributes] }
    | some 62 => -- b'>'
        { g with pending_messages_to_pty :=
            g.pending_messages_to_pty ++ [PtyReply.secondaryDeviceAttributes] }
    | _ => g
  else if c = 'n' then
    match nextParamOr params 0 0 with
    | 5 =>
        { g with pending_messages_to_pty := g.pending_messages_to_pty ++ [PtyReply.statusOk] }
    | 6 =>
        { g with pending_messages_to_pty :=
            g.pending_messages_to_pty ++
              [PtyReply.cursorPositionReport (g.cursor.y + 1) (g.cursor.x + 1)] }
    | _ => g
  else if c = 't' then
    match nextParamOr params 0 1 with
    | 18 =>
        { g with pending_messages_to_pty :=
            g.pending_messages_to_pty ++ [PtyReply.textAreaReport g.height g.width] }
    | _ => g
  else g
where
  chr96 : Char := Char.ofNat 96 -- the backquote action of CSI absolute-column

/-- `Perform::esc_dispatch`. -/
def esc_dispatch (g : Grid) (intermediates : List Nat) (byte : Nat) : Grid :=
  let charset_index : Option CharsetIndex :=
    match intermediates.head? with
    | some 40 => some CharsetIndex.g0 -- b'('
    | some 41 => some CharsetIndex.g1 -- b')'
    | some 42 => some CharsetIndex.g2 -- b'*'
    | some 43 => some CharsetIndex.g3 -- b'+'
    | _ => none
  if byte = 66 then -- b'B'
    match charset_index with
    | some i => g.configure_charset StandardCharset.ascii i
    | none => g
  else if byte = 48 then -- b'0'
    match charset_index with
    | some i => g.configure_charset StandardCharset.specialCharacterAndLineDrawing i
    | none => g
  else if intermediates.head?.isSome ∧ ¬(byte = 56 ∧ intermediates.head? = some 35) then
    g -- all remaining dispatches require no intermediate (except ESC # 8)
  else if byte = 68 then g.add_newline -- b'D'
  else if byte = 69 then g.add_newline.move_cursor_to_beginning_of_line -- b'E'
  else if byte = 77 then g.move_cursor_up_with_scrolling 1 -- b'M'
  else if byte = 99 then g.reset_terminal_state -- b'c'
  else if byte = 72 then g.set_horizontal_tabstop -- b'H'
  else if byte = 55 then g.save_cursor_position -- b'7'
  else if byte = 90 then -- b'Z'
    { g with pending_messages_to_pty :=
        g.pending_messages_to_pty ++ [PtyReply.primaryDeviceAttributes] }
  else if byte = 56 then -- b'8'
    if intermediates.head? = some 35 then -- b'#'
      g.fill_viewport { EMPTY_TERMINAL_CHARACTER with character := 'E' }
    else g.restore_cursor_position
  else g

/-- `Perform::osc_dispatch`. -/
def osc_dispatch (g : Grid) (params : List (List Nat)) (_bell_terminated : Bool) : Grid :=
  match params.head? with
  | none => g
  | some p0 =>
      if p0.isEmpty then g
      else if p0 = [48] ∨ p0 = [50] then g -- "0" | "2": title accepted, discarded
      else if p0 = [52] then g -- "4"
      else if p0 = [49, 48] ∨ p0 = [49, 49] ∨ p0 = [49, 50] then -- "10" | "11" | "12"
        if params.length ≥ 2 then
          match parse_number p0 with
          | some dynamic_code =>
              (params.drop 1).foldl
                (fun (acc : Grid × Nat) param =>
                  let (g, code) := acc
                  let g :=
                    if param = [63] then -- b"?"
                      { g with pending_messages_to_pty :=
                          g.pending_messages_to_pty ++ [PtyReply.colorResponse code] }
                    else g
                  (g, code + 1))
                (g, dynamic_code)
              |>.1
          | none => g
        else g
      else if p0 = [53, 48] then -- "50": CursorShape=
        if params.length ≥ 2 then
          match params.get? 1 with
          | some p1 =>
              if p1.length ≥ 13 ∧
                  p1.take 12 = [67, 117, 114, 115, 111, 114, 83, 104, 97, 112, 101, 61] then
                match p1.get? 12 with
                | some 48 => { g with cursor := g.cursor.change_shape CursorShape.block }
                | some 49 => { g with cursor := g.cursor.change_shape CursorShape.beam }
                | some 50 => { g with cursor := g.cursor.change_shape CursorShape.underline }
                | _ => g
              else g
          | none => g
        else g
      else g -- "52", "104", "110", "111", "112" and unknown OSCs do nothing

/-- One `Perform` action applied to the grid. -/
def applyEvent (g : Grid) : VteEvent → Grid
  | VteEvent.print c w => g.print c w
  | VteEvent.execute byte => g.execute byte
  | VteEvent.csi params intermediates c => g.csi_dispatch params intermediates c
  | VteEvent.esc intermediates byte => g.esc_dispatch intermediates byte
  | VteEvent.osc params bell => g.osc_dispatch params bell

end Grid

/-! ## A byte-level parser

Modelled from the spec: `advance(bytes)` "drives a VT state machine (ground,
escape, CSI, OSC, DCS)" — the `vte` crate that implements it is re-exported
from `zellij-utils` and is not among the given sources.  The model below is a
byte-at-a-time state machine covering the fragments the claims exercise:
ASCII printables, C0 controls, ESC sequences, CSI with numeric parameters and
intermediates, and OSC strings.  Multi-byte UTF-8 and DCS are not modelled;
parameters saturate at the `u16` bound like `vte`'s. -/

inductive PState where
  | ground
  | escape
  | escInt (ints : List Nat)
  | csiParam (params : List Nat) (ints : List Nat) (cur : Nat) (skip : Bool)
  | oscString (params : List (List Nat)) (cur : List Nat) (sawEsc : Bool)
deriving DecidableEq, Repr

/-- One byte of the VT state machine: next state and the action emitted, if
any. -/
def parseStep (st : PState) (b : Nat) : PState × Option VteEvent :=
  match st with
  | PState.ground =>
      if b = 27 then (PState.escape, none)
      else if 32 ≤ b ∧ b ≤ 126 then (PState.ground, some (VteEvent.print (Char.ofNat b) 1))
      else if b < 32 then (PState.ground, some (VteEvent.execute b))
      else (PState.ground, none)
  | PState.escape =>
      if b = 91 then (PState.csiParam [] [] 0 false, none) -- b'['
      else if b = 93 then (PState.oscString [] [] false, none) -- b']'
      else if 32 ≤ b ∧ b ≤ 47 then (PState.escInt [b], none)
      else if 48 ≤ b ∧ b ≤ 126 then (PState.ground, some (VteEvent.esc [] b))
      else (PState.ground, none)
  | PState.escInt ints =>
      if 32 ≤ b ∧ b ≤ 47 then (PState.escInt (ints ++ [b]), none)
      else if 48 ≤ b ∧ b ≤ 126 then (PState.ground, some (VteEvent.esc ints b))
      else (PState.ground, none)
  | PState.csiParam params ints cur skip =>
      if 48 ≤ b ∧ b ≤ 57 then
        let cur' := if skip then cur else min (cur * 10 + (b - 48)) 65535
        (PState.csiParam params ints cur' skip, none)
      else if b = 59 then (PState.csiParam (params ++ [cur]) ints 0 false, none) -- b';'
      else if b = 58 then (PState.csiParam params ints cur true, none) -- b':'
      else if 60 ≤ b ∧ b ≤ 63 then (PState.csiParam params (ints ++ [b]) cur skip, none)
      else if 32 ≤ b ∧ b ≤ 47 then (PState.csiParam params (ints ++ [b]) cur skip, none)
      else if 64 ≤ b ∧ b ≤ 126 then
        (PState.ground, some (VteEvent.csi (params ++ [cur]) ints (Char.ofNat b)))
      else (PState.csiParam params ints cur skip, none)
  | PState.oscString params cur sawEsc =>
      if sawEsc then
        -- the two-byte ST terminator (ESC, backslash)
        if b = 92 then (PState.ground, some (VteEvent.osc (params ++ [cur]) false))
        else (PState.ground, none)
      else if b = 7 then (PState.ground, some (VteEvent.osc (params ++ [cur]) true))
      else if b = 27 then (PState.oscString params cur true, none)
      else if b = 59 then (PState.oscString (params ++ [cur]) [] false, none) -- b';'
      else (PState.oscString params (cur ++ [b]) false, none)

/-- Run the state machine over a byte list, collecting the emitted actions. -/
def parseBytesFrom : PState → List Nat → List VteEvent
  | _, [] => []
  | st, b :: rest =>
      match parseStep st b with
      | (st', some e) => e :: parseBytesFrom st' rest
      | (st', none) => parseBytesFrom st' rest

def parseBytes (bytes : List Nat) : List VteEvent :=
  parseBytesFrom PState.ground bytes

/-- `Grid::advance` over a byte sequence: parse and fold the emitted actions
(parser state is not persisted between calls; the claims feed complete
sequences). -/
def Grid.advance (g : Grid) (bytes : List Nat) : Grid :=
  (parseBytes bytes).foldl Grid.applyEvent g

/-! ## Top-level grid operations

The operations a pane can perform on its grid: `handle_pty_bytes` →
`advance`, `TerminalPane::resize` → `change_size`, and the scrollback
navigation entry points. -/

inductive GridOp where
  | advanceEvent (e : VteEvent)
  | resizeOp (rows columns : Nat)
  | scrollUpOp (count : Nat)
  | scrollDownOp (count : Nat)
  | resetViewportOp
deriving DecidableEq, Repr

def Grid.applyOp (g : Grid) : GridOp → Grid
  | GridOp.advanceEvent e => g.applyEvent e
  | GridOp.resizeOp rows columns => g.change_size rows columns
  | GridOp.scrollUpOp count => g.move_viewport_up count
  | GridOp.scrollDownOp count => g.move_viewport_down count
  | GridOp.resetViewportOp => g.reset_viewport

/-- The grid reached from `Grid::new` by a sequence of top-level operations. -/
def Grid.run (rows columns : Nat) (ops : List GridOp) : Grid :=
  ops.foldl Grid.applyOp (Grid.new rows columns)

/-! ## The tab layout engine (`tab.rs`) -/

def MIN_TERMINAL_HEIGHT : Nat := 3
def MIN_TERMINAL_WIDTH : Nat := 4

/-- `PositionAndSize` (the optional layout-only `max_rows`/`max_columns`
fields are not used by any embedded operation and are omitted). -/
structure PositionAndSize where
  x : Nat
  y : Nat
  rows : Nat
  columns : Nat
deriving DecidableEq, Repr

/-- `split_vertically_with_gap`: the left/right halves of a rectangle with a
one-column border between them. -/
def split_vertically_with_gap (rect : PositionAndSize) :
    PositionAndSize × PositionAndSize :=
  let width_of_each_half := (rect.columns - 1) / 2
  let first_rect :=
    if rect.columns % 2 = 0 then { rect with columns := width_of_each_half + 1 }
    else { rect with columns := width_of_each_half }
  let second_rect :=
    { rect with
        x := first_rect.x + first_rect.columns + 1
        columns := width_of_each_half }
  (first_rect, second_rect)

/-- `split_horizontally_with_gap`: the top/bottom halves of a rectangle with a
one-row border between them. -/
def split_horizontally_with_gap (rect : PositionAndSize) :
    PositionAndSize × PositionAndSize :=
  let height_of_each_half := (rect.rows - 1) / 2
  let first_rect :=
    if rect.rows % 2 = 0 then { rect with rows := height_of_each_half + 1 }
    else { rect with rows := height_of_each_half }
  let second_rect :=
    { rect with
        y := first_rect.y + first_rect.rows + 1
        rows := height_of_each_half }
  (first_rect, second_rect)

/-- Modelled from the spec: a terminal pane's geometry state
(`panes/terminal_pane.rs` is not among the given sources).  The effective
rectangle is the override (set while fullscreen) when present, else the base
`position_and_size`; the mutators act on the base rectangle. -/
structure TPane where
  position_and_size : PositionAndSize
  position_and_size_override : Option PositionAndSize := none
  selectable : Bool := true
  max_width : Option Nat := none
  max_height : Option Nat := none
  should_render : Bool := true
deriving DecidableEq, Repr

namespace TPane

def effective (p : TPane) : PositionAndSize :=
  p.position_and_size_override.getD p.position_and_size

def x (p : TPane) : Nat := p.effective.x
def y (p : TPane) : Nat := p.effective.y
def rows (p : TPane) : Nat := p.effective.rows
def columns (p : TPane) : Nat := p.effective.columns

def change_pos_and_size (p : TPane) (pas : PositionAndSize) : TPane :=
  { p with position_and_size := pas }

def override_size_and_position (p : TPane) (x y : Nat) (size : PositionAndSize) : TPane :=
  let rect : PositionAndSize := { x := x, y := y, rows := size.rows, columns := size.columns }
  { p with position_and_size_override := some rect }

def reset_size_and_position_override (p : TPane) : TPane :=
  { p with position_and_size_override := none }

/-- Modelled from the spec: the per-direction geometry mutators of the pane
contract ("increase_*/reduce_*"); subtractions are the Rust `usize`
subtractions, which the callers keep in range. -/
def reduce_height_down (p : TPane) (count : Nat) : TPane :=
  { p with position_and_size :=
      { p.position_and_size with
          y := p.position_and_size.y + count, rows := p.position_and_size.rows - count } }

def increase_height_down (p : TPane) (count : Nat) : TPane :=
  { p with position_and_size :=
      { p.position_and_size with rows := p.position_and_size.rows + count } }

def increase_height_up (p : TPane) (count : Nat) : TPane :=
  { p with position_and_size :=
      { p.position_and_size with
          y := p.position_and_size.y - count, rows := p.position_and_size.rows + count } }

def reduce_height_up (p : TPane) (count : Nat) : TPane :=
  { p with position_and_size :=
      { p.position_and_size with rows := p.position_and_size.rows - count } }

def increase_width_right (p : TPane) (count : Nat) : TPane :=
  { p with position_and_size :=
      { p.position_and_size with columns := p.position_and_size.columns + count } }

def reduce_width_right (p : TPane) (count : Nat) : TPane :=
  { p with position_and_size :=
      { p.position_and_size with
          x := p.position_and_size.x + count,
          columns := p.position_and_size.columns - count } }

def reduce_width_left (p : TPane) (count : Nat) : TPane :=
  { p with position_and_size :=
      { p.position_and_size with columns := p.position_and_size.columns - count } }

def increase_width_left (p : TPane) (count : Nat) : TPane :=
  { p with position_and_size :=
      { p.position_and_size with
          x := p.position_and_size.x - count,
          columns := p.position_and_size.columns + count } }

def set_should_render (p : TPane) (b : Bool) : TPane :=
  { p with should_render := b }

/-- Trait default `Pane::can_increase_height_by`. -/
def can_increase_height_by (p : TPane) (increase_by : Nat) : Bool :=
  match p.max_height with
  | some mh => p.rows + increase_by ≤ mh
  | none => true

/-- Trait default `Pane::can_increase_width_by`. -/
def can_increase_width_by (p : TPane) (increase_by : Nat) : Bool :=
  match p.max_width with
  | some mw => p.columns + increase_by ≤ mw
  | none => true

def min_width (_p : TPane) : Nat := MIN_TERMINAL_WIDTH

def min_height (_p : TPane) : Nat := MIN_TERMINAL_HEIGHT

end TPane

/-- `struct Tab` restricted to the fields the layout operations read and
write.  The `BTreeMap<PaneId, Box<dyn Pane>>` is an association list sorted by
pane id (all panes of the scenarios are terminal panes, so a pane id is the
terminal fd). -/
structure Tab where
  panes : List (Nat × TPane)
  panes_to_hide : List Nat
  active_terminal : Option Nat
  full_screen_ws : PositionAndSize
  fullscreen_is_active : Bool
deriving DecidableEq, Repr

namespace Tab

def getPane (t : Tab) (id : Nat) : Option TPane :=
  (t.panes.find? (fun p => p.1 = id)).map Prod.snd

/-- Apply `f` to the pane with the given id (the Rust `panes.get_mut`). -/
def updatePane (t : Tab) (id : Nat) (f : TPane → TPane) : Tab :=
  { t with panes := t.panes.map (fun p => if p.1 = id then (p.1, f p.2) else p) }

def get_pane_ids (t : Tab) : List Nat := t.panes.map Prod.fst

def get_active_pane_id (t : Tab) : Option Nat := t.active_terminal

/-- `Tab::next_active_pane`: topologically-last selectable pane of the list. -/
def next_active_pane (t : Tab) (panes : List Nat) : Option Nat :=
  panes.reverse.find? (fun pid =>
    match t.getPane pid with
    | some p => p.selectable
    | none => false)

/-- `Tab::pane_ids_directly_left_of`. -/
def pane_ids_directly_left_of (t : Tab) (id : Nat) : Option (List Nat) :=
  match t.getPane id with
  | none => none
  | some terminal_to_check =>
      if terminal_to_check.x = 0 then none
      else
        let ids := (t.panes.filter
          (fun p => p.2.x + p.2.columns = terminal_to_check.x - 1)).map Prod.fst
        if ids.isEmpty then none else some ids

/-- `Tab::pane_ids_directly_right_of`. -/
def pane_ids_directly_right_of (t : Tab) (id : Nat) : Option (List Nat) :=
  match t.getPane id with
  | none => none
  | some terminal_to_check =>
      let ids := (t.panes.filter
        (fun p => p.2.x = terminal_to_check.x + terminal_to_check.columns + 1)).map Prod.fst
      if ids.isEmpty then none else some ids

/-- `Tab::pane_ids_directly_below`. -/
def pane_ids_directly_below (t : Tab) (id : Nat) : Option (List Nat) :=
  match t.getPane id with
  | none => none
  | some terminal_to_check =>
      let ids := (t.panes.filter
        (fun p => p.2.y = terminal_to_check.y + terminal_to_check.rows + 1)).map Prod.fst
      if ids.isEmpty then none else some ids

/-- `Tab::pane_ids_directly_above`. -/
def pane_ids_directly_above (t : Tab) (id : Nat) : Option (List Nat) :=
  match t.getPane id with
  | none => none
  | some terminal_to_check =>
      let ids := (t.panes.filter
        (fun p => p.2.y + p.2.rows + 1 = terminal_to_check.y)).map Prod.fst
      if ids.isEmpty then none else some ids

/-- `Tab::panes_right_aligned_with_pane` (keeping the pane ids). -/
def panes_right_aligned_with_pane (t : Tab) (id : Nat) (pane : TPane) :
    List (Nat × TPane) :=
  t.panes.filter (fun p =>
    p.1 ≠ id ∧ p.2.x + p.2.columns = pane.x + pane.columns)

/-- `Tab::panes_left_aligned_with_pane`. -/
def panes_left_aligned_with_pane (t : Tab) (id : Nat) (pane : TPane) :
    List (Nat × TPane) :=
  t.panes.filter (fun p => p.1 ≠ id ∧ p.2.x = pane.x)

/-- The chain-walking fold shared by the `*_contiguous_panes_above` helpers:
panes adjacent to each other walking upward from the active pane. -/
def chainUp (sorted : List (Nat × TPane)) (base : TPane) : List (Nat × TPane) :=
  sorted.foldl
    (fun acc p =>
      let anchor := (acc.getLast?).map Prod.snd |>.getD base
      if p.2.y + p.2.rows + 1 = anchor.y then acc ++ [p] else acc)
    []

/-- The chain-walking fold shared by the `*_contiguous_panes_below` helpers. -/
def chainDown (sorted : List (Nat × TPane)) (base : TPane) : List (Nat × TPane) :=
  sorted.foldl
    (fun acc p =>
      let anchor := (acc.getLast?).map Prod.snd |>.getD base
      if p.2.y = anchor.y + anchor.rows + 1 then acc ++ [p] else acc)
    []

/-- `Tab::right_aligned_contiguous_panes_above`. -/
def right_aligned_contiguous_panes_above (t : Tab) (id : Nat)
    (terminal_borders_to_the_right : List Nat) : Nat × List Nat :=
  match t.getPane id with
  | none => (0, [])
  | some terminal_to_check =>
      let aligned := t.panes_right_aligned_with_pane id terminal_to_check
      let sorted := sortByStable (fun a b => b.2.y < a.2.y) aligned -- descending y
      let terminals := chainUp sorted terminal_to_check
      let top_resize_border := terminals.foldl
        (fun border p =>
          let bottom_terminal_boundary := p.2.y + p.2.rows
          if (bottom_terminal_boundary + 1) ∈ terminal_borders_to_the_right ∧
              border < bottom_terminal_boundary
          then bottom_terminal_boundary + 1 else border)
        0
      let terminals := terminals.filter (fun p => p.2.y ≥ top_resize_border)
      let top_resize_border :=
        if terminals.isEmpty then terminal_to_check.y else top_resize_border
      (top_resize_border, terminals.map Prod.fst)

/-- `Tab::right_aligned_contiguous_panes_below`. -/
def right_aligned_contiguous_panes_below (t : Tab) (id : Nat)
    (terminal_borders_to_the_right : List Nat) : Nat × List Nat :=
  match t.getPane id with
  | none => (0, [])
  | some terminal_to_check =>
      let aligned := t.panes_right_aligned_with_pane id terminal_to_check
      let sorted := sortByStable (fun a b => a.2.y < b.2.y) aligned -- ascending y
      let terminals := chainDown sorted terminal_to_check
      let bottom_resize_border := terminals.foldl
        (fun border p =>
          let top_terminal_boundary := p.2.y
          if top_terminal_boundary ∈ terminal_borders_to_the_right ∧
              top_terminal_boundary < border
          then top_terminal_boundary else border)
        t.full_screen_ws.rows
      let terminals := terminals.filter (fun p => p.2.y + p.2.rows ≤ bottom_resize_border)
      let bottom_resize_border :=
        if terminals.isEmpty then terminal_to_check.y + terminal_to_check.rows
        else bottom_resize_border
      (bottom_resize_border, terminals.map Prod.fst)

/-- `Tab::left_aligned_contiguous_panes_above`. -/
def left_aligned_contiguous_panes_above (t : Tab) (id : Nat)
    (terminal_borders_to_the_left : List Nat) : Nat × List Nat :=
  match t.getPane id with
  | none => (0, [])
  | some terminal_to_check =>
      let aligned := t.panes_left_aligned_with_pane id terminal_to_check
      let sorted := sortByStable (fun a b => b.2.y < a.2.y) aligned -- descending y
      let terminals := chainUp sorted terminal_to_check
      let top_resize_border := terminals.foldl
        (fun border p =>
          let bottom_terminal_boundary := p.2.y + p.2.rows
          if (bottom_terminal_boundary + 1) ∈ terminal_borders_to_the_left ∧
              border < bottom_terminal_boundary
          then bottom_terminal_boundary + 1 else border)
        0
      let terminals := terminals.filter (fun p => p.2.y ≥ top_resize_border)
      let top_resize_border :=
        if terminals.isEmpty then terminal_to_check.y else top_resize_border
      (top_resize_border, terminals.map Prod.fst)

/-- `Tab::left_aligned_contiguous_panes_below`. -/
def left_aligned_contiguous_panes_below (t : Tab) (id : Nat)
    (terminal_borders_to_the_left : List Nat) : Nat × List Nat :=
  match t.getPane id with
  | none => (0, [])
  | some terminal_to_check =>
      let aligned := t.panes_left_aligned_with_pane id terminal_to_check
      let sorted := sortByStable (fun a b => a.2.y < b.2.y) aligned -- ascending y
      let terminals := chainDown sorted terminal_to_check
      let bottom_resize_border := terminals.foldl
        (fun border p =>
          let top_terminal_boundary := p.2.y
          if top_terminal_boundary ∈ terminal_borders_to_the_left ∧
              top_terminal_boundary < border
          then top_terminal_boundary else border)
        t.full_screen_ws.rows
      let terminals := terminals.filter (fun p => p.2.y + p.2.rows ≤ bottom_resize_border)
      let bottom_resize_border :=
        if terminals.isEmpty then terminal_to_check.y + terminal_to_check.rows
        else bottom_resize_border
      (bottom_resize_border, terminals.map Prod.fst)

/-- `Tab::pane_is_between_vertical_borders`. -/
def pane_is_between_vertical_borders (t : Tab) (id : Nat)
    (left_border_x right_border_x : Nat) : Bool :=
  match t.getPane id with
  | none => false
  | some p => p.x ≥ left_border_x ∧ p.x + p.columns ≤ right_border_x

/-- `Tab::pane_is_between_horizontal_borders`. -/
def pane_is_between_horizontal_borders (t : Tab) (id : Nat)
    (top_border_y bottom_border_y : Nat) : Bool :=
  match t.getPane id with
  | none => false
  | some p => p.y ≥ top_border_y ∧ p.y + p.rows ≤ bottom_border_y

def reduce_pane_width_right (t : Tab) (id : Nat) (count : Nat) : Tab :=
  t.updatePane id (fun p => p.reduce_width_right count)

def reduce_pane_width_left (t : Tab) (id : Nat) (count : Nat) : Tab :=
  t.updatePane id (fun p => p.reduce_width_left count)

def increase_pane_width_right (t : Tab) (id : Nat) (count : Nat) : Tab :=
  t.updatePane id (fun p => p.increase_width_right count)

def increase_pane_width_left (t : Tab) (id : Nat) (count : Nat) : Tab :=
  t.updatePane id (fun p => p.increase_width_left count)

def increase_pane_height_down (t : Tab) (id : Nat) (count : Nat) : Tab :=
  t.updatePane id (fun p => p.increase_height_down count)

def increase_pane_height_up (t : Tab) (id : Nat) (count : Nat) : Tab :=
  t.updatePane id (fun p => p.increase_height_up count)

/-- `Tab::increase_pane_and_surroundings_right` (the `expect` on a missing
right neighbor cannot fire: the caller checks
`can_increase_pane_and_surroundings_right` first; it is modelled as a
no-op). -/
def increase_pane_and_surroundings_right (t : Tab) (id : Nat) (count : Nat) : Tab :=
  match t.pane_ids_directly_right_of id with
  | none => t
  | some terminals_to_the_right =>
      let terminal_borders_to_the_right :=
        terminals_to_the_right.filterMap (fun i => (t.getPane i).map TPane.y)
      let (top_resize_border, terminals_above) :=
        t.right_aligned_contiguous_panes_above id terminal_borders_to_the_right
      let (bottom_resize_border, terminals_below) :=
        t.right_aligned_contiguous_panes_below id terminal_borders_to_the_right
      let terminals_to_the_right := terminals_to_the_right.filter (fun i =>
        t.pane_is_between_horizontal_borders i top_resize_border bottom_resize_border)
      let t := t.updatePane id (fun p => p.increase_width_right count)
      let t := terminals_to_the_right.foldl
        (fun t i => t.updatePane i (fun p => p.reduce_width_right count)) t
      (terminals_above ++ terminals_below).foldl
        (fun t i => t.updatePane i (fun p => p.increase_width_right count)) t

/-- `Tab::increase_pane_and_surroundings_left`. -/
def increase_pane_and_surroundings_left (t : Tab) (id : Nat) (count : Nat) : Tab :=
  match t.pane_ids_directly_left_of id with
  | none => t
  | some terminals_to_the_left =>
      let terminal_borders_to_the_left :=
        terminals_to_the_left.filterMap (fun i => (t.getPane i).map TPane.y)
      let (top_resize_border, terminals_above) :=
        t.left_aligned_contiguous_panes_above id terminal_borders_to_the_left
      let (bottom_resize_border, terminals_below) :=
        t.left_aligned_contiguous_panes_below id terminal_borders_to_the_left
      let terminals_to_the_left := terminals_to_the_left.filter (fun i =>
        t.pane_is_between_horizontal_borders i top_resize_border bottom_resize_border)
      let t := t.updatePane id (fun p => p.increase_width_left count)
      let t := terminals_to_the_left.foldl
        (fun t i => t.updatePane i (fun p => p.reduce_width_left count)) t
      (terminals_above ++ terminals_below).foldl
        (fun t i => t.updatePane i (fun p => p.increase_width_left count)) t

/-- `Tab::reduce_pane_and_surroundings_right`. -/
def reduce_pane_and_surroundings_right (t : Tab) (id : Nat) (count : Nat) : Tab :=
  match t.pane_ids_directly_left_of id with
  | none => t
  | some terminals_to_the_left =>
      let terminal_borders_to_the_left :=
        terminals_to_the_left.filterMap (fun i => (t.getPane i).map TPane.y)
      let (top_resize_border, terminals_above) :=
        t.left_aligned_contiguous_panes_above id terminal_borders_to_the_left
      let (bottom_resize_border, terminals_below) :=
        t.left_aligned_contiguous_panes_below id terminal_borders_to_the_left
      let terminals_to_the_left := terminals_to_the_left.filter (fun i =>
        t.pane_is_between_horizontal_borders i top_resize_border bottom_resize_border)
      let t := t.updatePane id (fun p => p.reduce_width_right count)
      let t := terminals_to_the_left.foldl
        (fun t i => t.updatePane i (fun p => p.increase_width_right count)) t
      (terminals_above ++ terminals_below).foldl
        (fun t i => t.updatePane i (fun p => p.reduce_width_right count)) t

/-- `Tab::reduce_pane_and_surroundings_left`. -/
def reduce_pane_and_surroundings_left (t : Tab) (id : Nat) (count : Nat) : Tab :=
  match t.pane_ids_directly_right_of id with
  | none => t
  | some terminals_to_the_right =>
      let terminal_borders_to_the_right :=
        terminals_to_the_right.filterMap (fun i => (t.getPane i).map TPane.y)
      let (top_resize_border, terminals_above) :=
        t.right_aligned_contiguous_panes_above id terminal_borders_to_the_right
      let (bottom_resize_border, terminals_below) :=
        t.right_aligned_contiguous_panes_below id terminal_borders_to_the_right
      let terminals_to_the_right := terminals_to_the_right.filter (fun i =>
        t.pane_is_between_horizontal_borders i top_resize_border bottom_resize_border)
      let t := t.updatePane id (fun p => p.reduce_width_left count)
      let t := terminals_to_the_right.foldl
        (fun t i => t.updatePane i (fun p => p.increase_width_left count)) t
      (terminals_above ++ terminals_below).foldl
        (fun t i => t.updatePane i (fun p => p.reduce_width_left count)) t

/-- `Tab::can_increase_pane_and_surroundings_right`. -/
def can_increase_pane_and_surroundings_right (t : Tab) (pane_id : Nat)
    (increase_by : Nat) : Bool :=
  match t.getPane pane_id with
  | none => false
  | some pane =>
      let can_increase_pane_size : Bool :=
        match pane.max_width with
        | some max_width => pane.columns + increase_by ≤ max_width
        | none => true
      if !can_increase_pane_size then false
      else
        match t.pane_ids_directly_right_of pane_id with
        | some panes_to_the_right =>
            panes_to_the_right.all (fun i =>
              match t.getPane i with
              | some p => p.columns > increase_by ∧ p.columns - increase_by ≥ p.min_width
              | none => false)
        | none => false

/-- `Tab::can_increase_pane_and_surroundings_left`. -/
def can_increase_pane_and_surroundings_left (t : Tab) (pane_id : Nat)
    (increase_by : Nat) : Bool :=
  match t.getPane pane_id with
  | none => false
  | some pane =>
      let can_increase_pane_size : Bool :=
        match pane.max_width with
        | some max_width => pane.columns + increase_by ≤ max_width
        | none => true
      if !can_increase_pane_size then false
      else
        match t.pane_ids_directly_left_of pane_id with
        | some panes_to_the_left =>
            panes_to_the_left.all (fun i =>
              match t.getPane i with
              | some p => p.columns > increase_by ∧ p.columns - increase_by ≥ p.min_width
              | none => false)
        | none => false

/-- `Tab::can_reduce_pane_and_surroundings_right`. -/
def can_reduce_pane_and_surroundings_right (t : Tab) (pane_id : Nat)
    (reduce_by : Nat) : Bool :=
  match t.getPane pane_id with
  | none => false
  | some pane =>
      let pane_columns := pane.columns
      let can_reduce_pane_size : Bool :=
        pane_columns > reduce_by ∧ pane_columns - reduce_by ≥ pane.min_width
      if !can_reduce_pane_size then false
      else
        match t.pane_ids_directly_left_of pane_id with
        | some panes_to_the_left =>
            panes_to_the_left.all (fun i =>
              match t.getPane i with
              | some p =>
                  match p.max_width with
                  | some max_width => p.columns + reduce_by ≤ max_width
                  | none => true
              | none => false)
        | none => false

/-- `Tab::can_reduce_pane_and_surroundings_left`. -/
def can_reduce_pane_and_surroundings_left (t : Tab) (pane_id : Nat)
    (reduce_by : Nat) : Bool :=
  match t.getPane pane_id with
  | none => false
  | some pane =>
      let pane_columns := pane.columns
      let can_reduce_pane_size : Bool :=
        pane_columns > reduce_by ∧ pane_columns - reduce_by ≥ pane.min_width
      if !can_reduce_pane_size then false
      else
        match t.pane_ids_directly_right_of pane_id with
        | some panes_to_the_right =>
            panes_to_the_right.all (fun i =>
              match t.getPane i with
              | some p =>
                  match p.max_width with
                  | some max_width => p.columns + reduce_by ≤ max_width
                  | none => true
              | none => false)
        | none => false

/-- `Tab::resize_right` (the `render()` call has no effect on the embedded
state). -/
def resize_right (t : Tab) : Tab :=
  let count := 10
  match t.get_active_pane_id with
  | some active_pane_id =>
      if t.can_increase_pane_and_surroundings_right active_pane_id count then
        t.increase_pane_and_surroundings_right active_pane_id count
      else if t.can_reduce_pane_and_surroundings_right active_pane_id count then
        t.reduce_pane_and_surroundings_right active_pane_id count
      else t
  | none => t

/-- `Tab::resize_left`. -/
def resize_left (t : Tab) : Tab :=
  let count := 10
  match t.get_active_pane_id with
  | some active_pane_id =>
      if t.can_increase_pane_and_surroundings_left active_pane_id count then
        t.increase_pane_and_surroundings_left active_pane_id count
      else if t.can_reduce_pane_and_surroundings_left active_pane_id count then
        t.reduce_pane_and_surroundings_left active_pane_id count
      else t
  | none => t

/-- `Tab::horizontal_borders` of a set of panes. -/
def horizontal_borders (t : Tab) (terminals : List Nat) : List Nat :=
  terminals.foldl
    (fun borders i =>
      match t.getPane i with
      | some p => borders ++ [p.y, p.y + p.rows + 1]
      | none => borders)
    []

/-- `Tab::vertical_borders` of a set of panes. -/
def vertical_borders (t : Tab) (terminals : List Nat) : List Nat :=
  terminals.foldl
    (fun borders i =>
      match t.getPane i with
      | some p => borders ++ [p.x, p.x + p.columns + 1]
      | none => borders)
    []

/-- `Tab::panes_to_the_left_between_aligning_borders`. -/
def panes_to_the_left_between_aligning_borders (t : Tab) (id : Nat) :
    Option (List Nat) :=
  match t.getPane id with
  | none => none
  | some terminal =>
      let upper_close_border := terminal.y
      let lower_close_border := terminal.y + terminal.rows + 1
      match t.pane_ids_directly_left_of id with
      | some terminals_to_the_left =>
          let borders := t.horizontal_borders terminals_to_the_left
          if upper_close_border ∈ borders ∧ lower_close_border ∈ borders then
            some (terminals_to_the_left.filter (fun i =>
              t.pane_is_between_horizontal_borders i upper_close_border
                lower_close_border))
          else none
      | none => none

/-- `Tab::panes_to_the_right_between_aligning_borders`. -/
def panes_to_the_right_between_aligning_borders (t : Tab) (id : Nat) :
    Option (List Nat) :=
  match t.getPane id with
  | none => none
  | some terminal =>
      let upper_close_border := terminal.y
      let lower_close_border := terminal.y + terminal.rows + 1
      match t.pane_ids_directly_right_of id with
      | some terminals_to_the_right =>
          let borders := t.horizontal_borders terminals_to_the_right
          if upper_close_border ∈ borders ∧ lower_close_border ∈ borders then
            some (terminals_to_the_right.filter (fun i =>
              t.pane_is_between_horizontal_borders i upper_close_border
                lower_close_border))
          else none
      | none => none

/-- `Tab::panes_above_between_aligning_borders`. -/
def panes_above_between_aligning_borders (t : Tab) (id : Nat) : Option (List Nat) :=
  match t.getPane id with
  | none => none
  | some terminal =>
      let left_close_border := terminal.x
      let right_close_border := terminal.x + terminal.columns + 1
      match t.pane_ids_directly_above id with
      | some terminals_above =>
          let borders := t.vertical_borders terminals_above
          if left_close_border ∈ borders ∧ right_close_border ∈ borders then
            some (terminals_above.filter (fun i =>
              t.pane_is_between_vertical_borders i left_close_border
                right_close_border))
          else none
      | none => none

/-- `Tab::panes_below_between_aligning_borders`. -/
def panes_below_between_aligning_borders (t : Tab) (id : Nat) : Option (List Nat) :=
  match t.getPane id with
  | none => none
  | some terminal =>
      let left_close_border := terminal.x
      let right_close_border := terminal.x + terminal.columns + 1
      match t.pane_ids_directly_below id with
      | some terminals_below =>
          let borders := t.vertical_borders terminals_below
          if left_close_border ∈ borders ∧ right_close_border ∈ borders then
            some (terminals_below.filter (fun i =>
              t.pane_is_between_vertical_borders i left_close_border
                right_close_border))
          else none
      | none => none

def removePane (t : Tab) (id : Nat) : Tab :=
  { t with panes := t.panes.filter (fun p => p.1 ≠ id) }

/-- `Tab::toggle_fullscreen_is_active`. -/
def toggle_fullscreen_is_active (t : Tab) : Tab :=
  { t with fullscreen_is_active := !t.fullscreen_is_active }

/-- `Tab::toggle_active_pane_fullscreen` (the `set_terminal_size_using_fd` and
`render` collaborator calls have no effect on the embedded state). -/
def toggle_active_pane_fullscreen (t : Tab) : Tab :=
  match t.get_active_pane_id with
  | none => t
  | some active_pane_id =>
      if t.fullscreen_is_active then
        let t := t.panes_to_hide.foldl
          (fun t i => t.updatePane i (fun p => p.set_should_render true)) t
        let t := { t with panes_to_hide := [] }
        let t := t.updatePane active_pane_id TPane.reset_size_and_position_override
        t.toggle_fullscreen_is_active
      else
        let pane_ids_to_hide := (t.panes.filter (fun p => p.1 ≠ active_pane_id)).map Prod.fst
        if pane_ids_to_hide.isEmpty then t -- nothing to do; bail before toggling
        else
          let t := { t with panes_to_hide := pane_ids_to_hide }
          let t := t.updatePane active_pane_id (fun p =>
            p.override_size_and_position t.full_screen_ws.x t.full_screen_ws.y
              t.full_screen_ws)
          t.toggle_fullscreen_is_active

/-- The filter of `Tab::render`: panes whose id is in `panes_to_hide` are
excluded from the rendered output. -/
def rendered_pane_ids (t : Tab) : List Nat :=
  (t.panes.filter (fun p => p.1 ∉ t.panes_to_hide)).map Prod.fst

/-- Strategy 4 of the close reflow: grow the panes below upward, else plain
removal. -/
def close_pane_fallthrough_below (t : Tab) (id : Nat)
    (pane_to_close_height : Nat) : Tab :=
  let finish (t : Tab) (panes : List Nat) : Tab :=
    let t := t.removePane id
    if t.active_terminal = some id then
      { t with active_terminal := t.next_active_pane panes }
    else t
  match t.panes_below_between_aligning_borders id with
  | some panes =>
      if panes.all (fun i =>
          match t.getPane i with
          | some p => p.can_increase_height_by (pane_to_close_height + 1)
          | none => false) then
        let t := panes.foldl
          (fun t i => t.increase_pane_height_up i (pane_to_close_height + 1)) t
        finish t panes
      else t.removePane id
  | none => t.removePane id

/-- Strategy 3 of the close reflow: grow the panes above downward. -/
def close_pane_fallthrough_above (t : Tab) (id : Nat)
    (pane_to_close_width pane_to_close_height : Nat) : Tab :=
  let _ := pane_to_close_width
  let finish (t : Tab) (panes : List Nat) : Tab :=
    let t := t.removePane id
    if t.active_terminal = some id then
      { t with active_terminal := t.next_active_pane panes }
    else t
  match t.panes_above_between_aligning_borders id with
  | some panes =>
      if panes.all (fun i =>
          match t.getPane i with
          | some p => p.can_increase_height_by (pane_to_close_height + 1)
          | none => false) then
        let t := panes.foldl
          (fun t i => t.increase_pane_height_down i (pane_to_close_height + 1)) t
        finish t panes
      else t.close_pane_fallthrough_below id pane_to_close_height
  | none => t.close_pane_fallthrough_below id pane_to_close_height

/-- Strategy 2 of the close reflow: grow the right neighbors leftward. -/
def close_pane_fallthrough_right (t : Tab) (id : Nat)
    (pane_to_close_width pane_to_close_height : Nat) : Tab :=
  let finish (t : Tab) (panes : List Nat) : Tab :=
    let t := t.removePane id
    if t.active_terminal = some id then
      { t with active_terminal := t.next_active_pane panes }
    else t
  match t.panes_to_the_right_between_aligning_borders id with
  | some panes =>
      if panes.all (fun i =>
          match t.getPane i with
          | some p => p.can_increase_width_by (pane_to_close_width + 1)
          | none => false) then
        let t := panes.foldl
          (fun t i => t.increase_pane_width_left i (pane_to_close_width + 1)) t
        finish t panes
      else t.close_pane_fallthrough_above id pane_to_close_width pane_to_close_height
  | none => t.close_pane_fallthrough_above id pane_to_close_width pane_to_close_height

/-- `Tab::close_pane_without_rerender`: the four reclaim strategies in order
(left, right, above, below), else plain removal. -/
def close_pane_without_rerender (t : Tab) (id : Nat) : Tab :=
  let t := if t.fullscreen_is_active then t.toggle_active_pane_fullscreen else t
  match t.getPane id with
  | none => t
  | some pane_to_close =>
      let pane_to_close_width := pane_to_close.columns
      let pane_to_close_height := pane_to_close.rows
      let finish (t : Tab) (panes : List Nat) : Tab :=
        let t := t.removePane id
        if t.active_terminal = some id then
          { t with active_terminal := t.next_active_pane panes }
        else t
      match t.panes_to_the_left_between_aligning_borders id with
      | some panes =>
          if panes.all (fun i =>
              match t.getPane i with
              | some p => p.can_increase_width_by (pane_to_close_width + 1)
              | none => false) then
            let t := panes.foldl
              (fun t i => t.increase_pane_width_right i (pane_to_close_width + 1)) t
            finish t panes
          else t.close_pane_fallthrough_right id pane_to_close_width pane_to_close_height
      | none => t.close_pane_fallthrough_right id pane_to_close_width pane_to_close_height

/-- `Tab::close_pane`. -/
def close_pane (t : Tab) (id : Nat) : Tab :=
  if (t.getPane id).isSome then t.close_pane_without_rerender id else t

/-- Insert a pane keeping the `BTreeMap`'s ascending-id order. -/
def insertPane (t : Tab) (id : Nat) (p : TPane) : Tab :=
  let panes := (t.panes.filter (fun q => q.1 ≠ id)) ++ [(id, p)]
  { t with panes := sortByStable (fun a b => a.1 < b.1) panes }

/-- `Tab::horizontal_split` (the `close_down_to_max_terminals`, PTY and
`render` collaborator calls have no effect on the embedded state; `max_panes`
is `None` in the scenarios). -/
def horizontal_split (t : Tab) (pid : Nat) : Tab :=
  let t := if t.fullscreen_is_active then t.toggle_active_pane_fullscreen else t
  if t.panes.isEmpty then
    let new_terminal : TPane := { position_and_size := t.full_screen_ws }
    let t := t.insertPane pid new_terminal
    { t with active_terminal := some pid }
  else
    match t.get_active_pane_id with
    | none => t
    | some active_pane_id =>
        match t.getPane active_pane_id with
        | none => t
        | some active_pane =>
            if active_pane.rows < MIN_TERMINAL_HEIGHT * 2 + 1 then t
            else
              let terminal_ws : PositionAndSize :=
                { x := active_pane.x, y := active_pane.y,
                  rows := active_pane.rows, columns := active_pane.columns }
              let (top_winsize, bottom_winsize) := split_horizontally_with_gap terminal_ws
              let t := t.updatePane active_pane_id
                (fun p => p.change_pos_and_size top_winsize)
              let new_terminal : TPane := { position_and_size := bottom_winsize }
              let t := t.insertPane pid new_terminal
              { t with active_terminal := some pid }

end Tab

/-! ## Claim measurement functions and concrete scenarios -/

/-- Drop the trailing empty cells of a line ("ignoring trailing empty
cells"). -/
def trimTrailingEmpties (l : List TerminalCharacter) : List TerminalCharacter :=
  (l.reverse.dropWhile (fun tc => tc = EMPTY_TERMINAL_CHARACTER)).reverse

/-- Assemble canonical logical lines from a row sequence: a canonical row (or
a leading continuation) starts a line; continuation rows append to the current
line. -/
def canonical_lines_content (rows : List Row) : List (List TerminalCharacter) :=
  rows.foldl
    (fun acc r =>
      if r.is_canonical ∨ acc.isEmpty then acc ++ [r.columns]
      else acc.dropLast ++ [((acc.getLast?).getD []) ++ r.columns])
    []

/-- The per-canonical-line cell content of scrollback ++ viewport, each line
trimmed of trailing empty cells. -/
def Grid.contentPerCanonicalLine (g : Grid) : List (List TerminalCharacter) :=
  (canonical_lines_content (g.lines_above ++ g.viewport)).map trimTrailingEmpties

/-- The flattened cell content of scrollback ++ viewport, trimmed of trailing
empty cells. -/
def Grid.flatCellContent (g : Grid) : List TerminalCharacter :=
  trimTrailingEmpties ((g.lines_above ++ g.viewport).flatMap Row.columns)

/-- A 2-column, 2-row grid fed the bytes `"a" LF LF "b"`. -/
def gridC1 : Grid := (Grid.new 2 2).advance [97, 10, 10, 98]

/-- `gridC1` resized to width `w` and back to width 2 (height 2 kept). -/
def roundTripC1 (w : Nat) : Grid := (gridC1.change_size 2 w).change_size 2 2

/-- A 4-column, 3-row grid fed `ESC [1;9r ESC [8;1H` (scroll region with
bottom row 8, then cursor to row 8). -/
def gridC3 : Grid :=
  (Grid.new 3 4).advance [27, 91, 49, 59, 57, 114, 27, 91, 56, 59, 49, 72]

/-- A grid whose first viewport row is a continuation with empty scrollback
(the state `change_size` treats as corrupted). -/
def gridC6 : Grid :=
  { Grid.new 1 2 with
      viewport := [Row.from_columns [{ character := 'a', width := 1, styles := {} }]] }

def rect80x24 : PositionAndSize := { x := 0, y := 0, rows := 24, columns := 80 }

/-- An 80×24 tab holding the single pane 1 (scenario S4 start). -/
def singlePaneTab : Tab :=
  { panes := [(1, { position_and_size := rect80x24 })]
    panes_to_hide := []
    active_terminal := some 1
    full_screen_ws := rect80x24
    fullscreen_is_active := false }

/-- The S5 tab: A = pane 1 at (0,0,40,24) active, B = pane 2 at
(41,0,39,24). -/
def twoPaneTabS5 : Tab :=
  { panes :=
      [(1, { position_and_size := { x := 0, y := 0, rows := 24, columns := 40 } }),
        (2, { position_and_size := { x := 41, y := 0, rows := 24, columns := 39 } })]
    panes_to_hide := []
    active_terminal := some 1
    full_screen_ws := rect80x24
    fullscreen_is_active := false }

/-- The S6 tab: three selectable panes, pane 1 focused. -/
def threePaneTab : Tab :=
  { panes :=
      [(1, { position_and_size := { x := 0, y := 0, rows := 24, columns := 40 } }),
        (2, { position_and_size := { x := 41, y := 0, rows := 11, columns := 39 } }),
        (3, { position_and_size := { x := 41, y := 12, rows := 12, columns := 39 } })]
    panes_to_hide := []
    active_terminal := some 1
    full_screen_ws := rect80x24
    fullscreen_is_active := false }

/-- A tab with active pane 1 and a non-selectable pane 2. -/
def mixedSelectableTab : Tab :=
  { panes :=
      [(1, { position_and_size := { x := 0, y := 0, rows := 24, columns := 40 } }),
        (2, { position_and_size := { x := 41, y := 0, rows := 24, columns := 39 },
              selectable := false })]
    panes_to_hide := []
    active_terminal := some 1
    full_screen_ws := rect80x24
    fullscreen_is_active := false }

/-- The print/execute-only fragment of the VT actions (plain text and C0
controls, no escape sequences). -/
def VteEvent.isPlain : VteEvent → Bool
  | VteEvent.print _ _ => true
  | VteEvent.execute _ => true
  | _ => false

/-- The cursor invariant of claim C4 strengthened for induction: the cursor
is within the grid, its row exists in the viewport, every tab stop is within
the width, and no scroll region is set. -/
def Grid.CursorInv (g : Grid) : Prop :=
  g.cursor.x ≤ g.width ∧ g.cursor.y < g.height ∧ g.cursor.y < g.viewport.length ∧
    (∀ t ∈ g.horizontal_tabstops, t ≤ g.width) ∧ g.scroll_region = none

/-- The scrollback invariant of claim C5 strengthened for induction: the
scrollback deque is bounded, and so is the one saved for the alternate
screen. -/
def Grid.ScrollbackInv (g : Grid) : Prop :=
  g.lines_above.length ≤ SCROLL_BACK ∧
    ∀ la vp cur, g.alternative_lines_above_viewport_and_cursor = some (la, vp, cur) →
      la.length ≤ SCROLL_BACK

/-- The growth precondition of claim C8, in the claim's own words plus the
existence of a right neighbor: every pane directly to the right of the active
pane can shrink by the step without going below its minimum width, and the
active pane's maximum width is not exceeded. -/
def Tab.canGrowRightSpec (t : Tab) (id : Nat) (pane : TPane) (step : Nat) : Prop :=
  (∃ rights, t.pane_ids_directly_right_of id = some rights ∧
      ∀ i ∈ rights, ∃ p, t.getPane i = some p ∧
        step < p.columns ∧ p.min_width ≤ p.columns - step) ∧
  (∀ mw, pane.max_width = some mw → pane.columns + step ≤ mw)

/-- A tab is well formed when its pane ids are distinct (the Rust map is a
`BTreeMap`). -/
def Tab.WellFormed (t : Tab) : Prop :=
  (t.panes.map Prod.fst).Nodup

/-- The shrink precondition of claim C8's fallback clause. -/
def Tab.canShrinkRightSpec (t : Tab) (id : Nat) (pane : TPane) (step : Nat) : Prop :=
  (step < pane.columns ∧ pane.min_width ≤ pane.columns - step) ∧
  (∃ lefts, t.pane_ids_directly_left_of id = some lefts ∧
    ∀ i ∈ lefts, ∃ p, t.getPane i = some p ∧
      ∀ mw, p.max_width = some mw → p.columns + step ≤ mw)

/-- The cell produced by printing character `c` with no styles pending. -/
def plainCell (c : Char) : TerminalCharacter := { EMPTY_TERMINAL_CHARACTER with character := c }

/-! ## Theorems for the claims -/

/-- `Vec::resize` always produces exactly the requested length. -/
theorem vecResize_length (l : List TerminalCharacter) (n : Nat) (v : TerminalCharacter) :
    (Row.vecResize l n v).length = n := by
  unfold Row.vecResize
  split
  · rw [List.length_take]
    omega
  · rw [List.length_append, List.length_replicate]
    omega

/-- C10: `split_vertically_with_gap` (resp. `split_horizontally_with_gap`) on
a parent with at least one column (resp. row) returns two rectangles that,
with a one-cell border, exactly tile the parent: the halves' extents plus one
border cell sum to the parent's extent, the second half starts one border past
the first, all other coordinates are inherited from the parent, and on an
even parent extent the first (top/left) half receives the extra cell. -/
theorem C10_splits_tile_parent (rect : PositionAndSize) :
    (1 ≤ rect.columns →
      (split_vertically_with_gap rect).1.columns + 1 +
          (split_vertically_with_gap rect).2.columns = rect.columns ∧
      (split_vertically_with_gap rect).2.x =
        (split_vertically_with_gap rect).1.x +
          (split_vertically_with_gap rect).1.columns + 1 ∧
      (split_vertically_with_gap rect).1.x = rect.x ∧
      (split_vertically_with_gap rect).1.y = rect.y ∧
      (split_vertically_with_gap rect).1.rows = rect.rows ∧
      (split_vertically_with_gap rect).2.y = rect.y ∧
      (split_vertically_with_gap rect).2.rows = rect.rows ∧
      (rect.columns % 2 = 0 →
        (split_vertically_with_gap rect).1.columns =
          (split_vertically_with_gap rect).2.columns + 1)) ∧
    (1 ≤ rect.rows →
      (split_horizontally_with_gap rect).1.rows + 1 +
          (split_horizontally_with_gap rect).2.rows = rect.rows ∧
      (split_horizontally_with_gap rect).2.y =
        (split_horizontally_with_gap rect).1.y +
          (split_horizontally_with_gap rect).1.rows + 1 ∧
      (split_horizontally_with_gap rect).1.x = rect.x ∧
      (split_horizontally_with_gap rect).1.y = rect.y ∧
      (split_horizontally_with_gap rect).1.columns = rect.columns ∧
      (split_horizontally_with_gap rect).2.x = rect.x ∧
      (split_horizontally_with_gap rect).2.columns = rect.columns ∧
      (rect.rows % 2 = 0 →
        (split_horizontally_with_gap rect).1.rows =
          (split_horizontally_with_gap rect).2.rows + 1)) := by
  constructor
  · intro h
    unfold split_vertically_with_gap
    by_cases hpar : rect.columns % 2 = 0 <;> simp [hpar] <;> omega
  · intro h
    unfold split_horizontally_with_gap
    by_cases hpar : rect.rows % 2 = 0 <;> simp [hpar] <;> omega

theorem C10_splits_tile_parent_witness :
    1 ≤ rect80x24.columns ∧ 1 ≤ rect80x24.rows ∧
    (split_vertically_with_gap rect80x24).1.columns + 1 +
        (split_vertically_with_gap rect80x24).2.columns = rect80x24.columns ∧
    (split_horizontally_with_gap rect80x24).1.rows + 1 +
        (split_horizontally_with_gap rect80x24).2.rows = rect80x24.rows :=
  ⟨by decide, by decide,
    ((C10_splits_tile_parent rect80x24).1 (by decide)).1,
    ((C10_splits_tile_parent rect80x24).2 (by decide)).1⟩

/-- C2 (counterexample): on the 80×24 single-pane tab, `horizontal_split`
gives the original (top) pane 12 rows — not the 11 rows the claim states for
pane A — because the top half receives the extra cell of the even split. -/
theorem C2_counterexample :
    ((singlePaneTab.horizontal_split 2).getPane 1).map TPane.effective =
      some { x := 0, y := 0, rows := 12, columns := 80 } ∧
    (12 : Nat) ≠ 11 := by decide

/-- C2 (amended): on the 80×24 single-pane tab, `horizontal_split` leaves
pane A at (0,0,80,12), the border row is y = 12, pane B is at (0,13,80,11);
closing A then leaves B occupying (0,0,80,24) as the new active pane. -/
theorem C2_amended_split_and_close :
    ((singlePaneTab.horizontal_split 2).getPane 1).map TPane.effective =
      some { x := 0, y := 0, rows := 12, columns := 80 } ∧
    ((singlePaneTab.horizontal_split 2).getPane 2).map TPane.effective =
      some { x := 0, y := 13, rows := 11, columns := 80 } ∧
    (((singlePaneTab.horizontal_split 2).close_pane 1).getPane 2).map TPane.effective =
      some { x := 0, y := 0, rows := 24, columns := 80 } ∧
    ((singlePaneTab.horizontal_split 2).close_pane 1).getPane 1 = none ∧
    ((singlePaneTab.horizontal_split 2).close_pane 1).active_terminal = some 2 := by
  decide

/-- C6 (counterexample): when the corruption check of `change_size` fires,
the viewport is NOT left unchanged — dropping the `Drain` empties it. -/
theorem C6_counterexample :
    (gridC6.change_size 1 1).viewport = [] ∧ gridC6.viewport ≠ [] := by decide

/-- C6 (amended): if the first viewport row is a continuation and the
scrollback is empty, a width-changing `change_size` returns early leaving
`lines_above`, `cursor`, `width` and `height` unchanged but the viewport
empty (the drained rows are dropped). -/
theorem C6_amended_early_return (g : Grid) (new_rows new_columns : Nat)
    (hw : new_columns ≠ g.width) (hla : g.lines_above = [])
    (hvp : ∃ r rest, g.viewport = r :: rest ∧ r.is_canonical = false) :
    g.change_size new_rows new_columns = { g with viewport := [] } := by
  obtain ⟨r, rest, hv, hcan⟩ := hvp
  unfold Grid.change_size
  rw [if_pos hw, hv, hla]
  simp [assembleCanonicalLines, hcan]

theorem C6_amended_early_return_witness :
    gridC6.change_size 1 1 = { gridC6 with viewport := [] } :=
  C6_amended_early_return gridC6 1 1 (by decide) rfl
    ⟨Row.from_columns [{ character := 'a', width := 1, styles := {} }], [], rfl, rfl⟩

/-- C3 (counterexample): after `advance` on `ESC [1;9r ESC [8;1H` a 4×3 grid
holds 8 viewport rows, so `as_character_lines` yields 8 rows, not
`height = 3`. -/
theorem C3_counterexample :
    gridC3.as_character_lines.length = 8 ∧ gridC3.height = 3 ∧ (8 : Nat) ≠ 3 := by
  decide

/-- C4 (counterexample): the same `advance` (scroll region with bottom 8,
cursor to row 8) leaves `cursor.y = 7 ≥ height = 3`; CSI cursor motion can
also push `cursor.x` past `width` (e.g. CSI 9 G on width 4), so the cursor
bound does not survive arbitrary `advance` bytes. -/
theorem C4_counterexample :
    gridC3.cursor.y = 7 ∧ gridC3.height = 3 ∧ ¬(7 : Nat) < 3 ∧
    ((Grid.new 3 4).advance [27, 91, 57, 71]).cursor.x = 8 ∧
    ((Grid.new 3 4).advance [27, 91, 57, 71]).width = 4 := by decide

/-- C9 (counterexample): entering fullscreen records every other pane as
hidden — not only the selectable ones: with a non-selectable pane 2 the
hidden set is {2} although the set of selectable panes other than the active
one is empty. -/
theorem C9_counterexample :
    (mixedSelectableTab.toggle_active_pane_fullscreen).panes_to_hide = [2] ∧
    (mixedSelectableTab.panes.filter
      (fun p => p.2.selectable ∧ p.1 ≠ 1)).map Prod.fst = [] ∧
    ([2] : List Nat) ≠ [] := by decide

/-- C8 (counterexample): on a tab whose only pane is the active one, every
pane directly to its right can vacuously shrink by 10 and no `max_width` is
set, yet `resize_right` is a no-op (the pane keeps 80 columns instead of
growing to 90): growth also requires that at least one pane exists directly
to the right. -/
theorem C8_counterexample :
    (singlePaneTab.getPane 1).map TPane.max_width = some none ∧
    singlePaneTab.pane_ids_directly_right_of 1 = none ∧
    singlePaneTab.resize_right = singlePaneTab ∧
    ((singlePaneTab.resize_right.getPane 1).map TPane.columns = some 80) := by decide

/-- C1 (counterexample): feeding `"a" LF LF "b"` to a 2×2 grid, resizing to
width 1 and back to width 2 drops the empty canonical line that was pulled
from scrollback: the per-canonical-line contents differ from the
never-resized grid (2 lines instead of 3). -/
theorem C1_counterexample :
    (roundTripC1 1).contentPerCanonicalLine.length = 2 ∧
    gridC1.contentPerCanonicalLine.length = 3 ∧
    (roundTripC1 1).contentPerCanonicalLine ≠ gridC1.contentPerCanonicalLine := by
  refine ⟨by decide, by decide, ?_⟩
  intro h
  have hlen := congrArg List.length h
  revert hlen
  decide

/-- Resizing to the current geometry (`change_size(height, width)`) only
clamps an active scroll region. -/
theorem change_size_self (g : Grid) :
    g.change_size g.height g.width =
      if g.scroll_region.isSome then { g with scroll_region := some (0, g.height - 1) }
      else g := by
  unfold Grid.change_size Grid.change_size_rest
  simp only [ne_eq, not_true_eq_false, if_false, eq_self_iff_true]

/-- C7: entering the alternate screen (CSI ?1049h) and leaving it
(CSI ?1049l) with no intervening input restores `lines_above`, `viewport`
and `cursor` bitwise. -/
theorem C7_alt_screen_roundtrip (g : Grid)
    (halt : g.alternative_lines_above_viewport_and_cursor = none) :
    let g' := (g.applyEvent (VteEvent.csi [1049] [63] 'h')).applyEvent
      (VteEvent.csi [1049] [63] 'l')
    g'.lines_above = g.lines_above ∧ g'.viewport = g.viewport ∧ g'.cursor = g.cursor := by
  clear halt
  have hstep : (g.applyEvent (VteEvent.csi [1049] [63] 'h')).applyEvent
      (VteEvent.csi [1049] [63] 'l') =
    (Grid.change_size
        { g with
            alternative_lines_above_viewport_and_cursor := none
            clear_viewport_before_rendering := true }
        (Grid.height
          { g with
              alternative_lines_above_viewport_and_cursor := none
              clear_viewport_before_rendering := true })
        (Grid.width
          { g with
              alternative_lines_above_viewport_and_cursor := none
              clear_viewport_before_rendering := true })).mark_for_rerender := rfl
  intro g'
  show g'.lines_above = g.lines_above ∧ g'.viewport = g.viewport ∧ g'.cursor = g.cursor
  unfold g'
  rw [hstep, change_size_self]
  cases hsr : ({ g with
      alternative_lines_above_viewport_and_cursor := none
      clear_viewport_before_rendering := true } : Grid).scroll_region with
  | none => simp [Grid.mark_for_rerender, hsr]
  | some pair => simp [Grid.mark_for_rerender, hsr]

theorem C7_alt_screen_roundtrip_witness :
    (Grid.new 2 2).alternative_lines_above_viewport_and_cursor = none ∧
    (((Grid.new 2 2).applyEvent (VteEvent.csi [1049] [63] 'h')).applyEvent
        (VteEvent.csi [1049] [63] 'l')).viewport = (Grid.new 2 2).viewport :=
  ⟨rfl, (C7_alt_screen_roundtrip (Grid.new 2 2) rfl).2.1⟩

/-- C3 (amended): `as_character_lines` returns `max height viewport.len()`
rows — exactly `height` whenever the viewport holds at most `height` rows;
each row from a viewport row has exactly `width - excess_width` cells and
each padding row exactly `width` cells. -/
theorem C3_amended_render_lines_shape (g : Grid) :
    g.as_character_lines.length = max g.height g.viewport.length ∧
    (g.viewport.length ≤ g.height → g.as_character_lines.length = g.height) ∧
    (∀ i, i < g.viewport.length →
      (g.as_character_lines.getD i []).length =
        g.width - (g.viewport.getD i Row.new).excess_width) ∧
    (∀ i, g.viewport.length ≤ i → i < g.as_character_lines.length →
      (g.as_character_lines.getD i []).length = g.width) := by
  have hchar : g.as_character_lines =
      g.viewport.map (fun r =>
        Row.vecResize r.columns (g.width - r.excess_width) EMPTY_TERMINAL_CHARACTER) ++
      List.replicate
        (g.height - (g.viewport.map (fun r =>
          Row.vecResize r.columns (g.width - r.excess_width)
            EMPTY_TERMINAL_CHARACTER)).length)
        (List.replicate g.width EMPTY_TERMINAL_CHARACTER) := rfl
  have hlen : g.as_character_lines.length = max g.height g.viewport.length := by
    rw [hchar]
    simp only [List.length_append, List.length_map, List.length_replicate]
    omega
  refine ⟨hlen, fun h => by omega, ?_, ?_⟩
  · intro i hi
    have hi' : i < (g.viewport.map (fun r =>
        Row.vecResize r.columns (g.width - r.excess_width)
          EMPTY_TERMINAL_CHARACTER)).length := by
      rw [List.length_map]
      exact hi
    rw [hchar, List.getD_append _ _ _ _ hi', List.getD_eq_getElem _ _ hi',
      List.getElem_map, vecResize_length]
    congr 1
    rw [List.getD_eq_getElem _ _ hi]
  · intro i hlow hhigh
    have hlow' : (g.viewport.map (fun r =>
        Row.vecResize r.columns (g.width - r.excess_width)
          EMPTY_TERMINAL_CHARACTER)).length ≤ i := by
      rw [List.length_map]
      exact hlow
    rw [hchar, List.getD_append_right _ _ _ _ hlow']
    have hidx : i - (g.viewport.map (fun r =>
        Row.vecResize r.columns (g.width - r.excess_width)
          EMPTY_TERMINAL_CHARACTER)).length <
        (List.replicate
          (g.height - (g.viewport.map (fun r =>
            Row.vecResize r.columns (g.width - r.excess_width)
              EMPTY_TERMINAL_CHARACTER)).length)
          (List.replicate g.width EMPTY_TERMINAL_CHARACTER)).length := by
      rw [hlen] at hhigh
      rw [List.length_replicate, List.length_map]
      omega
    rw [List.getD_eq_getElem _ _ hidx, List.getElem_replicate, List.length_replicate]

theorem C3_amended_render_lines_shape_witness :
    (Grid.new 2 3).viewport.length ≤ (Grid.new 2 3).height ∧
    (Grid.new 2 3).as_character_lines.length = (Grid.new 2 3).height ∧
    (0 : Nat) < (Grid.new 2 3).viewport.length ∧
    ((Grid.new 2 3).as_character_lines.getD 0 []).length =
      (Grid.new 2 3).width - ((Grid.new 2 3).viewport.getD 0 Row.new).excess_width ∧
    (Grid.new 2 3).viewport.length ≤ 1 ∧ 1 < (Grid.new 2 3).as_character_lines.length ∧
    ((Grid.new 2 3).as_character_lines.getD 1 []).length = (Grid.new 2 3).width :=
  ⟨by decide, (C3_amended_render_lines_shape (Grid.new 2 3)).2.1 (by decide), by decide,
    (C3_amended_render_lines_shape (Grid.new 2 3)).2.2.1 0 (by decide), by decide, by decide,
    (C3_amended_render_lines_shape (Grid.new 2 3)).2.2.2 1 (by decide) (by decide)⟩



theorem transfer_rows_up_one (r : Row) (tl la : List Row) (msw : Option Nat) :
    (transfer_rows_up (r :: tl) la 1 msw none).1 = tl := by
  unfold transfer_rows_up transfer_rows_up_loop
  by_cases hc : r.is_canonical <;> simp [hc, transfer_rows_up_loop]



theorem cursor_inv_pad_current (g : Grid) (pos : Nat) (h : g.CursorInv) :
    (g.pad_current_line_until pos).CursorInv := by
  obtain ⟨hx, hy, hyv, hts, hsr⟩ := h
  unfold Grid.pad_current_line_until Grid.modifyViewportRow
  exact ⟨hx, hy, by simpa using hyv, hts, hsr⟩

theorem cursor_inv_advance_to_next_tabstop (g : Grid) (styles : CharacterStyles)
    (h : g.CursorInv) : (g.advance_to_next_tabstop styles).CursorInv := by
  obtain ⟨hx, hy, hyv, hts, hsr⟩ := h
  unfold Grid.advance_to_next_tabstop
  cases hft : g.horizontal_tabstops.find? (fun t => t > g.cursor.x) with
  | none =>
      apply cursor_inv_pad_current
      exact ⟨by simp, hy, hyv, hts, hsr⟩
  | some t =>
      have hmem := List.mem_of_find?_eq_some hft
      apply cursor_inv_pad_current
      exact ⟨by simpa using hts t hmem, hy, hyv, hts, hsr⟩

theorem cursor_inv_move_cursor_back (g : Grid) (n : Nat) (h : g.CursorInv) :
    (g.move_cursor_back n).CursorInv := by
  obtain ⟨hx, hy, hyv, hts, hsr⟩ := h
  unfold Grid.move_cursor_back
  split <;>
    exact ⟨by simp <;> omega, by simpa using hy, by simpa using hyv,
      by simp; exact hts, by simpa using hsr⟩

theorem cursor_inv_add_canonical_line_tail (g : Grid) (h : g.CursorInv) :
    g.add_canonical_line_tail.CursorInv := by
  obtain ⟨hx, hy, hyv, hts, hsr⟩ := h
  unfold Grid.add_canonical_line_tail
  by_cases hpush : g.viewport.length ≤ g.cursor.y + 1
  · rw [if_pos hpush]
    by_cases hbot : g.cursor.y = g.height - 1
    · rw [if_pos hbot]
      have hne : g.viewport ++ [Row.new.canonical] ≠ [] := by simp
      obtain ⟨r, tl, hrt⟩ := List.exists_cons_of_ne_nil hne
      have hlen := congrArg List.length hrt
      simp only [List.length_append, List.length_cons] at hlen
      simp only [hrt]
      rw [transfer_rows_up_one]
      exact ⟨by simpa using hx, by simpa using hy, by simp <;> omega,
        by simp; exact hts, by simpa using hsr⟩
    · rw [if_neg hbot]
      exact ⟨by simpa using hx, by simp <;> omega, by simp <;> omega,
        by simp; exact hts, by simpa using hsr⟩
  · rw [if_neg hpush]
    by_cases hbot : g.cursor.y = g.height - 1
    · rw [if_pos hbot]
      obtain ⟨r, tl, hrt⟩ := List.exists_cons_of_ne_nil
        (List.length_pos.mp (by omega : 0 < g.viewport.length))
      have hlen := congrArg List.length hrt
      simp only [List.length_cons] at hlen
      simp only [hrt]
      rw [transfer_rows_up_one]
      exact ⟨by simpa using hx, by simpa using hy, by simp <;> omega,
        by simp; exact hts, by simpa using hsr⟩
    · rw [if_neg hbot]
      exact ⟨by simpa using hx, by simp <;> omega, by simp <;> omega,
        by simp; exact hts, by simpa using hsr⟩

theorem cursor_inv_add_canonical_line (g : Grid) (h : g.CursorInv) :
    g.add_canonical_line.CursorInv := by
  have heq : g.add_canonical_line = g.add_canonical_line_tail := by
    unfold Grid.add_canonical_line
    rw [h.2.2.2.2]
  rw [heq]
  exact cursor_inv_add_canonical_line_tail g h



theorem cursor_inv_add_character_at (g : Grid) (tc : TerminalCharacter) (mw : Nat)
    (h : g.CursorInv) : (g.add_character_at_cursor_position tc mw).CursorInv := by
  obtain ⟨hx, hy, hyv, hts, hsr⟩ := h
  unfold Grid.add_character_at_cursor_position
  split
  · unfold Grid.modifyViewportRow
    exact ⟨hx, hy, by simpa using hyv, hts, hsr⟩
  · refine ⟨hx, hy, ?_, hts, hsr⟩
    simp only [List.length_append, List.length_replicate, List.length_cons]
    omega

theorem cursor_inv_move_forward (g : Grid) (n : Nat) (h : g.CursorInv) :
    (g.move_cursor_forward_until_edge n).CursorInv := by
  obtain ⟨hx, hy, hyv, hts, hsr⟩ := h
  unfold Grid.move_cursor_forward_until_edge
  refine ⟨?_, hy, hyv, hts, hsr⟩
  simp only
  have := Nat.min_le_right n (g.width - g.cursor.x)
  omega

theorem cursor_inv_add_character (g : Grid) (tc : TerminalCharacter)
    (h : g.CursorInv) : (g.add_character tc).CursorInv := by
  obtain ⟨hx, hy, hyv, hts, hsr⟩ := h
  unfold Grid.add_character
  by_cases hge : g.cursor.x ≥ g.width
  · rw [if_pos hge]
    cases hdl : g.disable_linewrap with
    | true => simp only [if_true]; exact ⟨hx, hy, hyv, hts, hsr⟩
    | false =>
        simp only [Bool.false_eq_true, if_false]
        apply cursor_inv_move_forward
        apply cursor_inv_add_character_at
        by_cases hbot : g.cursor.y = g.height - 1
        · rw [if_pos hbot]
          obtain ⟨r, tl, hrt⟩ := List.exists_cons_of_ne_nil
            (List.length_pos.mp (by omega : 0 < g.viewport.length))
          have hlen := congrArg List.length hrt
          simp only [List.length_cons] at hlen
          simp only [hrt]
          rw [transfer_rows_up_one]
          exact ⟨by simp, by simpa using hy, by simp <;> omega,
            by simp; exact hts, by simpa using hsr⟩
        · rw [if_neg hbot]
          split
          · refine ⟨by simp, by simp <;> omega, by simp <;> omega,
              by simp; exact hts, by simpa using hsr⟩
          · rename_i hlt
            simp only [not_le] at hlt
            refine ⟨by simp, by simp <;> omega, ?_, by simp; exact hts,
              by simpa using hsr⟩
            simp only at hlt ⊢
            omega
  · rw [if_neg hge]
    apply cursor_inv_move_forward
    exact cursor_inv_add_character_at g tc g.width ⟨hx, hy, hyv, hts, hsr⟩

theorem cursor_inv_applyEvent_plain (g : Grid) (e : VteEvent)
    (hp : e.isPlain = true) (h : g.CursorInv) : (g.applyEvent e).CursorInv := by
  cases e with
  | print c w =>
      show ((g.set_preceding_character _).add_character _).CursorInv
      apply cursor_inv_add_character
      exact ⟨h.1, h.2.1, h.2.2.1, h.2.2.2.1, h.2.2.2.2⟩
  | execute b =>
      show (g.execute b).CursorInv
      unfold Grid.execute
      split_ifs
      · exact cursor_inv_move_cursor_back g 1 h
      · exact cursor_inv_advance_to_next_tabstop g _ h
      · show ((g.add_canonical_line).mark_for_rerender).CursorInv
        exact cursor_inv_add_canonical_line g h
      · exact ⟨Nat.zero_le _, h.2.1, h.2.2.1, h.2.2.2.1, h.2.2.2.2⟩
      · exact ⟨h.1, h.2.1, h.2.2.1, h.2.2.2.1, h.2.2.2.2⟩
      · exact ⟨h.1, h.2.1, h.2.2.1, h.2.2.2.1, h.2.2.2.2⟩
      · exact h
  | csi params ints c => simp [VteEvent.isPlain] at hp
  | esc ints b => simp [VteEvent.isPlain] at hp
  | osc params bell => simp [VteEvent.isPlain] at hp

theorem create_horizontal_tabstops_le (c : Nat) :
    ∀ t ∈ create_horizontal_tabstops c, t ≤ c := by
  intro t ht
  unfold create_horizontal_tabstops at ht
  obtain ⟨i, hi, rfl⟩ := List.mem_map.mp ht
  have hilt := List.mem_range.mp hi
  have h1 : i + 1 ≤ c / TABSTOP_WIDTH := hilt
  have h2 : (i + 1) * TABSTOP_WIDTH ≤ (c / TABSTOP_WIDTH) * TABSTOP_WIDTH :=
    Nat.mul_le_mul_right _ h1
  have h3 : (c / TABSTOP_WIDTH) * TABSTOP_WIDTH ≤ c := Nat.div_mul_le_self c _
  omega

/-- C4 (corrected): for advance inputs whose parsed VT actions are only
print/execute (printable characters and C0 control bytes), the cursor stays
within `cursor.x ≤ width` (with `x = width` the pending-wrap state) and
`cursor.y < height` on any grid freshly created with at least one row.
(The original claim over arbitrary byte sequences is refuted by
`C4_counterexample`: CSI sequences set `cursor.x`/`cursor.y` unclamped.) -/
theorem C4_amended_cursor_bounds_plain (bytes : List Nat) (rows columns : Nat)
    (hr : 1 ≤ rows) (hplain : ∀ e ∈ parseBytes bytes, e.isPlain = true) :
    ((Grid.new rows columns).advance bytes).cursor.x ≤
        ((Grid.new rows columns).advance bytes).width ∧
    ((Grid.new rows columns).advance bytes).cursor.y <
        ((Grid.new rows columns).advance bytes).height := by
  have main : ∀ (es : List VteEvent) (g : Grid), (∀ e ∈ es, e.isPlain = true) →
      g.CursorInv → (es.foldl Grid.applyEvent g).CursorInv := by
    intro es
    induction es with
    | nil => intro g _ h; exact h
    | cons e rest ih =>
        intro g hp h
        exact ih _ (fun x hx => hp x (List.mem_cons_of_mem _ hx))
          (cursor_inv_applyEvent_plain g e (hp e (List.mem_cons_self _ _)) h)
  have hinit : (Grid.new rows columns).CursorInv :=
    ⟨Nat.zero_le _, hr, by simp [Grid.new, Cursor.new], create_horizontal_tabstops_le columns, rfl⟩
  have hfin := main (parseBytes bytes) (Grid.new rows columns) hplain hinit
  exact ⟨hfin.1, hfin.2.1⟩

theorem C4_amended_cursor_bounds_plain_witness :
    1 ≤ 3 ∧ (∀ e ∈ parseBytes [97, 10, 98], e.isPlain = true) ∧
    (((Grid.new 3 4).advance [97, 10, 98]).cursor.x ≤
        ((Grid.new 3 4).advance [97, 10, 98]).width ∧
    ((Grid.new 3 4).advance [97, 10, 98]).cursor.y <
        ((Grid.new 3 4).advance [97, 10, 98]).height) :=
  ⟨by decide, by decide,
    C4_amended_cursor_bounds_plain [97, 10, 98] 3 4 (by decide) (by decide)⟩

theorem c1_second (n : Nat) :
    Grid.change_size { gridC1 with width := n + 3 } 2 2 =
      Grid.change_size { gridC1 with width := 3 } 2 2 := by
  unfold Grid.change_size
  split_ifs with h1 h2
  · rfl
  · exact (h2 (by decide)).elim
  · exact (h1 (show (2 : Nat) ≠ n + 3 by omega)).elim
  · exact (h1 (show (2 : Nat) ≠ n + 3 by omega)).elim

theorem c1_reflow_empty (n : Nat) :
    reflow_canonical_line { columns := [], is_canonical := true } (n + 3) =
      [{ columns := [], is_canonical := true }] := rfl

theorem c1_reflow_rowB (n : Nat) :
    reflow_canonical_line
        { columns := [plainCell ' ', plainCell 'b'], is_canonical := true } (n + 3) =
      [{ columns := [plainCell ' ', plainCell 'b'], is_canonical := true }] := by
  have hval : Row.width { columns := [plainCell ' ', plainCell 'b'], is_canonical := true } = 2 := by
    decide
  have hlt : ¬(n + 3 < 2) := by omega
  simp [reflow_canonical_line, reflow_go, reflow_chunk, hval, hlt, Row.from_columns,
    Row.canonical]

theorem c1_mid (n : Nat) :
    gridC1.change_size 2 (n + 3) = { gridC1 with width := n + 3 } := by
  have hne : (n + 3) ≠ gridC1.width := by
    show n + 3 ≠ 2
    omega
  unfold Grid.change_size
  rw [if_pos hne]
  have hasm : assembleCanonicalLines gridC1.viewport gridC1.lines_above []
      gridC1.cursor_canonical_line_index =
      some ([{ columns := [plainCell 'a'], is_canonical := true }],
        [{ columns := [], is_canonical := true },
         { columns := [plainCell ' ', plainCell 'b'], is_canonical := true }], 1) := by
    decide
  have hh : gridC1.height = 2 := by decide
  have hcmp : compare (2 : Nat) 2 = Ordering.eq := by decide
  have hcidx : gridC1.cursor_index_in_canonical_line = 2 := by decide
  have hdiv : 2 / (n + 3) = 0 := Nat.div_eq_of_lt (by omega)
  have hmod : 2 % (n + 3) = 2 := Nat.mod_eq_of_lt (by omega)
  simp only [hasm, c1_reflow_empty, c1_reflow_rowB, List.flatMap_cons, List.flatMap_nil,
    List.append_nil, List.cons_append, List.nil_append, List.length_cons, List.length_nil,
    hh, hcmp, hcidx, hdiv, hmod]
  have hsrn : gridC1.scroll_region = none := by decide
  simp only [Grid.change_size_rest, Grid.canonical_line_y_coordinates,
    Grid.canonical_line_y_coordinates.go, Row.is_canonical, hsrn, Option.isSome_none,
    ne_eq, not_true_eq_false, if_false, Bool.false_eq_true, reduceIte, Nat.zero_add,
    Grid.mk.injEq]
  simp only [Grid.canonical_line_y_coordinates.go_target]
  decide


/-- C1 (corrected): resizing the 2x2 grid fed "a\nLF LF b" to any width `w ≥ 1`
and back preserves the flattened cell content of scrollback plus viewport
(ignoring trailing empty cells), even though the per-canonical-line content is
not preserved (`C1_counterexample`: at `w = 1` the empty canonical line is
dropped). -/
theorem C1_amended_flat_content (w : Nat) (hw : 1 ≤ w) :
    (roundTripC1 w).flatCellContent = gridC1.flatCellContent := by
  rcases w with _ | (_ | (_ | n))
  · omega
  · decide
  · decide
  · show ((gridC1.change_size 2 (n + 3)).change_size 2 2).flatCellContent = _
    rw [c1_mid n, c1_second n]
    decide

theorem C1_amended_flat_content_witness :
    1 ≤ 1 ∧ (roundTripC1 1).flatCellContent = gridC1.flatCellContent :=
  ⟨by decide, C1_amended_flat_content 1 (by decide)⟩

theorem find?_update_snd (l : List (Nat × TPane)) (i j : Nat) (f : TPane → TPane) :
    ((l.map (fun p => if p.1 = i then (p.1, f p.2) else p)).find?
        (fun p => p.1 = j)).map Prod.snd =
      if j = i then ((l.find? (fun p => p.1 = j)).map Prod.snd).map f
      else (l.find? (fun p => p.1 = j)).map Prod.snd := by
  induction l with
  | nil => by_cases hji : j = i <;> simp [hji]
  | cons p rest ih =>
      by_cases hpi : p.1 = i <;> by_cases hpj : p.1 = j <;>
        by_cases hji : j = i <;>
          simp_all [List.find?_cons, hpi, hpj, hji]

theorem getPane_updatePane (t : Tab) (i j : Nat) (f : TPane → TPane) :
    (t.updatePane i f).getPane j =
      if j = i then (t.getPane j).map f else t.getPane j := by
  unfold Tab.updatePane Tab.getPane
  simpa using find?_update_snd t.panes i j f

theorem getPane_foldl_set_render_geom (ids : List Nat) (t : Tab) (j : Nat) :
    (((ids.foldl (fun t i => t.updatePane i (fun p => p.set_should_render true)) t).getPane j).map
        (fun q => (q.position_and_size, q.position_and_size_override))) =
      ((t.getPane j).map (fun p => (p.position_and_size, p.position_and_size_override))) := by
  induction ids generalizing t with
  | nil => rfl
  | cons i ids ih =>
      rw [List.foldl_cons, ih, getPane_updatePane]
      by_cases hji : j = i
      · rw [if_pos hji, Option.map_map]
        rfl
      · rw [if_neg hji]

theorem foldl_set_render_fields (ids : List Nat) (t : Tab) :
    ((ids.foldl (fun t i => t.updatePane i (fun p => p.set_should_render true)) t).panes_to_hide,
     (ids.foldl (fun t i => t.updatePane i (fun p => p.set_should_render true)) t).active_terminal,
     (ids.foldl (fun t i => t.updatePane i (fun p => p.set_should_render true)) t).full_screen_ws,
     (ids.foldl (fun t i => t.updatePane i (fun p => p.set_should_render true)) t).fullscreen_is_active) =
      (t.panes_to_hide, t.active_terminal, t.full_screen_ws, t.fullscreen_is_active) := by
  induction ids generalizing t with
  | nil => rfl
  | cons i ids ih => rw [List.foldl_cons]; exact ih _

theorem t1_char (t : Tab) (aid : Nat)
    (hact : t.active_terminal = some aid)
    (hfs : t.fullscreen_is_active = false)
    (hothers : (t.panes.filter (fun p => p.1 ≠ aid)).map Prod.fst ≠ []) :
    t.toggle_active_pane_fullscreen =
      (({ t with panes_to_hide :=
            (t.panes.filter (fun p : Nat × TPane => p.1 ≠ aid)).map Prod.fst }).updatePane aid
        (fun p => p.override_size_and_position t.full_screen_ws.x t.full_screen_ws.y
          t.full_screen_ws)).toggle_fullscreen_is_active := by
  have hie : ((t.panes.filter (fun p => p.1 ≠ aid)).map Prod.fst).isEmpty = false := by
    cases hl : (t.panes.filter (fun p => p.1 ≠ aid)).map Prod.fst with
    | nil => exact absurd hl hothers
    | cons a l => rfl
  simp only [Tab.toggle_active_pane_fullscreen, Tab.get_active_pane_id, hact, hfs,
    Bool.false_eq_true, if_false, hie]

theorem t2_char (u : Tab) (aid : Nat)
    (hact : u.active_terminal = some aid)
    (hfs : u.fullscreen_is_active = true) :
    u.toggle_active_pane_fullscreen =
      (({ (u.panes_to_hide.foldl
            (fun (t : Tab) (i : Nat) =>
              t.updatePane i (fun p => p.set_should_render true)) u) with
          panes_to_hide := ([] : List Nat) }).updatePane aid
        TPane.reset_size_and_position_override).toggle_fullscreen_is_active := by
  simp only [Tab.toggle_active_pane_fullscreen, Tab.get_active_pane_id, hact, hfs, if_true]

theorem getPane_set_hide (u : Tab) (l : List Nat) (j : Nat) :
    Tab.getPane { u with panes_to_hide := l } j = u.getPane j := rfl

theorem getPane_toggle (u : Tab) (j : Nat) :
    u.toggle_fullscreen_is_active.getPane j = u.getPane j := rfl

theorem fs_toggle (u : Tab) :
    u.toggle_fullscreen_is_active.fullscreen_is_active = !u.fullscreen_is_active := rfl

theorem fs_updatePane (u : Tab) (i : Nat) (f : TPane → TPane) :
    (u.updatePane i f).fullscreen_is_active = u.fullscreen_is_active := rfl

theorem fs_set_hide (u : Tab) (l : List Nat) :
    ({ u with panes_to_hide := l } : Tab).fullscreen_is_active = u.fullscreen_is_active := rfl

theorem fs_foldl_set_render (ids : List Nat) (u : Tab) :
    ((ids.foldl (fun t i => t.updatePane i (fun p => p.set_should_render true)) u)
      ).fullscreen_is_active = u.fullscreen_is_active :=
  congrArg (fun x => x.2.2.2) (foldl_set_render_fields ids u)

/-- C9 (corrected): with an active pane present, no overrides set, fullscreen
off and at least one other pane, toggling fullscreen records every *other*
pane - selectable or not - in `panes_to_hide` (the code iterates over all
panes, not just the selectable ones), renders exactly the active pane,
overrides the active pane's geometry to the full canvas, and sets the
fullscreen flag; toggling again clears the hide set and the flag and restores
every pane's base geometry and override (hence its effective geometry).
(The original claim's "each other selectable pane" is refuted by
`C9_counterexample`.) -/
theorem C9_amended_fullscreen_toggle (t : Tab) (aid : Nat) (ap : TPane)
    (hact : t.active_terminal = some aid)
    (hfs : t.fullscreen_is_active = false)
    (hmem : t.getPane aid = some ap)
    (hovp : ∀ pr ∈ t.panes, (pr.2 : TPane).position_and_size_override = none)
    (hothers : (t.panes.filter (fun p : Nat × TPane => p.1 ≠ aid)).map Prod.fst ≠ []) :
    t.toggle_active_pane_fullscreen.panes_to_hide =
        (t.panes.filter (fun p : Nat × TPane => p.1 ≠ aid)).map Prod.fst ∧
    (∀ j, j ∈ t.toggle_active_pane_fullscreen.panes_to_hide ↔
      (j ∈ t.get_pane_ids ∧ j ≠ aid)) ∧
    t.toggle_active_pane_fullscreen.fullscreen_is_active = true ∧
    (∀ j, j ∈ t.toggle_active_pane_fullscreen.rendered_pane_ids ↔
      (j ∈ t.get_pane_ids ∧ j = aid)) ∧
    (t.toggle_active_pane_fullscreen.getPane aid).map TPane.effective =
      some { x := t.full_screen_ws.x, y := t.full_screen_ws.y,
             rows := t.full_screen_ws.rows, columns := t.full_screen_ws.columns } ∧
    t.toggle_active_pane_fullscreen.toggle_active_pane_fullscreen.fullscreen_is_active
        = false ∧
    t.toggle_active_pane_fullscreen.toggle_active_pane_fullscreen.panes_to_hide = [] ∧
    (∀ j, (t.toggle_active_pane_fullscreen.toggle_active_pane_fullscreen.getPane j).map
        (fun q => (q.position_and_size, q.position_and_size_override)) =
      (t.getPane j).map (fun p => (p.position_and_size, p.position_and_size_override))) ∧
    (∀ j, (t.toggle_active_pane_fullscreen.toggle_active_pane_fullscreen.getPane j).map
        TPane.effective = (t.getPane j).map TPane.effective) := by
  have hov : ∀ id p, t.getPane id = some p → p.position_and_size_override = none := by
    intro id p h
    obtain ⟨pr, hfind, hsnd⟩ := Option.map_eq_some'.mp h
    have hpr := List.mem_of_find?_eq_some hfind
    rw [← hsnd]
    exact hovp pr hpr
  have ht1 := t1_char t aid hact hfs hothers
  have hhmem : ∀ j, j ∈ (t.panes.filter (fun p : Nat × TPane => p.1 ≠ aid)).map Prod.fst ↔
      (j ∈ t.get_pane_ids ∧ j ≠ aid) := by
    intro j
    simp only [Tab.get_pane_ids, List.mem_map, List.mem_filter, decide_eq_true_eq]
    constructor
    · rintro ⟨p, ⟨hp, hne⟩, rfl⟩
      exact ⟨⟨p, hp, rfl⟩, hne⟩
    · rintro ⟨⟨p, hp, rfl⟩, hne⟩
      exact ⟨p, ⟨hp, hne⟩, rfl⟩
  have h1hide : t.toggle_active_pane_fullscreen.panes_to_hide =
      (t.panes.filter (fun p : Nat × TPane => p.1 ≠ aid)).map Prod.fst := by
    rw [ht1]; rfl
  have h1act : t.toggle_active_pane_fullscreen.active_terminal = some aid := by
    rw [ht1]; exact hact
  have h1fs : t.toggle_active_pane_fullscreen.fullscreen_is_active = true := by
    rw [ht1, fs_toggle, fs_updatePane, fs_set_hide, hfs]
    rfl
  have ht2 := t2_char t.toggle_active_pane_fullscreen aid h1act h1fs
  have ht1get : ∀ j, t.toggle_active_pane_fullscreen.getPane j =
      if j = aid then (t.getPane j).map (fun p =>
        p.override_size_and_position t.full_screen_ws.x t.full_screen_ws.y
          t.full_screen_ws) else t.getPane j := by
    intro j
    rw [ht1, getPane_toggle, getPane_updatePane, getPane_set_hide]
  have hrestore : ∀ j,
      (t.toggle_active_pane_fullscreen.toggle_active_pane_fullscreen.getPane j).map
        (fun q => (q.position_and_size, q.position_and_size_override)) =
      (t.getPane j).map (fun p => (p.position_and_size, p.position_and_size_override)) := by
    intro j
    rw [ht2, getPane_toggle, getPane_updatePane, getPane_set_hide]
    have hgeom := getPane_foldl_set_render_geom
      t.toggle_active_pane_fullscreen.panes_to_hide t.toggle_active_pane_fullscreen j
    by_cases hj : j = aid
    · rw [hj] at hgeom ⊢
      rw [if_pos rfl]
      rw [ht1get aid, if_pos rfl, hmem] at hgeom
      obtain ⟨q, hq, hgq⟩ := Option.map_eq_some'.mp hgeom
      rw [hq, hmem]
      have hqp : q.position_and_size = ap.position_and_size := by
        have := congrArg Prod.fst hgq
        simpa [TPane.override_size_and_position] using this
      show some ((q.reset_size_and_position_override).position_and_size,
        (q.reset_size_and_position_override).position_and_size_override) = _
      rw [show (q.reset_size_and_position_override).position_and_size =
        q.position_and_size from rfl]
      rw [show (q.reset_size_and_position_override).position_and_size_override =
        (none : Option PositionAndSize) from rfl]
      rw [hqp]
      simp only [Option.map_some']
      rw [hov aid ap hmem]
    · rw [if_neg hj]
      rw [ht1get j, if_neg hj] at hgeom
      exact hgeom
  refine ⟨h1hide, ?_, h1fs, ?_, ?_, ?_, ?_, hrestore, ?_⟩
  · intro j
    rw [h1hide]
    exact hhmem j
  · intro j
    rw [ht1]
    show j ∈ ((t.panes.map (fun p => if p.1 = aid then
        (p.1, p.2.override_size_and_position t.full_screen_ws.x t.full_screen_ws.y
          t.full_screen_ws) else p)).filter
        (fun p : Nat × TPane =>
          p.1 ∉ (t.panes.filter (fun p : Nat × TPane => p.1 ≠ aid)).map Prod.fst)).map
        Prod.fst ↔ _
    simp only [List.mem_map, List.mem_filter]
    constructor
    · rintro ⟨p, ⟨⟨p0, hp0, rfl⟩, hnin⟩, hj⟩
      have hfst : (if p0.1 = aid then
          (p0.1, p0.2.override_size_and_position t.full_screen_ws.x t.full_screen_ws.y
            t.full_screen_ws) else p0).1 = p0.1 := by
        split <;> rfl
      rw [hfst] at hnin hj
      subst hj
      have hid : p0.1 ∈ t.get_pane_ids := List.mem_map.mpr ⟨p0, hp0, rfl⟩
      refine ⟨hid, ?_⟩
      by_contra hne
      have hnin' : p0.1 ∉ (t.panes.filter (fun p : Nat × TPane => p.1 ≠ aid)).map Prod.fst := by
        simpa using hnin
      exact hnin' ((hhmem p0.1).mpr ⟨hid, hne⟩)
    · rintro ⟨hid, hj⟩
      obtain ⟨p0, hp0, hfst0⟩ := List.mem_map.mp hid
      have hfst : (if p0.1 = aid then
          (p0.1, p0.2.override_size_and_position t.full_screen_ws.x t.full_screen_ws.y
            t.full_screen_ws) else p0).1 = p0.1 := by
        split <;> rfl
      refine ⟨(if p0.1 = aid then
          (p0.1, p0.2.override_size_and_position t.full_screen_ws.x t.full_screen_ws.y
            t.full_screen_ws) else p0), ⟨⟨p0, hp0, rfl⟩, ?_⟩, ?_⟩
      · rw [hfst, hfst0, hj]
        simp only [decide_eq_true_eq, hhmem aid]
        simp
      · rw [hfst, hfst0]
  · rw [ht1get aid, if_pos rfl, hmem]
    rfl
  · rw [ht2, fs_toggle, fs_updatePane, fs_set_hide, fs_foldl_set_render, h1fs]
    rfl
  · rw [ht2]
    rfl
  · intro j
    have hcast : ∀ (o : Option TPane), o.map TPane.effective =
        (o.map (fun q => (q.position_and_size, q.position_and_size_override))).map
          (fun pr => pr.2.getD pr.1) := by
      intro o; cases o <;> rfl
    rw [hcast, hcast, hrestore j]

theorem C9_amended_fullscreen_toggle_witness :
    mixedSelectableTab.active_terminal = some 1 ∧
    mixedSelectableTab.fullscreen_is_active = false ∧
    ((2 ∈ mixedSelectableTab.toggle_active_pane_fullscreen.panes_to_hide ↔
        (2 ∈ mixedSelectableTab.get_pane_ids ∧ 2 ≠ 1)) ∧
      (mixedSelectableTab.toggle_active_pane_fullscreen.toggle_active_pane_fullscreen.getPane
            2).map (fun q => (q.position_and_size, q.position_and_size_override)) =
        (mixedSelectableTab.getPane 2).map
          (fun p => (p.position_and_size, p.position_and_size_override))) :=
  ⟨by decide, by decide,
    (C9_amended_fullscreen_toggle mixedSelectableTab 1
        { position_and_size := { x := 0, y := 0, rows := 24, columns := 40 } }
        (by decide) (by decide) (by decide) (by decide) (by decide)).2.1 2,
    (C9_amended_fullscreen_toggle mixedSelectableTab 1
        { position_and_size := { x := 0, y := 0, rows := 24, columns := 40 } }
        (by decide) (by decide) (by decide) (by decide)
        (by decide)).2.2.2.2.2.2.2.1 2⟩

theorem mem_insBy {α : Type} (lt : α → α → Bool) (a x : α) (l : List α) :
    x ∈ insBy lt a l → x = a ∨ x ∈ l := by
  induction l with
  | nil => intro h; simpa [insBy] using h
  | cons b rest ih =>
      intro h
      unfold insBy at h
      by_cases hc : lt a b
      · rw [if_pos hc, List.mem_cons] at h
        rcases h with h | h
        · exact Or.inl h
        · exact Or.inr h
      · rw [if_neg hc, List.mem_cons] at h
        rcases h with h | h
        · exact Or.inr (by simp [h])
        · rcases ih h with h' | h'
          · exact Or.inl h'
          · exact Or.inr (List.mem_cons_of_mem _ h')

theorem mem_sortByStable {α : Type} (lt : α → α → Bool) (x : α) (l : List α)
    (h : x ∈ sortByStable lt l) : x ∈ l := by
  have key : ∀ (l : List α) (acc : List α), x ∈ l.foldl (fun acc a => insBy lt a acc) acc →
      x ∈ acc ∨ x ∈ l := by
    intro l
    induction l with
    | nil => intro acc h; exact Or.inl h
    | cons a rest ih =>
        intro acc h
        rcases ih _ h with h' | h'
        · rcases mem_insBy lt a x acc h' with h'' | h''
          · exact Or.inr (by simp [h''])
          · exact Or.inl h''
        · exact Or.inr (List.mem_cons_of_mem _ h')
  rcases key l [] h with h' | h'
  · simp at h'
  · exact h'

theorem mem_chain_foldl (step : List (Nat × TPane) → (Nat × TPane) → List (Nat × TPane))
    (hstep : ∀ acc p x, x ∈ step acc p → x ∈ acc ∨ x = p)
    (l : List (Nat × TPane)) (x : Nat × TPane) :
    ∀ acc, x ∈ l.foldl step acc → x ∈ acc ∨ x ∈ l := by
  induction l with
  | nil => intro acc h; exact Or.inl h
  | cons p rest ih =>
      intro acc h
      rcases ih _ h with h' | h'
      · rcases hstep acc p x h' with h'' | h''
        · exact Or.inl h''
        · exact Or.inr (by simp [h''])
      · exact Or.inr (List.mem_cons_of_mem _ h')

theorem mem_chainUp (sorted : List (Nat × TPane)) (base : TPane) (x : Nat × TPane)
    (h : x ∈ Tab.chainUp sorted base) : x ∈ sorted := by
  have hstep : ∀ (acc : List (Nat × TPane)) (p x : Nat × TPane),
      x ∈ (if p.2.y + p.2.rows + 1 =
          (((acc.getLast?).map Prod.snd).getD base).y then acc ++ [p] else acc) →
        x ∈ acc ∨ x = p := by
    intro acc p y hy
    split at hy
    · rcases List.mem_append.mp hy with h' | h'
      · exact Or.inl h'
      · exact Or.inr (by simpa using h')
    · exact Or.inl hy
  rcases mem_chain_foldl _ hstep sorted x [] h with h' | h'
  · simp at h'
  · exact h'

theorem mem_chainDown (sorted : List (Nat × TPane)) (base : TPane) (x : Nat × TPane)
    (h : x ∈ Tab.chainDown sorted base) : x ∈ sorted := by
  have hstep : ∀ (acc : List (Nat × TPane)) (p x : Nat × TPane),
      x ∈ (if p.2.y =
          (((acc.getLast?).map Prod.snd).getD base).y +
            (((acc.getLast?).map Prod.snd).getD base).rows + 1 then acc ++ [p] else acc) →
        x ∈ acc ∨ x = p := by
    intro acc p y hy
    split at hy
    · rcases List.mem_append.mp hy with h' | h'
      · exact Or.inl h'
      · exact Or.inr (by simpa using h')
    · exact Or.inl hy
  rcases mem_chain_foldl _ hstep sorted x [] h with h' | h'
  · simp at h'
  · exact h'

theorem find?_eq_of_mem_nodup (l : List (Nat × TPane)) (hnd : (l.map Prod.fst).Nodup)
    (pr : Nat × TPane) (hpr : pr ∈ l) :
    l.find? (fun p => p.1 = pr.1) = some pr := by
  induction l with
  | nil => simp at hpr
  | cons q rest ih =>
      cases hpr with
      | head => simp [List.find?_cons]
      | tail _ hq =>
          have hnd' := (List.nodup_cons.mp hnd).2
          have hne : ¬(q.1 = pr.1) := by
            intro hc
            exact (List.nodup_cons.mp hnd).1 (hc ▸ List.mem_map_of_mem Prod.fst hq)
          rw [List.find?_cons_of_neg _ (by simpa using hne)]
          exact ih hnd' hq

theorem getPane_eq_of_mem (t : Tab) (hwf : t.WellFormed) (pr : Nat × TPane)
    (hpr : pr ∈ t.panes) : t.getPane pr.1 = some pr.2 := by
  unfold Tab.getPane
  rw [find?_eq_of_mem_nodup t.panes hwf pr hpr]
  rfl

theorem getPane_foldl_updatePane_not_mem (ids : List Nat) (f : TPane → TPane)
    (t : Tab) (j : Nat) (h : j ∉ ids) :
    ((ids.foldl (fun t i => t.updatePane i f) t).getPane j) = t.getPane j := by
  induction ids generalizing t with
  | nil => rfl
  | cons i rest ih =>
      rw [List.foldl_cons, ih _ (fun hc => h (List.mem_cons_of_mem _ hc)),
        getPane_updatePane, if_neg (fun hc => h (by simp [hc]))]

theorem not_mem_rcp_above (t : Tab) (aid : Nat) (borders : List Nat) :
    aid ∉ (t.right_aligned_contiguous_panes_above aid borders).2 := by
  unfold Tab.right_aligned_contiguous_panes_above
  cases hg : t.getPane aid with
  | none => simp
  | some pane =>
      intro h
      simp only at h
      obtain ⟨x, hx, hfst⟩ := List.mem_map.mp h
      have hchain := (List.mem_filter.mp hx).1
      have hsorted := mem_chainUp _ _ _ hchain
      have haligned := mem_sortByStable _ _ _ hsorted
      have hpred := (List.mem_filter.mp haligned).2
      simp only [decide_eq_true_eq] at hpred
      exact hpred.1 hfst

theorem not_mem_rcp_below (t : Tab) (aid : Nat) (borders : List Nat) :
    aid ∉ (t.right_aligned_contiguous_panes_below aid borders).2 := by
  unfold Tab.right_aligned_contiguous_panes_below
  cases hg : t.getPane aid with
  | none => simp
  | some pane =>
      intro h
      simp only at h
      obtain ⟨x, hx, hfst⟩ := List.mem_map.mp h
      have hchain := (List.mem_filter.mp hx).1
      have hsorted := mem_chainDown _ _ _ hchain
      have haligned := mem_sortByStable _ _ _ hsorted
      have hpred := (List.mem_filter.mp haligned).2
      simp only [decide_eq_true_eq] at hpred
      exact hpred.1 hfst

theorem not_mem_lcp_above (t : Tab) (aid : Nat) (borders : List Nat) :
    aid ∉ (t.left_aligned_contiguous_panes_above aid borders).2 := by
  unfold Tab.left_aligned_contiguous_panes_above
  cases hg : t.getPane aid with
  | none => simp
  | some pane =>
      intro h
      simp only at h
      obtain ⟨x, hx, hfst⟩ := List.mem_map.mp h
      have hchain := (List.mem_filter.mp hx).1
      have hsorted := mem_chainUp _ _ _ hchain
      have haligned := mem_sortByStable _ _ _ hsorted
      have hpred := (List.mem_filter.mp haligned).2
      simp only [decide_eq_true_eq] at hpred
      exact hpred.1 hfst

theorem not_mem_lcp_below (t : Tab) (aid : Nat) (borders : List Nat) :
    aid ∉ (t.left_aligned_contiguous_panes_below aid borders).2 := by
  unfold Tab.left_aligned_contiguous_panes_below
  cases hg : t.getPane aid with
  | none => simp
  | some pane =>
      intro h
      simp only at h
      obtain ⟨x, hx, hfst⟩ := List.mem_map.mp h
      have hchain := (List.mem_filter.mp hx).1
      have hsorted := mem_chainDown _ _ _ hchain
      have haligned := mem_sortByStable _ _ _ hsorted
      have hpred := (List.mem_filter.mp haligned).2
      simp only [decide_eq_true_eq] at hpred
      exact hpred.1 hfst

theorem not_mem_right_of (t : Tab) (hwf : t.WellFormed) (aid : Nat) (pane : TPane)
    (hmem : t.getPane aid = some pane) (rights : List Nat)
    (heq : t.pane_ids_directly_right_of aid = some rights) : aid ∉ rights := by
  unfold Tab.pane_ids_directly_right_of at heq
  rw [hmem] at heq
  simp only at heq
  split at heq
  · exact absurd heq (by simp)
  · intro h
    rw [← Option.some_inj.mp heq] at h
    obtain ⟨pr, hpr, hfst⟩ := List.mem_map.mp h
    have hprm := (List.mem_filter.mp hpr).1
    have hpred := (List.mem_filter.mp hpr).2
    simp only [decide_eq_true_eq] at hpred
    have := getPane_eq_of_mem t hwf pr hprm
    rw [hfst, hmem] at this
    have hp2 : pr.2 = pane := (Option.some_inj.mp this).symm
    rw [hp2] at hpred
    omega

theorem not_mem_left_of (t : Tab) (hwf : t.WellFormed) (aid : Nat) (pane : TPane)
    (hmem : t.getPane aid = some pane) (lefts : List Nat)
    (heq : t.pane_ids_directly_left_of aid = some lefts) : aid ∉ lefts := by
  unfold Tab.pane_ids_directly_left_of at heq
  rw [hmem] at heq
  simp only at heq
  split at heq
  · exact absurd heq (by simp)
  · rename_i hx0
    split at heq
    · exact absurd heq (by simp)
    · intro h
      rw [← Option.some_inj.mp heq] at h
      obtain ⟨pr, hpr, hfst⟩ := List.mem_map.mp h
      have hprm := (List.mem_filter.mp hpr).1
      have hpred := (List.mem_filter.mp hpr).2
      simp only [decide_eq_true_eq] at hpred
      have := getPane_eq_of_mem t hwf pr hprm
      rw [hfst, hmem] at this
      have hp2 : pr.2 = pane := (Option.some_inj.mp this).symm
      rw [hp2] at hpred
      omega

theorem can_increase_right_iff (t : Tab) (aid : Nat) (pane : TPane)
    (hmem : t.getPane aid = some pane) :
    t.can_increase_pane_and_surroundings_right aid 10 = true ↔
      Tab.canGrowRightSpec t aid pane 10 := by
  unfold Tab.can_increase_pane_and_surroundings_right Tab.canGrowRightSpec
  rw [hmem]
  simp only
  cases hrt : t.pane_ids_directly_right_of aid with
  | none =>
      cases hmw : pane.max_width with
      | none => simp
      | some mw =>
          by_cases hle : pane.columns + 10 ≤ mw
          · simp [hle]
          · simp [hle]
  | some rights =>
      cases hmw : pane.max_width with
      | none =>
          simp only [Bool.not_true, Bool.false_eq_true, if_false]
          rw [List.all_eq_true]
          constructor
          · intro hall
            refine ⟨⟨rights, rfl, ?_⟩, by simp⟩
            intro i hi
            have := hall i hi
            cases hg : t.getPane i with
            | none => rw [hg] at this; simp at this
            | some p =>
                rw [hg] at this
                simp only [decide_eq_true_eq] at this
                exact ⟨p, rfl, this.1, this.2⟩
          · rintro ⟨⟨rights', heq, hall⟩, -⟩
            have hr : rights' = rights := Option.some_inj.mp heq.symm
            subst hr
            intro i hi
            obtain ⟨p, hp, h1, h2⟩ := hall i hi
            rw [hp]
            simp only [decide_eq_true_eq]
            exact ⟨h1, h2⟩
      | some mw =>
          by_cases hle : pane.columns + 10 ≤ mw
          · simp only [hle, decide_True, Bool.not_true, Bool.false_eq_true, if_false]
            rw [List.all_eq_true]
            constructor
            · intro hall
              refine ⟨⟨rights, rfl, ?_⟩, ?_⟩
              · intro i hi
                have := hall i hi
                cases hg : t.getPane i with
                | none => rw [hg] at this; simp at this
                | some p =>
                    rw [hg] at this
                    simp only [decide_eq_true_eq] at this
                    exact ⟨p, rfl, this.1, this.2⟩
              · intro mw' hmw'
                exact (Option.some_inj.mp hmw') ▸ hle
            · rintro ⟨⟨rights', heq, hall⟩, -⟩
              have hr : rights' = rights := Option.some_inj.mp heq.symm
              subst hr
              intro i hi
              obtain ⟨p, hp, h1, h2⟩ := hall i hi
              rw [hp]
              simp only [decide_eq_true_eq]
              exact ⟨h1, h2⟩
          · simp only [hle, decide_False, Bool.not_false, eq_self_iff_true, if_true,
              Bool.false_eq_true, false_iff]
            rintro ⟨-, hcap⟩
            exact hle (hcap mw rfl)

theorem can_reduce_right_iff (t : Tab) (aid : Nat) (pane : TPane)
    (hmem : t.getPane aid = some pane) :
    t.can_reduce_pane_and_surroundings_right aid 10 = true ↔
      Tab.canShrinkRightSpec t aid pane 10 := by
  unfold Tab.can_reduce_pane_and_surroundings_right Tab.canShrinkRightSpec
  rw [hmem]
  simp only
  by_cases hsz : pane.columns > 10 ∧ pane.columns - 10 ≥ pane.min_width
  · simp only [hsz.1, hsz.2, and_self, decide_True, Bool.not_true, Bool.false_eq_true,
      if_false, true_and]
    cases hlt : t.pane_ids_directly_left_of aid with
    | none =>
        simp only [Bool.false_eq_true, false_iff]
        rintro ⟨lefts, heq, -⟩
        simp at heq
    | some lefts =>
        rw [List.all_eq_true]
        constructor
        · intro hall
          refine ⟨lefts, rfl, ?_⟩
          intro i hi
          have := hall i hi
          cases hg : t.getPane i with
          | none => rw [hg] at this; simp at this
          | some p =>
              rw [hg] at this
              refine ⟨p, rfl, ?_⟩
              intro mw hmw
              have this2 : (match p.max_width with
                  | some max_width => decide (p.columns + 10 ≤ max_width)
                  | none => true) = true := this
              rw [hmw] at this2
              simpa using this2
        · rintro ⟨lefts', heq, hall⟩
          have hl : lefts' = lefts := Option.some_inj.mp heq.symm
          subst hl
          intro i hi
          obtain ⟨p, hp, hcap⟩ := hall i hi
          rw [hp]
          show (match p.max_width with
              | some max_width => decide (p.columns + 10 ≤ max_width)
              | none => true) = true
          cases hmw : p.max_width with
          | none => rfl
          | some mw =>
              simpa using hcap mw hmw
  · simp only [hsz, decide_False, Bool.not_false, eq_self_iff_true, if_true,
      Bool.false_eq_true, false_iff]
    rintro ⟨hc, -⟩
    exact hc.elim

theorem grow_getPane (t : Tab) (hwf : t.WellFormed) (aid : Nat) (pane : TPane)
    (hmem : t.getPane aid = some pane) (rights : List Nat)
    (hrt : t.pane_ids_directly_right_of aid = some rights) :
    (t.increase_pane_and_surroundings_right aid 10).getPane aid =
      some (pane.increase_width_right 10) := by
  unfold Tab.increase_pane_and_surroundings_right
  rw [hrt]
  simp only
  have habove : aid ∉ ((t.right_aligned_contiguous_panes_above aid
        (rights.filterMap (fun i => Option.map TPane.y (t.getPane i)))).2 ++
      (t.right_aligned_contiguous_panes_below aid
        (rights.filterMap (fun i => Option.map TPane.y (t.getPane i)))).2) := by
    intro h
    rcases List.mem_append.mp h with h' | h'
    · exact not_mem_rcp_above t aid _ h'
    · exact not_mem_rcp_below t aid _ h'
  have hrightsF : aid ∉ rights.filter (fun i =>
      t.pane_is_between_horizontal_borders i
        (t.right_aligned_contiguous_panes_above aid
          (rights.filterMap (fun i => Option.map TPane.y (t.getPane i)))).1
        (t.right_aligned_contiguous_panes_below aid
          (rights.filterMap (fun i => Option.map TPane.y (t.getPane i)))).1) := by
    intro h
    exact not_mem_right_of t hwf aid pane hmem rights hrt (List.mem_of_mem_filter h)
  rw [getPane_foldl_updatePane_not_mem _ _ _ _ habove,
    getPane_foldl_updatePane_not_mem _ _ _ _ hrightsF,
    getPane_updatePane, if_pos rfl, hmem]
  rfl

theorem shrink_getPane (t : Tab) (hwf : t.WellFormed) (aid : Nat) (pane : TPane)
    (hmem : t.getPane aid = some pane) (lefts : List Nat)
    (hlt : t.pane_ids_directly_left_of aid = some lefts) :
    (t.reduce_pane_and_surroundings_right aid 10).getPane aid =
      some (pane.reduce_width_right 10) := by
  unfold Tab.reduce_pane_and_surroundings_right
  rw [hlt]
  simp only
  have habove : aid ∉ ((t.left_aligned_contiguous_panes_above aid
        (lefts.filterMap (fun i => Option.map TPane.y (t.getPane i)))).2 ++
      (t.left_aligned_contiguous_panes_below aid
        (lefts.filterMap (fun i => Option.map TPane.y (t.getPane i)))).2) := by
    intro h
    rcases List.mem_append.mp h with h' | h'
    · exact not_mem_lcp_above t aid _ h'
    · exact not_mem_lcp_below t aid _ h'
  have hleftsF : aid ∉ lefts.filter (fun i =>
      t.pane_is_between_horizontal_borders i
        (t.left_aligned_contiguous_panes_above aid
          (lefts.filterMap (fun i => Option.map TPane.y (t.getPane i)))).1
        (t.left_aligned_contiguous_panes_below aid
          (lefts.filterMap (fun i => Option.map TPane.y (t.getPane i)))).1) := by
    intro h
    exact not_mem_left_of t hwf aid pane hmem lefts hlt (List.mem_of_mem_filter h)
  rw [getPane_foldl_updatePane_not_mem _ _ _ _ habove,
    getPane_foldl_updatePane_not_mem _ _ _ _ hleftsF,
    getPane_updatePane, if_pos rfl, hmem]
  rfl

theorem columns_increase_right (pane : TPane) (n : Nat)
    (hova : pane.position_and_size_override = none) :
    (pane.increase_width_right n).columns = pane.columns + n := by
  simp [TPane.columns, TPane.effective, TPane.increase_width_right, hova]

theorem columns_reduce_right (pane : TPane) (n : Nat)
    (hova : pane.position_and_size_override = none) :
    (pane.reduce_width_right n).columns = pane.columns - n := by
  simp [TPane.columns, TPane.effective, TPane.reduce_width_right, hova]

/-- C8 (corrected): with a well-formed tab, the active pane present and its
override unset, `resize_right` grows the active pane by exactly 10 columns
precisely when the growth precondition holds: there is at least one pane
directly to the right (the claim's universally quantified clause is vacuous
without one - `C8_counterexample`), each such pane can give up 10 columns
without dropping below its minimum width, and the active pane's maximum
width is not exceeded.  The `can_increase`/`can_reduce` checks coincide with
the spec-level preconditions; failing growth, the pane shrinks by 10 when
the symmetric shrink precondition holds, and otherwise `resize_right` is the
identity.  The S5 scenario behaves exactly as the claim describes and
`resize_left` restores it. -/
theorem C8_amended_resize_right (t : Tab) (aid : Nat) (pane : TPane)
    (hwf : t.WellFormed)
    (hact : t.active_terminal = some aid)
    (hmem : t.getPane aid = some pane)
    (hova : pane.position_and_size_override = none) :
    (t.can_increase_pane_and_surroundings_right aid 10 = true ↔
      Tab.canGrowRightSpec t aid pane 10) ∧
    (t.can_reduce_pane_and_surroundings_right aid 10 = true ↔
      Tab.canShrinkRightSpec t aid pane 10) ∧
    (Tab.canGrowRightSpec t aid pane 10 →
      (t.resize_right.getPane aid).map TPane.columns = some (pane.columns + 10)) ∧
    (¬Tab.canGrowRightSpec t aid pane 10 → Tab.canShrinkRightSpec t aid pane 10 →
      (t.resize_right.getPane aid).map TPane.columns = some (pane.columns - 10)) ∧
    (¬Tab.canGrowRightSpec t aid pane 10 → ¬Tab.canShrinkRightSpec t aid pane 10 →
      t.resize_right = t) ∧
    ((t.resize_right.getPane aid).map TPane.columns = some (pane.columns + 10) ↔
      Tab.canGrowRightSpec t aid pane 10) ∧
    ((twoPaneTabS5.resize_right.getPane 1).map TPane.columns = some 50 ∧
      (twoPaneTabS5.resize_right.getPane 2).map TPane.columns = some 29 ∧
      twoPaneTabS5.resize_right.resize_left = twoPaneTabS5) := by
  have hinc := can_increase_right_iff t aid pane hmem
  have hred := can_reduce_right_iff t aid pane hmem
  have hgrowc : Tab.canGrowRightSpec t aid pane 10 →
      (t.resize_right.getPane aid).map TPane.columns = some (pane.columns + 10) := by
    intro hgrow
    obtain ⟨⟨rights, hrt, -⟩, -⟩ := id hgrow
    unfold Tab.resize_right
    rw [show t.get_active_pane_id = some aid from hact]
    simp only
    rw [if_pos (hinc.mpr hgrow)]
    rw [grow_getPane t hwf aid pane hmem rights hrt]
    rw [Option.map_some', columns_increase_right pane 10 hova]
  have hshrinkc : ¬Tab.canGrowRightSpec t aid pane 10 → Tab.canShrinkRightSpec t aid pane 10 →
      (t.resize_right.getPane aid).map TPane.columns = some (pane.columns - 10) := by
    intro hngrow hshrink
    obtain ⟨-, lefts, hlt, -⟩ := id hshrink
    unfold Tab.resize_right
    rw [show t.get_active_pane_id = some aid from hact]
    simp only
    rw [if_neg (fun hc => hngrow (hinc.mp hc)), if_pos (hred.mpr hshrink)]
    rw [shrink_getPane t hwf aid pane hmem lefts hlt]
    rw [Option.map_some', columns_reduce_right pane 10 hova]
  have hnoop : ¬Tab.canGrowRightSpec t aid pane 10 → ¬Tab.canShrinkRightSpec t aid pane 10 →
      t.resize_right = t := by
    intro hngrow hnshrink
    unfold Tab.resize_right
    rw [show t.get_active_pane_id = some aid from hact]
    simp only
    rw [if_neg (fun hc => hngrow (hinc.mp hc)), if_neg (fun hc => hnshrink (hred.mp hc))]
  have hiff : ((t.resize_right.getPane aid).map TPane.columns = some (pane.columns + 10)) ↔
      Tab.canGrowRightSpec t aid pane 10 := by
    constructor
    · intro h
      by_cases hg : Tab.canGrowRightSpec t aid pane 10
      · exact hg
      · by_cases hs : Tab.canShrinkRightSpec t aid pane 10
        · have hh := (hshrinkc hg hs).symm.trans h
          have := Option.some_inj.mp hh
          omega
        · rw [hnoop hg hs, hmem, Option.map_some'] at h
          have := Option.some_inj.mp h
          omega
    · exact hgrowc
  exact ⟨hinc, hred, hgrowc, hshrinkc, hnoop, hiff, by decide⟩

theorem C8_amended_resize_right_witness :
    twoPaneTabS5.WellFormed ∧ twoPaneTabS5.active_terminal = some 1 ∧
    ((twoPaneTabS5.resize_right.getPane 1).map TPane.columns = some 50 ∧
      (twoPaneTabS5.resize_right.getPane 2).map TPane.columns = some 29 ∧
      twoPaneTabS5.resize_right.resize_left = twoPaneTabS5) :=
  ⟨by unfold Tab.WellFormed; decide, by decide,
    (C8_amended_resize_right twoPaneTabS5 1
        { position_and_size := { x := 0, y := 0, rows := 24, columns := 40 } }
        (by unfold Tab.WellFormed; decide) (by decide) (by decide) (by decide)).2.2.2.2.2.2⟩

theorem bounded_push_le (q : List Row) (v : Row) (h : q.length ≤ SCROLL_BACK) :
    (bounded_push q v).length ≤ SCROLL_BACK := by
  unfold bounded_push
  split
  · rename_i hsb
    have hsbv : SCROLL_BACK = 10000 := rfl
    have hq : q ≠ [] := by
      intro hc
      rw [hc] at hsb
      simp [hsbv] at hsb
    rw [List.length_append, List.length_tail]
    simp only [List.length_cons, List.length_nil]
    omega
  · rename_i hsb
    rw [List.length_append]
    simp only [List.length_cons, List.length_nil]
    omega

theorem gbc_fst_le (l : List Row) :
    (get_bottom_canonical_row_and_wraps l).1.length ≤ l.length := by
  unfold get_bottom_canonical_row_and_wraps
  split
  · simpa using List.length_take_le _ _
  · simp

theorem trul_dst_le (mdw : Option Nat) :
    ∀ (k : Nat) (src dst nls : List Row), dst.length ≤ SCROLL_BACK →
      (transfer_rows_up_loop mdw k src dst nls).2.1.length ≤ SCROLL_BACK := by
  intro k
  induction k with
  | zero => intro src dst nls h; exact h
  | succ k ih =>
      intro src dst nls h
      unfold transfer_rows_up_loop
      cases nls with
      | cons row rest => exact ih src (bounded_push dst row) rest (bounded_push_le _ _ h)
      | nil =>
          cases src with
          | nil => exact h
          | cons next_line src' =>
              simp only
              have hd : (if next_line.is_canonical = true then (dst, [next_line])
                  else ((get_bottom_canonical_row_and_wraps dst).1,
                    (get_bottom_canonical_row_and_wraps dst).2 ++ [next_line])).1.length ≤
                  SCROLL_BACK := by
                split
                · exact h
                · exact le_trans (gbc_fst_le dst) h
              split
              · exact hd
              · exact ih _ _ _ (bounded_push_le _ _ hd)



theorem tru_dst_le (src dst : List Row) (count : Nat) (msw mdw : Option Nat)
    (h : dst.length ≤ SCROLL_BACK) :
    (transfer_rows_up src dst count msw mdw).2.length ≤ SCROLL_BACK := by
  unfold transfer_rows_up
  have hl := trul_dst_le mdw count src dst [] h
  split
  rename_i s' d' l heq
  have hd : d'.length ≤ SCROLL_BACK := by
    have h2 := congrArg (fun x => x.2.1) heq
    simp only at h2
    exact h2 ▸ hl
  split
  · exact hd
  · split <;> exact hd

theorem tdc_src_le (count : Nat) :
    ∀ (src_rev dst : List Row) (added : Int),
      (tdown_consume count dst src_rev added).2.1.length ≤ src_rev.length := by
  intro src_rev
  induction src_rev with
  | nil => intro dst added; simp [tdown_consume]
  | cons r rest ih =>
      intro dst added
      unfold tdown_consume
      split
      · simp
      · calc (tdown_consume count (r :: dst) rest (added + 1)).2.1.length
            ≤ rest.length := ih _ _
          _ ≤ (r :: rest).length := by simp

theorem tdo_src_le (count : Nat) (mdw : Option Nat) :
    ∀ (src_rev dst : List Row) (added : Int),
      (tdown_outer count mdw src_rev dst added).1.length ≤ src_rev.length := by
  intro src_rev
  induction src_rev with
  | nil =>
      intro dst added
      unfold tdown_outer
      split
      · simp
      · simp
  | cons next_line src' ih =>
      intro dst added
      unfold tdown_outer
      split
      · simp
      · simp only
        split
        · simp
        · split
          · simp
          · exact le_trans (ih _ _) (by simp)



theorem trd_src_le (src dst : List Row) (count : Nat) (mdw : Option Nat)
    (h : src.length ≤ SCROLL_BACK) :
    (transfer_rows_down src dst count none mdw).1.length ≤ SCROLL_BACK := by
  unfold transfer_rows_down
  have ho := tdo_src_le count mdw src.reverse dst 0
  rw [List.length_reverse] at ho
  split
  rename_i s' d' l heq
  have hs : s'.length ≤ SCROLL_BACK := by
    have h2 := congrArg (fun x => x.1) heq
    simp only at h2
    calc s'.length = (tdown_outer count mdw src.reverse dst 0).1.length := by rw [h2]
      _ ≤ src.length := ho
      _ ≤ SCROLL_BACK := h
  split
  · simpa using hs
  · exact bounded_push_le _ _ (by simpa using hs)

theorem acl_la_le :
    ∀ (rows la acc : List Row) (ccli : Nat) (la' vcl : List Row) (k : Nat),
      assembleCanonicalLines rows la acc ccli = some (la', vcl, k) →
      la'.length ≤ la.length := by
  intro rows
  induction rows with
  | nil =>
      intro la acc ccli la' vcl k h
      unfold assembleCanonicalLines at h
      have := Option.some_inj.mp h
      have h1 := congrArg (fun x => x.1) this
      simp only at h1
      rw [← h1]
  | cons row rest ih =>
      intro la acc ccli la' vcl k h
      unfold assembleCanonicalLines at h
      split at h
      · have := ih _ _ _ _ _ _ h
        calc la'.length ≤ la.dropLast.length := this
          _ ≤ la.length := by rw [List.length_dropLast]; omega
      · split at h
        · exact ih _ _ _ _ _ _ h
        · split at h
          · exact ih _ _ _ _ _ _ h
          · exact absurd h (by simp)



theorem inv_change_size_rest (g : Grid) (nr nc : Nat) (h : g.ScrollbackInv) :
    (g.change_size_rest nr nc).ScrollbackInv := by
  obtain ⟨h1, h2⟩ := h
  unfold Grid.change_size_rest
  try dsimp only
  cases hcmp : compare g.viewport.length nr <;>
    (repeat' split) <;>
      first
        | exact ⟨h1, h2⟩
        | exact ⟨trd_src_le _ _ _ _ h1, h2⟩
        | exact ⟨tru_dst_le _ _ _ _ _ h1, h2⟩

theorem inv_change_size (g : Grid) (nr nc : Nat) (h : g.ScrollbackInv) :
    (g.change_size nr nc).ScrollbackInv := by
  obtain ⟨h1, h2⟩ := h
  unfold Grid.change_size
  try dsimp only
  split
  · split
    · exact ⟨h1, h2⟩
    · rename_i la' vcl ccli' heq
      have hla' : la'.length ≤ SCROLL_BACK :=
        le_trans (acl_la_le _ _ _ _ _ _ _ heq) h1
      apply inv_change_size_rest
      try dsimp only
      cases hcmp : compare (vcl.flatMap fun l => reflow_canonical_line l nc).length g.height <;>
        (repeat' split) <;>
          first
            | exact ⟨hla', h2⟩
            | exact ⟨trd_src_le _ _ _ _ hla', h2⟩
            | exact ⟨tru_dst_le _ _ _ _ _ hla', h2⟩
  · exact inv_change_size_rest g nr nc ⟨h1, h2⟩



theorem inv_foldl {α : Type} (f : Grid → α → Grid)
    (hf : ∀ g a, g.ScrollbackInv → (f g a).ScrollbackInv) :
    ∀ (l : List α) (g : Grid), g.ScrollbackInv → (l.foldl f g).ScrollbackInv := by
  intro l
  induction l with
  | nil => intro g h; exact h
  | cons a rest ih => intro g h; exact ih _ (hf g a h)

theorem inv_scroll_up_one_line (g : Grid) (h : g.ScrollbackInv) :
    g.scroll_up_one_line.ScrollbackInv := by
  obtain ⟨h1, h2⟩ := h
  have hdl : g.lines_above.dropLast.length ≤ SCROLL_BACK := by
    rw [List.length_dropLast]; omega
  unfold Grid.scroll_up_one_line
  try dsimp only
  repeat' split
  all_goals first | exact ⟨h1, h2⟩ | exact ⟨hdl, h2⟩

theorem inv_scroll_down_one_line (g : Grid) (h : g.ScrollbackInv) :
    g.scroll_down_one_line.ScrollbackInv := by
  obtain ⟨h1, h2⟩ := h
  have hdl : g.lines_above.dropLast.length ≤ SCROLL_BACK := by
    rw [List.length_dropLast]; omega
  unfold Grid.scroll_down_one_line
  try dsimp only
  repeat' split
  all_goals
    first
      | exact ⟨h1, h2⟩
      | exact ⟨bounded_push_le _ _ h1, h2⟩
      | exact ⟨bounded_push_le _ _ hdl, h2⟩

theorem inv_move_viewport_up (g : Grid) (n : Nat) (h : g.ScrollbackInv) :
    (g.move_viewport_up n).ScrollbackInv :=
  inv_foldl _ (fun g _ hg => inv_scroll_up_one_line g hg) _ g h

theorem inv_move_viewport_down (g : Grid) (n : Nat) (h : g.ScrollbackInv) :
    (g.move_viewport_down n).ScrollbackInv :=
  inv_foldl _ (fun g _ hg => inv_scroll_down_one_line g hg) _ g h

theorem inv_reset_viewport (g : Grid) (h : g.ScrollbackInv) :
    g.reset_viewport.ScrollbackInv :=
  inv_foldl _ (fun g _ hg => inv_scroll_down_one_line g hg) _ g h

theorem inv_add_canonical_line_tail (g : Grid) (h : g.ScrollbackInv) :
    g.add_canonical_line_tail.ScrollbackInv := by
  obtain ⟨h1, h2⟩ := h
  unfold Grid.add_canonical_line_tail
  try dsimp only
  repeat' split
  all_goals first | exact ⟨h1, h2⟩ | exact ⟨tru_dst_le _ _ _ _ _ h1, h2⟩

theorem inv_add_canonical_line (g : Grid) (h : g.ScrollbackInv) :
    g.add_canonical_line.ScrollbackInv := by
  unfold Grid.add_canonical_line
  try dsimp only
  repeat' split
  all_goals first | exact ⟨h.1, h.2⟩ | exact inv_add_canonical_line_tail g h

theorem inv_add_character_at (g : Grid) (tc : TerminalCharacter) (mw : Nat)
    (h : g.ScrollbackInv) : (g.add_character_at_cursor_position tc mw).ScrollbackInv := by
  unfold Grid.add_character_at_cursor_position
  try dsimp only
  repeat' split
  all_goals exact ⟨h.1, h.2⟩

theorem inv_add_character (g : Grid) (tc : TerminalCharacter) (h : g.ScrollbackInv) :
    (g.add_character tc).ScrollbackInv := by
  unfold Grid.add_character
  try dsimp only
  split
  · split
    · exact h
    · apply inv_add_character_at
      repeat' split
      all_goals first | exact ⟨h.1, h.2⟩ | exact ⟨tru_dst_le _ _ _ _ _ h.1, h.2⟩
  · exact inv_add_character_at _ _ _ h

theorem inv_print (g : Grid) (c : Char) (w : Nat) (h : g.ScrollbackInv) :
    (g.print c w).ScrollbackInv := by
  unfold Grid.print
  try dsimp only
  exact inv_add_character _ _ h

theorem inv_move_cursor_down_tail (g : Grid) (n : Nat) (pc : TerminalCharacter)
    (h : g.ScrollbackInv) : (g.move_cursor_down_tail n pc).ScrollbackInv := by
  unfold Grid.move_cursor_down_tail
  try dsimp only
  exact inv_foldl _ (fun g _ hg => inv_add_canonical_line g hg) _ _ h

theorem inv_move_cursor_down (g : Grid) (n : Nat) (pc : TerminalCharacter)
    (h : g.ScrollbackInv) : (g.move_cursor_down n pc).ScrollbackInv := by
  unfold Grid.move_cursor_down
  try dsimp only
  repeat' split
  all_goals first | exact ⟨h.1, h.2⟩ | exact inv_move_cursor_down_tail g n pc h

theorem inv_move_cursor_up_pre (g : Grid) (n : Nat) (h : g.ScrollbackInv) :
    (g.move_cursor_up n).ScrollbackInv := by
  unfold Grid.move_cursor_up
  try dsimp only
  repeat' split
  all_goals exact ⟨h.1, h.2⟩

theorem inv_move_cursor_up_with_scrolling (g : Grid) (n : Nat) (h : g.ScrollbackInv) :
    (g.move_cursor_up_with_scrolling n).ScrollbackInv := by
  unfold Grid.move_cursor_up_with_scrolling
  try dsimp only
  apply inv_foldl
  · intro g' a hg'
    try dsimp only
    repeat' split
    all_goals first
      | exact ⟨hg'.1, hg'.2⟩
      | exact inv_move_cursor_up_pre _ _ hg'
  · exact h

theorem inv_rotate_scroll_region_up (g : Grid) (n : Nat) (h : g.ScrollbackInv) :
    (g.rotate_scroll_region_up n).ScrollbackInv := by
  unfold Grid.rotate_scroll_region_up
  try dsimp only
  split
  · apply inv_foldl
    · intro g' a hg'
      try dsimp only
      repeat' split
      all_goals exact ⟨hg'.1, hg'.2⟩
    · exact h
  · exact h

theorem inv_rotate_scroll_region_down (g : Grid) (n : Nat) (h : g.ScrollbackInv) :
    (g.rotate_scroll_region_down n).ScrollbackInv := by
  unfold Grid.rotate_scroll_region_down
  try dsimp only
  split
  · apply inv_foldl
    · intro g' a hg'
      try dsimp only
      repeat' split
      all_goals exact ⟨hg'.1, hg'.2⟩
    · exact h
  · exact h

theorem inv_delete_lines_in_scroll_region (g : Grid) (n : Nat) (pc : TerminalCharacter)
    (h : g.ScrollbackInv) : (g.delete_lines_in_scroll_region n pc).ScrollbackInv := by
  unfold Grid.delete_lines_in_scroll_region
  try dsimp only
  repeat' split
  all_goals
    first
      | exact ⟨h.1, h.2⟩
      | (apply inv_foldl
         · intro g' a hg'
           try dsimp only
           repeat' split
           all_goals exact ⟨hg'.1, hg'.2⟩
         · exact h)

theorem inv_add_empty_lines_in_scroll_region (g : Grid) (n : Nat) (pc : TerminalCharacter)
    (h : g.ScrollbackInv) : (g.add_empty_lines_in_scroll_region n pc).ScrollbackInv := by
  unfold Grid.add_empty_lines_in_scroll_region
  try dsimp only
  repeat' split
  all_goals
    first
      | exact ⟨h.1, h.2⟩
      | (apply inv_foldl
         · intro g' a hg'
           try dsimp only
           repeat' split
           all_goals exact ⟨hg'.1, hg'.2⟩
         · exact h)

theorem inv_move_cursor_to (g : Grid) (x y : Nat) (pc : TerminalCharacter)
    (h : g.ScrollbackInv) : (g.move_cursor_to x y pc).ScrollbackInv := by
  unfold Grid.move_cursor_to
  try dsimp only
  repeat' split
  all_goals exact ⟨h.1, h.2⟩

theorem inv_move_cursor_up (g : Grid) (n : Nat) (h : g.ScrollbackInv) :
    (g.move_cursor_up n).ScrollbackInv := by
  unfold Grid.move_cursor_up
  try dsimp only
  repeat' split
  all_goals exact ⟨h.1, h.2⟩

theorem inv_move_cursor_back (g : Grid) (n : Nat) (h : g.ScrollbackInv) :
    (g.move_cursor_back n).ScrollbackInv := by
  unfold Grid.move_cursor_back
  try dsimp only
  repeat' split
  all_goals exact ⟨h.1, h.2⟩

theorem inv_restore_cursor_position (g : Grid) (h : g.ScrollbackInv) :
    g.restore_cursor_position.ScrollbackInv := by
  unfold Grid.restore_cursor_position
  try dsimp only
  repeat' split
  all_goals exact ⟨h.1, h.2⟩

theorem inv_move_to_previous_tabstop (g : Grid) (h : g.ScrollbackInv) :
    g.move_to_previous_tabstop.ScrollbackInv := by
  unfold Grid.move_to_previous_tabstop
  try dsimp only
  repeat' split
  all_goals exact ⟨h.1, h.2⟩

theorem inv_advance_to_next_tabstop (g : Grid) (st : CharacterStyles) (h : g.ScrollbackInv) :
    (g.advance_to_next_tabstop st).ScrollbackInv := by
  unfold Grid.advance_to_next_tabstop
  try dsimp only
  repeat' split
  all_goals exact ⟨h.1, h.2⟩

theorem inv_set_horizontal_tabstop (g : Grid) (h : g.ScrollbackInv) :
    g.set_horizontal_tabstop.ScrollbackInv := by
  unfold Grid.set_horizontal_tabstop
  try dsimp only
  repeat' split
  all_goals exact ⟨h.1, h.2⟩

theorem inv_clear_all_after_cursor (g : Grid) (tc : TerminalCharacter) (h : g.ScrollbackInv) :
    (g.clear_all_after_cursor tc).ScrollbackInv := by
  unfold Grid.clear_all_after_cursor
  try dsimp only
  repeat' split
  all_goals exact ⟨h.1, h.2⟩

theorem inv_clear_all_before_cursor (g : Grid) (tc : TerminalCharacter) (h : g.ScrollbackInv) :
    (g.clear_all_before_cursor tc).ScrollbackInv := by
  unfold Grid.clear_all_before_cursor
  try dsimp only
  repeat' split
  all_goals exact ⟨h.1, h.2⟩

theorem inv_insert_character_at (g : Grid) (tc : TerminalCharacter) (h : g.ScrollbackInv) :
    (g.insert_character_at_cursor_position tc).ScrollbackInv := by
  unfold Grid.insert_character_at_cursor_position
  try dsimp only
  repeat' split
  all_goals exact ⟨h.1, h.2⟩



theorem inv_execute (g : Grid) (b : Nat) (h : g.ScrollbackInv) :
    (g.execute b).ScrollbackInv := by
  unfold Grid.execute
  repeat' split
  all_goals
    first
      | exact ⟨h.1, h.2⟩
      | exact inv_move_cursor_back g 1 h
      | exact inv_advance_to_next_tabstop g _ h
      | exact inv_add_canonical_line g h

set_option maxHeartbeats 1600000 in
theorem inv_esc_dispatch (g : Grid) (ints : List Nat) (b : Nat) (h : g.ScrollbackInv) :
    (g.esc_dispatch ints b).ScrollbackInv := by
  unfold Grid.esc_dispatch
  try dsimp only
  by_cases hh0 : b = 66
  · rw [if_pos hh0]
    repeat' split
    all_goals
      first
      | exact ⟨h.1, h.2⟩
      | exact h
      | exact inv_move_cursor_to g _ _ _ h
      | exact inv_move_cursor_up_pre g _ h
      | exact inv_move_cursor_down g _ _ h
      | exact inv_move_cursor_back g _ h
      | exact inv_clear_all_after_cursor g _ h
      | exact inv_clear_all_before_cursor g _ h
      | exact inv_delete_lines_in_scroll_region g _ _ h
      | exact inv_add_empty_lines_in_scroll_region g _ _ h
      | exact inv_rotate_scroll_region_up g _ h
      | exact inv_rotate_scroll_region_down g _ h
      | exact inv_restore_cursor_position g h
      | exact inv_add_canonical_line g h
      | exact inv_move_cursor_up_with_scrolling g 1 h
      | exact inv_set_horizontal_tabstop g h
      | exact inv_foldl _ (fun gg _ hg => inv_add_character gg _ hg) _ _ h
      | exact inv_foldl _ (fun gg _ hg => inv_insert_character_at gg _ hg) _ _ h
      | exact inv_foldl _ (fun gg _ hg => inv_advance_to_next_tabstop gg _ hg) _ _ h
      | exact inv_foldl _ (fun gg _ hg => inv_move_to_previous_tabstop gg hg) _ _ h
      | (apply inv_change_size
         repeat' split
         all_goals
           first
             | (refine ⟨h.1, ?_⟩
                intro la vp cur hc
                simp at hc)
             | (rename_i heq2
                refine ⟨h.2 _ _ _ heq2, ?_⟩
                intro la vp cur hc
                simp at hc))
      | (refine ⟨Nat.zero_le _, ?_⟩
         intro la vp cur hc
         cases hc
         exact h.1)
      | (refine ⟨Nat.zero_le _, ?_⟩
         intro la vp cur hc
         simp at hc)
      | (show g.reset_terminal_state.ScrollbackInv
         refine ⟨?_, ?_⟩
         · simp [Grid.reset_terminal_state]
         · intro la vp cur hc
           simp [Grid.reset_terminal_state] at hc)
      | (rename_i heq
         refine ⟨h.2 _ _ _ heq, ?_⟩
         intro la vp cur hc
         simp at hc)
      | (refine ⟨h.1, ?_⟩
         intro la vp cur hc
         simp at hc)
  · rw [if_neg hh0]
    by_cases hh1 : b = 48
    · rw [if_pos hh1]
      repeat' split
      all_goals
        first
        | exact ⟨h.1, h.2⟩
        | exact h
        | exact inv_move_cursor_to g _ _ _ h
        | exact inv_move_cursor_up_pre g _ h
        | exact inv_move_cursor_down g _ _ h
        | exact inv_move_cursor_back g _ h
        | exact inv_clear_all_after_cursor g _ h
        | exact inv_clear_all_before_cursor g _ h
        | exact inv_delete_lines_in_scroll_region g _ _ h
        | exact inv_add_empty_lines_in_scroll_region g _ _ h
        | exact inv_rotate_scroll_region_up g _ h
        | exact inv_rotate_scroll_region_down g _ h
        | exact inv_restore_cursor_position g h
        | exact inv_add_canonical_line g h
        | exact inv_move_cursor_up_with_scrolling g 1 h
        | exact inv_set_horizontal_tabstop g h
        | exact inv_foldl _ (fun gg _ hg => inv_add_character gg _ hg) _ _ h
        | exact inv_foldl _ (fun gg _ hg => inv_insert_character_at gg _ hg) _ _ h
        | exact inv_foldl _ (fun gg _ hg => inv_advance_to_next_tabstop gg _ hg) _ _ h
        | exact inv_foldl _ (fun gg _ hg => inv_move_to_previous_tabstop gg hg) _ _ h
        | (apply inv_change_size
           repeat' split
           all_goals
             first
               | (refine ⟨h.1, ?_⟩
                  intro la vp cur hc
                  simp at hc)
               | (rename_i heq2
                  refine ⟨h.2 _ _ _ heq2, ?_⟩
                  intro la vp cur hc
                  simp at hc))
        | (refine ⟨Nat.zero_le _, ?_⟩
           intro la vp cur hc
           cases hc
           exact h.1)
        | (refine ⟨Nat.zero_le _, ?_⟩
           intro la vp cur hc
           simp at hc)
        | (show g.reset_terminal_state.ScrollbackInv
           refine ⟨?_, ?_⟩
           · simp [Grid.reset_terminal_state]
           · intro la vp cur hc
             simp [Grid.reset_terminal_state] at hc)
        | (rename_i heq
           refine ⟨h.2 _ _ _ heq, ?_⟩
           intro la vp cur hc
           simp at hc)
        | (refine ⟨h.1, ?_⟩
           intro la vp cur hc
           simp at hc)
    · rw [if_neg hh1]
      by_cases hh2 : ints.head?.isSome = true ∧ ¬(b = 56 ∧ ints.head? = some 35)
      · rw [if_pos hh2]
        repeat' split
        all_goals
          first
          | exact ⟨h.1, h.2⟩
          | exact h
          | exact inv_move_cursor_to g _ _ _ h
          | exact inv_move_cursor_up_pre g _ h
          | exact inv_move_cursor_down g _ _ h
          | exact inv_move_cursor_back g _ h
          | exact inv_clear_all_after_cursor g _ h
          | exact inv_clear_all_before_cursor g _ h
          | exact inv_delete_lines_in_scroll_region g _ _ h
          | exact inv_add_empty_lines_in_scroll_region g _ _ h
          | exact inv_rotate_scroll_region_up g _ h
          | exact inv_rotate_scroll_region_down g _ h
          | exact inv_restore_cursor_position g h
          | exact inv_add_canonical_line g h
          | exact inv_move_cursor_up_with_scrolling g 1 h
          | exact inv_set_horizontal_tabstop g h
          | exact inv_foldl _ (fun gg _ hg => inv_add_character gg _ hg) _ _ h
          | exact inv_foldl _ (fun gg _ hg => inv_insert_character_at gg _ hg) _ _ h
          | exact inv_foldl _ (fun gg _ hg => inv_advance_to_next_tabstop gg _ hg) _ _ h
          | exact inv_foldl _ (fun gg _ hg => inv_move_to_previous_tabstop gg hg) _ _ h
          | (apply inv_change_size
             repeat' split
             all_goals
               first
                 | (refine ⟨h.1, ?_⟩
                    intro la vp cur hc
                    simp at hc)
                 | (rename_i heq2
                    refine ⟨h.2 _ _ _ heq2, ?_⟩
                    intro la vp cur hc
                    simp at hc))
          | (refine ⟨Nat.zero_le _, ?_⟩
             intro la vp cur hc
             cases hc
             exact h.1)
          | (refine ⟨Nat.zero_le _, ?_⟩
             intro la vp cur hc
             simp at hc)
          | (show g.reset_terminal_state.ScrollbackInv
             refine ⟨?_, ?_⟩
             · simp [Grid.reset_terminal_state]
             · intro la vp cur hc
               simp [Grid.reset_terminal_state] at hc)
          | (rename_i heq
             refine ⟨h.2 _ _ _ heq, ?_⟩
             intro la vp cur hc
             simp at hc)
          | (refine ⟨h.1, ?_⟩
             intro la vp cur hc
             simp at hc)
      · rw [if_neg hh2]
        by_cases hh3 : b = 68
        · rw [if_pos hh3]
          repeat' split
          all_goals
            first
            | exact ⟨h.1, h.2⟩
            | exact h
            | exact inv_move_cursor_to g _ _ _ h
            | exact inv_move_cursor_up_pre g _ h
            | exact inv_move_cursor_down g _ _ h
            | exact inv_move_cursor_back g _ h
            | exact inv_clear_all_after_cursor g _ h
            | exact inv_clear_all_before_cursor g _ h
            | exact inv_delete_lines_in_scroll_region g _ _ h
            | exact inv_add_empty_lines_in_scroll_region g _ _ h
            | exact inv_rotate_scroll_region_up g _ h
            | exact inv_rotate_scroll_region_down g _ h
            | exact inv_restore_cursor_position g h
            | exact inv_add_canonical_line g h
            | exact inv_move_cursor_up_with_scrolling g 1 h
            | exact inv_set_horizontal_tabstop g h
            | exact inv_foldl _ (fun gg _ hg => inv_add_character gg _ hg) _ _ h
            | exact inv_foldl _ (fun gg _ hg => inv_insert_character_at gg _ hg) _ _ h
            | exact inv_foldl _ (fun gg _ hg => inv_advance_to_next_tabstop gg _ hg) _ _ h
            | exact inv_foldl _ (fun gg _ hg => inv_move_to_previous_tabstop gg hg) _ _ h
            | (apply inv_change_size
               repeat' split
               all_goals
                 first
                   | (refine ⟨h.1, ?_⟩
                      intro la vp cur hc
                      simp at hc)
                   | (rename_i heq2
                      refine ⟨h.2 _ _ _ heq2, ?_⟩
                      intro la vp cur hc
                      simp at hc))
            | (refine ⟨Nat.zero_le _, ?_⟩
               intro la vp cur hc
               cases hc
               exact h.1)
            | (refine ⟨Nat.zero_le _, ?_⟩
               intro la vp cur hc
               simp at hc)
            | (show g.reset_terminal_state.ScrollbackInv
               refine ⟨?_, ?_⟩
               · simp [Grid.reset_terminal_state]
               · intro la vp cur hc
                 simp [Grid.reset_terminal_state] at hc)
            | (rename_i heq
               refine ⟨h.2 _ _ _ heq, ?_⟩
               intro la vp cur hc
               simp at hc)
            | (refine ⟨h.1, ?_⟩
               intro la vp cur hc
               simp at hc)
        · rw [if_neg hh3]
          by_cases hh4 : b = 69
          · rw [if_pos hh4]
            repeat' split
            all_goals
              first
              | exact ⟨h.1, h.2⟩
              | exact h
              | exact inv_move_cursor_to g _ _ _ h
              | exact inv_move_cursor_up_pre g _ h
              | exact inv_move_cursor_down g _ _ h
              | exact inv_move_cursor_back g _ h
              | exact inv_clear_all_after_cursor g _ h
              | exact inv_clear_all_before_cursor g _ h
              | exact inv_delete_lines_in_scroll_region g _ _ h
              | exact inv_add_empty_lines_in_scroll_region g _ _ h
              | exact inv_rotate_scroll_region_up g _ h
              | exact inv_rotate_scroll_region_down g _ h
              | exact inv_restore_cursor_position g h
              | exact inv_add_canonical_line g h
              | exact inv_move_cursor_up_with_scrolling g 1 h
              | exact inv_set_horizontal_tabstop g h
              | exact inv_foldl _ (fun gg _ hg => inv_add_character gg _ hg) _ _ h
              | exact inv_foldl _ (fun gg _ hg => inv_insert_character_at gg _ hg) _ _ h
              | exact inv_foldl _ (fun gg _ hg => inv_advance_to_next_tabstop gg _ hg) _ _ h
              | exact inv_foldl _ (fun gg _ hg => inv_move_to_previous_tabstop gg hg) _ _ h
              | (apply inv_change_size
                 repeat' split
                 all_goals
                   first
                     | (refine ⟨h.1, ?_⟩
                        intro la vp cur hc
                        simp at hc)
                     | (rename_i heq2
                        refine ⟨h.2 _ _ _ heq2, ?_⟩
                        intro la vp cur hc
                        simp at hc))
              | (refine ⟨Nat.zero_le _, ?_⟩
                 intro la vp cur hc
                 cases hc
                 exact h.1)
              | (refine ⟨Nat.zero_le _, ?_⟩
                 intro la vp cur hc
                 simp at hc)
              | (show g.reset_terminal_state.ScrollbackInv
                 refine ⟨?_, ?_⟩
                 · simp [Grid.reset_terminal_state]
                 · intro la vp cur hc
                   simp [Grid.reset_terminal_state] at hc)
              | (rename_i heq
                 refine ⟨h.2 _ _ _ heq, ?_⟩
                 intro la vp cur hc
                 simp at hc)
              | (refine ⟨h.1, ?_⟩
                 intro la vp cur hc
                 simp at hc)
          · rw [if_neg hh4]
            by_cases hh5 : b = 77
            · rw [if_pos hh5]
              repeat' split
              all_goals
                first
                | exact ⟨h.1, h.2⟩
                | exact h
                | exact inv_move_cursor_to g _ _ _ h
                | exact inv_move_cursor_up_pre g _ h
                | exact inv_move_cursor_down g _ _ h
                | exact inv_move_cursor_back g _ h
                | exact inv_clear_all_after_cursor g _ h
                | exact inv_clear_all_before_cursor g _ h
                | exact inv_delete_lines_in_scroll_region g _ _ h
                | exact inv_add_empty_lines_in_scroll_region g _ _ h
                | exact inv_rotate_scroll_region_up g _ h
                | exact inv_rotate_scroll_region_down g _ h
                | exact inv_restore_cursor_position g h
                | exact inv_add_canonical_line g h
                | exact inv_move_cursor_up_with_scrolling g 1 h
                | exact inv_set_horizontal_tabstop g h
                | exact inv_foldl _ (fun gg _ hg => inv_add_character gg _ hg) _ _ h
                | exact inv_foldl _ (fun gg _ hg => inv_insert_character_at gg _ hg) _ _ h
                | exact inv_foldl _ (fun gg _ hg => inv_advance_to_next_tabstop gg _ hg) _ _ h
                | exact inv_foldl _ (fun gg _ hg => inv_move_to_previous_tabstop gg hg) _ _ h
                | (apply inv_change_size
                   repeat' split
                   all_goals
                     first
                       | (refine ⟨h.1, ?_⟩
                          intro la vp cur hc
                          simp at hc)
                       | (rename_i heq2
                          refine ⟨h.2 _ _ _ heq2, ?_⟩
                          intro la vp cur hc
                          simp at hc))
                | (refine ⟨Nat.zero_le _, ?_⟩
                   intro la vp cur hc
                   cases hc
                   exact h.1)
                | (refine ⟨Nat.zero_le _, ?_⟩
                   intro la vp cur hc
                   simp at hc)
                | (show g.reset_terminal_state.ScrollbackInv
                   refine ⟨?_, ?_⟩
                   · simp [Grid.reset_terminal_state]
                   · intro la vp cur hc
                     simp [Grid.reset_terminal_state] at hc)
                | (rename_i heq
                   refine ⟨h.2 _ _ _ heq, ?_⟩
                   intro la vp cur hc
                   simp at hc)
                | (refine ⟨h.1, ?_⟩
                   intro la vp cur hc
                   simp at hc)
            · rw [if_neg hh5]
              by_cases hh6 : b = 99
              · rw [if_pos hh6]
                repeat' split
                all_goals
                  first
                  | exact ⟨h.1, h.2⟩
                  | exact h
                  | exact inv_move_cursor_to g _ _ _ h
                  | exact inv_move_cursor_up_pre g _ h
                  | exact inv_move_cursor_down g _ _ h
                  | exact inv_move_cursor_back g _ h
                  | exact inv_clear_all_after_cursor g _ h
                  | exact inv_clear_all_before_cursor g _ h
                  | exact inv_delete_lines_in_scroll_region g _ _ h
                  | exact inv_add_empty_lines_in_scroll_region g _ _ h
                  | exact inv_rotate_scroll_region_up g _ h
                  | exact inv_rotate_scroll_region_down g _ h
                  | exact inv_restore_cursor_position g h
                  | exact inv_add_canonical_line g h
                  | exact inv_move_cursor_up_with_scrolling g 1 h
                  | exact inv_set_horizontal_tabstop g h
                  | exact inv_foldl _ (fun gg _ hg => inv_add_character gg _ hg) _ _ h
                  | exact inv_foldl _ (fun gg _ hg => inv_insert_character_at gg _ hg) _ _ h
                  | exact inv_foldl _ (fun gg _ hg => inv_advance_to_next_tabstop gg _ hg) _ _ h
                  | exact inv_foldl _ (fun gg _ hg => inv_move_to_previous_tabstop gg hg) _ _ h
                  | (apply inv_change_size
                     repeat' split
                     all_goals
                       first
                         | (refine ⟨h.1, ?_⟩
                            intro la vp cur hc
                            simp at hc)
                         | (rename_i heq2
                            refine ⟨h.2 _ _ _ heq2, ?_⟩
                            intro la vp cur hc
                            simp at hc))
                  | (refine ⟨Nat.zero_le _, ?_⟩
                     intro la vp cur hc
                     cases hc
                     exact h.1)
                  | (refine ⟨Nat.zero_le _, ?_⟩
                     intro la vp cur hc
                     simp at hc)
                  | (show g.reset_terminal_state.ScrollbackInv
                     refine ⟨?_, ?_⟩
                     · simp [Grid.reset_terminal_state]
                     · intro la vp cur hc
                       simp [Grid.reset_terminal_state] at hc)
                  | (rename_i heq
                     refine ⟨h.2 _ _ _ heq, ?_⟩
                     intro la vp cur hc
                     simp at hc)
                  | (refine ⟨h.1, ?_⟩
                     intro la vp cur hc
                     simp at hc)
              · rw [if_neg hh6]
                by_cases hh7 : b = 72
                · rw [if_pos hh7]
                  repeat' split
                  all_goals
                    first
                    | exact ⟨h.1, h.2⟩
                    | exact h
                    | exact inv_move_cursor_to g _ _ _ h
                    | exact inv_move_cursor_up_pre g _ h
                    | exact inv_move_cursor_down g _ _ h
                    | exact inv_move_cursor_back g _ h
                    | exact inv_clear_all_after_cursor g _ h
                    | exact inv_clear_all_before_cursor g _ h
                    | exact inv_delete_lines_in_scroll_region g _ _ h
                    | exact inv_add_empty_lines_in_scroll_region g _ _ h
                    | exact inv_rotate_scroll_region_up g _ h
                    | exact inv_rotate_scroll_region_down g _ h
                    | exact inv_restore_cursor_position g h
                    | exact inv_add_canonical_line g h
                    | exact inv_move_cursor_up_with_scrolling g 1 h
                    | exact inv_set_horizontal_tabstop g h
                    | exact inv_foldl _ (fun gg _ hg => inv_add_character gg _ hg) _ _ h
                    | exact inv_foldl _ (fun gg _ hg => inv_insert_character_at gg _ hg) _ _ h
                    | exact inv_foldl _ (fun gg _ hg => inv_advance_to_next_tabstop gg _ hg) _ _ h
                    | exact inv_foldl _ (fun gg _ hg => inv_move_to_previous_tabstop gg hg) _ _ h
                    | (apply inv_change_size
                       repeat' split
                       all_goals
                         first
                           | (refine ⟨h.1, ?_⟩
                              intro la vp cur hc
                              simp at hc)
                           | (rename_i heq2
                              refine ⟨h.2 _ _ _ heq2, ?_⟩
                              intro la vp cur hc
                              simp at hc))
                    | (refine ⟨Nat.zero_le _, ?_⟩
                       intro la vp cur hc
                       cases hc
                       exact h.1)
                    | (refine ⟨Nat.zero_le _, ?_⟩
                       intro la vp cur hc
                       simp at hc)
                    | (show g.reset_terminal_state.ScrollbackInv
                       refine ⟨?_, ?_⟩
                       · simp [Grid.reset_terminal_state]
                       · intro la vp cur hc
                         simp [Grid.reset_terminal_state] at hc)
                    | (rename_i heq
                       refine ⟨h.2 _ _ _ heq, ?_⟩
                       intro la vp cur hc
                       simp at hc)
                    | (refine ⟨h.1, ?_⟩
                       intro la vp cur hc
                       simp at hc)
                · rw [if_neg hh7]
                  by_cases hh8 : b = 55
                  · rw [if_pos hh8]
                    repeat' split
                    all_goals
                      first
                      | exact ⟨h.1, h.2⟩
                      | exact h
                      | exact inv_move_cursor_to g _ _ _ h
                      | exact inv_move_cursor_up_pre g _ h
                      | exact inv_move_cursor_down g _ _ h
                      | exact inv_move_cursor_back g _ h
                      | exact inv_clear_all_after_cursor g _ h
                      | exact inv_clear_all_before_cursor g _ h
                      | exact inv_delete_lines_in_scroll_region g _ _ h
                      | exact inv_add_empty_lines_in_scroll_region g _ _ h
                      | exact inv_rotate_scroll_region_up g _ h
                      | exact inv_rotate_scroll_region_down g _ h
                      | exact inv_restore_cursor_position g h
                      | exact inv_add_canonical_line g h
                      | exact inv_move_cursor_up_with_scrolling g 1 h
                      | exact inv_set_horizontal_tabstop g h
                      | exact inv_foldl _ (fun gg _ hg => inv_add_character gg _ hg) _ _ h
                      | exact inv_foldl _ (fun gg _ hg => inv_insert_character_at gg _ hg) _ _ h
                      | exact inv_foldl _ (fun gg _ hg => inv_advance_to_next_tabstop gg _ hg) _ _ h
                      | exact inv_foldl _ (fun gg _ hg => inv_move_to_previous_tabstop gg hg) _ _ h
                      | (apply inv_change_size
                         repeat' split
                         all_goals
                           first
                             | (refine ⟨h.1, ?_⟩
                                intro la vp cur hc
                                simp at hc)
                             | (rename_i heq2
                                refine ⟨h.2 _ _ _ heq2, ?_⟩
                                intro la vp cur hc
                                simp at hc))
                      | (refine ⟨Nat.zero_le _, ?_⟩
                         intro la vp cur hc
                         cases hc
                         exact h.1)
                      | (refine ⟨Nat.zero_le _, ?_⟩
                         intro la vp cur hc
                         simp at hc)
                      | (show g.reset_terminal_state.ScrollbackInv
                         refine ⟨?_, ?_⟩
                         · simp [Grid.reset_terminal_state]
                         · intro la vp cur hc
                           simp [Grid.reset_terminal_state] at hc)
                      | (rename_i heq
                         refine ⟨h.2 _ _ _ heq, ?_⟩
                         intro la vp cur hc
                         simp at hc)
                      | (refine ⟨h.1, ?_⟩
                         intro la vp cur hc
                         simp at hc)
                  · rw [if_neg hh8]
                    by_cases hh9 : b = 90
                    · rw [if_pos hh9]
                      repeat' split
                      all_goals
                        first
                        | exact ⟨h.1, h.2⟩
                        | exact h
                        | exact inv_move_cursor_to g _ _ _ h
                        | exact inv_move_cursor_up_pre g _ h
                        | exact inv_move_cursor_down g _ _ h
                        | exact inv_move_cursor_back g _ h
                        | exact inv_clear_all_after_cursor g _ h
                        | exact inv_clear_all_before_cursor g _ h
                        | exact inv_delete_lines_in_scroll_region g _ _ h
                        | exact inv_add_empty_lines_in_scroll_region g _ _ h
                        | exact inv_rotate_scroll_region_up g _ h
                        | exact inv_rotate_scroll_region_down g _ h
                        | exact inv_restore_cursor_position g h
                        | exact inv_add_canonical_line g h
                        | exact inv_move_cursor_up_with_scrolling g 1 h
                        | exact inv_set_horizontal_tabstop g h
                        | exact inv_foldl _ (fun gg _ hg => inv_add_character gg _ hg) _ _ h
                        | exact inv_foldl _ (fun gg _ hg => inv_insert_character_at gg _ hg) _ _ h
                        | exact inv_foldl _ (fun gg _ hg => inv_advance_to_next_tabstop gg _ hg) _ _ h
                        | exact inv_foldl _ (fun gg _ hg => inv_move_to_previous_tabstop gg hg) _ _ h
                        | (apply inv_change_size
                           repeat' split
                           all_goals
                             first
                               | (refine ⟨h.1, ?_⟩
                                  intro la vp cur hc
                                  simp at hc)
                               | (rename_i heq2
                                  refine ⟨h.2 _ _ _ heq2, ?_⟩
                                  intro la vp cur hc
                                  simp at hc))
                        | (refine ⟨Nat.zero_le _, ?_⟩
                           intro la vp cur hc
                           cases hc
                           exact h.1)
                        | (refine ⟨Nat.zero_le _, ?_⟩
                           intro la vp cur hc
                           simp at hc)
                        | (show g.reset_terminal_state.ScrollbackInv
                           refine ⟨?_, ?_⟩
                           · simp [Grid.reset_terminal_state]
                           · intro la vp cur hc
                             simp [Grid.reset_terminal_state] at hc)
                        | (rename_i heq
                           refine ⟨h.2 _ _ _ heq, ?_⟩
                           intro la vp cur hc
                           simp at hc)
                        | (refine ⟨h.1, ?_⟩
                           intro la vp cur hc
                           simp at hc)
                    · rw [if_neg hh9]
                      by_cases hh10 : b = 56
                      · rw [if_pos hh10]
                        repeat' split
                        all_goals
                          first
                          | exact ⟨h.1, h.2⟩
                          | exact h
                          | exact inv_move_cursor_to g _ _ _ h
                          | exact inv_move_cursor_up_pre g _ h
                          | exact inv_move_cursor_down g _ _ h
                          | exact inv_move_cursor_back g _ h
                          | exact inv_clear_all_after_cursor g _ h
                          | exact inv_clear_all_before_cursor g _ h
                          | exact inv_delete_lines_in_scroll_region g _ _ h
                          | exact inv_add_empty_lines_in_scroll_region g _ _ h
                          | exact inv_rotate_scroll_region_up g _ h
                          | exact inv_rotate_scroll_region_down g _ h
                          | exact inv_restore_cursor_position g h
                          | exact inv_add_canonical_line g h
                          | exact inv_move_cursor_up_with_scrolling g 1 h
                          | exact inv_set_horizontal_tabstop g h
                          | exact inv_foldl _ (fun gg _ hg => inv_add_character gg _ hg) _ _ h
                          | exact inv_foldl _ (fun gg _ hg => inv_insert_character_at gg _ hg) _ _ h
                          | exact inv_foldl _ (fun gg _ hg => inv_advance_to_next_tabstop gg _ hg) _ _ h
                          | exact inv_foldl _ (fun gg _ hg => inv_move_to_previous_tabstop gg hg) _ _ h
                          | (apply inv_change_size
                             repeat' split
                             all_goals
                               first
                                 | (refine ⟨h.1, ?_⟩
                                    intro la vp cur hc
                                    simp at hc)
                                 | (rename_i heq2
                                    refine ⟨h.2 _ _ _ heq2, ?_⟩
                                    intro la vp cur hc
                                    simp at hc))
                          | (refine ⟨Nat.zero_le _, ?_⟩
                             intro la vp cur hc
                             cases hc
                             exact h.1)
                          | (refine ⟨Nat.zero_le _, ?_⟩
                             intro la vp cur hc
                             simp at hc)
                          | (show g.reset_terminal_state.ScrollbackInv
                             refine ⟨?_, ?_⟩
                             · simp [Grid.reset_terminal_state]
                             · intro la vp cur hc
                               simp [Grid.reset_terminal_state] at hc)
                          | (rename_i heq
                             refine ⟨h.2 _ _ _ heq, ?_⟩
                             intro la vp cur hc
                             simp at hc)
                          | (refine ⟨h.1, ?_⟩
                             intro la vp cur hc
                             simp at hc)
                      · rw [if_neg hh10]
                        exact h

theorem inv_osc_dispatch (g : Grid) (params : List (List Nat)) (bell : Bool)
    (h : g.ScrollbackInv) : (g.osc_dispatch params bell).ScrollbackInv := by
  unfold Grid.osc_dispatch
  try dsimp only
  have hfold : ∀ (l : List (List Nat)) (acc : Grid × Nat), acc.1.ScrollbackInv →
      (l.foldl (fun (acc : Grid × Nat) param =>
        let g := acc.1
        let code := acc.2
        let g :=
          if param = [63] then
            { g with pending_messages_to_pty :=
                g.pending_messages_to_pty ++ [PtyReply.colorResponse code] }
          else g
        (g, code + 1)) acc).1.ScrollbackInv := by
    intro l
    induction l with
    | nil => intro acc hacc; exact hacc
    | cons p rest ih =>
        intro acc hacc
        apply ih
        try dsimp only
        split
        · exact ⟨hacc.1, hacc.2⟩
        · exact hacc
  repeat' split
  all_goals first | exact ⟨h.1, h.2⟩ | exact hfold _ _ h

set_option maxHeartbeats 1600000 in
theorem inv_csi_dispatch (g : Grid) (params ints : List Nat) (c : Char)
    (h : g.ScrollbackInv) : (g.csi_dispatch params ints c).ScrollbackInv := by
  unfold Grid.csi_dispatch
  try dsimp only
  by_cases hh0 : c = 'm'
  · rw [if_pos hh0]
    repeat' split
    all_goals
      first
      | exact ⟨h.1, h.2⟩
      | exact h
      | exact inv_move_cursor_to g _ _ _ h
      | exact inv_move_cursor_up_pre g _ h
      | exact inv_move_cursor_down g _ _ h
      | exact inv_move_cursor_back g _ h
      | exact inv_clear_all_after_cursor g _ h
      | exact inv_clear_all_before_cursor g _ h
      | exact inv_delete_lines_in_scroll_region g _ _ h
      | exact inv_add_empty_lines_in_scroll_region g _ _ h
      | exact inv_rotate_scroll_region_up g _ h
      | exact inv_rotate_scroll_region_down g _ h
      | exact inv_restore_cursor_position g h
      | exact inv_add_canonical_line g h
      | exact inv_move_cursor_up_with_scrolling g 1 h
      | exact inv_set_horizontal_tabstop g h
      | exact inv_foldl _ (fun gg _ hg => inv_add_character gg _ hg) _ _ h
      | exact inv_foldl _ (fun gg _ hg => inv_insert_character_at gg _ hg) _ _ h
      | exact inv_foldl _ (fun gg _ hg => inv_advance_to_next_tabstop gg _ hg) _ _ h
      | exact inv_foldl _ (fun gg _ hg => inv_move_to_previous_tabstop gg hg) _ _ h
      | (apply inv_change_size
         repeat' split
         all_goals
           first
             | (refine ⟨h.1, ?_⟩
                intro la vp cur hc
                simp at hc)
             | (rename_i heq2
                refine ⟨h.2 _ _ _ heq2, ?_⟩
                intro la vp cur hc
                simp at hc))
      | (refine ⟨Nat.zero_le _, ?_⟩
         intro la vp cur hc
         cases hc
         exact h.1)
      | (refine ⟨Nat.zero_le _, ?_⟩
         intro la vp cur hc
         simp at hc)
      | (show g.reset_terminal_state.ScrollbackInv
         refine ⟨?_, ?_⟩
         · simp [Grid.reset_terminal_state]
         · intro la vp cur hc
           simp [Grid.reset_terminal_state] at hc)
      | (rename_i heq
         refine ⟨h.2 _ _ _ heq, ?_⟩
         intro la vp cur hc
         simp at hc)
      | (refine ⟨h.1, ?_⟩
         intro la vp cur hc
         simp at hc)
  · rw [if_neg hh0]
    by_cases hh1 : c = 'C' ∨ c = 'a'
    · rw [if_pos hh1]
      repeat' split
      all_goals
        first
        | exact ⟨h.1, h.2⟩
        | exact h
        | exact inv_move_cursor_to g _ _ _ h
        | exact inv_move_cursor_up_pre g _ h
        | exact inv_move_cursor_down g _ _ h
        | exact inv_move_cursor_back g _ h
        | exact inv_clear_all_after_cursor g _ h
        | exact inv_clear_all_before_cursor g _ h
        | exact inv_delete_lines_in_scroll_region g _ _ h
        | exact inv_add_empty_lines_in_scroll_region g _ _ h
        | exact inv_rotate_scroll_region_up g _ h
        | exact inv_rotate_scroll_region_down g _ h
        | exact inv_restore_cursor_position g h
        | exact inv_add_canonical_line g h
        | exact inv_move_cursor_up_with_scrolling g 1 h
        | exact inv_set_horizontal_tabstop g h
        | exact inv_foldl _ (fun gg _ hg => inv_add_character gg _ hg) _ _ h
        | exact inv_foldl _ (fun gg _ hg => inv_insert_character_at gg _ hg) _ _ h
        | exact inv_foldl _ (fun gg _ hg => inv_advance_to_next_tabstop gg _ hg) _ _ h
        | exact inv_foldl _ (fun gg _ hg => inv_move_to_previous_tabstop gg hg) _ _ h
        | (apply inv_change_size
           repeat' split
           all_goals
             first
               | (refine ⟨h.1, ?_⟩
                  intro la vp cur hc
                  simp at hc)
               | (rename_i heq2
                  refine ⟨h.2 _ _ _ heq2, ?_⟩
                  intro la vp cur hc
                  simp at hc))
        | (refine ⟨Nat.zero_le _, ?_⟩
           intro la vp cur hc
           cases hc
           exact h.1)
        | (refine ⟨Nat.zero_le _, ?_⟩
           intro la vp cur hc
           simp at hc)
        | (show g.reset_terminal_state.ScrollbackInv
           refine ⟨?_, ?_⟩
           · simp [Grid.reset_terminal_state]
           · intro la vp cur hc
             simp [Grid.reset_terminal_state] at hc)
        | (rename_i heq
           refine ⟨h.2 _ _ _ heq, ?_⟩
           intro la vp cur hc
           simp at hc)
        | (refine ⟨h.1, ?_⟩
           intro la vp cur hc
           simp at hc)
    · rw [if_neg hh1]
      by_cases hh2 : c = 'K'
      · rw [if_pos hh2]
        repeat' split
        all_goals
          first
          | exact ⟨h.1, h.2⟩
          | exact h
          | exact inv_move_cursor_to g _ _ _ h
          | exact inv_move_cursor_up_pre g _ h
          | exact inv_move_cursor_down g _ _ h
          | exact inv_move_cursor_back g _ h
          | exact inv_clear_all_after_cursor g _ h
          | exact inv_clear_all_before_cursor g _ h
          | exact inv_delete_lines_in_scroll_region g _ _ h
          | exact inv_add_empty_lines_in_scroll_region g _ _ h
          | exact inv_rotate_scroll_region_up g _ h
          | exact inv_rotate_scroll_region_down g _ h
          | exact inv_restore_cursor_position g h
          | exact inv_add_canonical_line g h
          | exact inv_move_cursor_up_with_scrolling g 1 h
          | exact inv_set_horizontal_tabstop g h
          | exact inv_foldl _ (fun gg _ hg => inv_add_character gg _ hg) _ _ h
          | exact inv_foldl _ (fun gg _ hg => inv_insert_character_at gg _ hg) _ _ h
          | exact inv_foldl _ (fun gg _ hg => inv_advance_to_next_tabstop gg _ hg) _ _ h
          | exact inv_foldl _ (fun gg _ hg => inv_move_to_previous_tabstop gg hg) _ _ h
          | (apply inv_change_size
             repeat' split
             all_goals
               first
                 | (refine ⟨h.1, ?_⟩
                    intro la vp cur hc
                    simp at hc)
                 | (rename_i heq2
                    refine ⟨h.2 _ _ _ heq2, ?_⟩
                    intro la vp cur hc
                    simp at hc))
          | (refine ⟨Nat.zero_le _, ?_⟩
             intro la vp cur hc
             cases hc
             exact h.1)
          | (refine ⟨Nat.zero_le _, ?_⟩
             intro la vp cur hc
             simp at hc)
          | (show g.reset_terminal_state.ScrollbackInv
             refine ⟨?_, ?_⟩
             · simp [Grid.reset_terminal_state]
             · intro la vp cur hc
               simp [Grid.reset_terminal_state] at hc)
          | (rename_i heq
             refine ⟨h.2 _ _ _ heq, ?_⟩
             intro la vp cur hc
             simp at hc)
          | (refine ⟨h.1, ?_⟩
             intro la vp cur hc
             simp at hc)
      · rw [if_neg hh2]
        by_cases hh3 : c = 'J'
        · rw [if_pos hh3]
          repeat' split
          all_goals
            first
            | exact ⟨h.1, h.2⟩
            | exact h
            | exact inv_move_cursor_to g _ _ _ h
            | exact inv_move_cursor_up_pre g _ h
            | exact inv_move_cursor_down g _ _ h
            | exact inv_move_cursor_back g _ h
            | exact inv_clear_all_after_cursor g _ h
            | exact inv_clear_all_before_cursor g _ h
            | exact inv_delete_lines_in_scroll_region g _ _ h
            | exact inv_add_empty_lines_in_scroll_region g _ _ h
            | exact inv_rotate_scroll_region_up g _ h
            | exact inv_rotate_scroll_region_down g _ h
            | exact inv_restore_cursor_position g h
            | exact inv_add_canonical_line g h
            | exact inv_move_cursor_up_with_scrolling g 1 h
            | exact inv_set_horizontal_tabstop g h
            | exact inv_foldl _ (fun gg _ hg => inv_add_character gg _ hg) _ _ h
            | exact inv_foldl _ (fun gg _ hg => inv_insert_character_at gg _ hg) _ _ h
            | exact inv_foldl _ (fun gg _ hg => inv_advance_to_next_tabstop gg _ hg) _ _ h
            | exact inv_foldl _ (fun gg _ hg => inv_move_to_previous_tabstop gg hg) _ _ h
            | (apply inv_change_size
               repeat' split
               all_goals
                 first
                   | (refine ⟨h.1, ?_⟩
                      intro la vp cur hc
                      simp at hc)
                   | (rename_i heq2
                      refine ⟨h.2 _ _ _ heq2, ?_⟩
                      intro la vp cur hc
                      simp at hc))
            | (refine ⟨Nat.zero_le _, ?_⟩
               intro la vp cur hc
               cases hc
               exact h.1)
            | (refine ⟨Nat.zero_le _, ?_⟩
               intro la vp cur hc
               simp at hc)
            | (show g.reset_terminal_state.ScrollbackInv
               refine ⟨?_, ?_⟩
               · simp [Grid.reset_terminal_state]
               · intro la vp cur hc
                 simp [Grid.reset_terminal_state] at hc)
            | (rename_i heq
               refine ⟨h.2 _ _ _ heq, ?_⟩
               intro la vp cur hc
               simp at hc)
            | (refine ⟨h.1, ?_⟩
               intro la vp cur hc
               simp at hc)
        · rw [if_neg hh3]
          by_cases hh4 : c = 'H' ∨ c = 'f'
          · rw [if_pos hh4]
            repeat' split
            all_goals
              first
              | exact ⟨h.1, h.2⟩
              | exact h
              | exact inv_move_cursor_to g _ _ _ h
              | exact inv_move_cursor_up_pre g _ h
              | exact inv_move_cursor_down g _ _ h
              | exact inv_move_cursor_back g _ h
              | exact inv_clear_all_after_cursor g _ h
              | exact inv_clear_all_before_cursor g _ h
              | exact inv_delete_lines_in_scroll_region g _ _ h
              | exact inv_add_empty_lines_in_scroll_region g _ _ h
              | exact inv_rotate_scroll_region_up g _ h
              | exact inv_rotate_scroll_region_down g _ h
              | exact inv_restore_cursor_position g h
              | exact inv_add_canonical_line g h
              | exact inv_move_cursor_up_with_scrolling g 1 h
              | exact inv_set_horizontal_tabstop g h
              | exact inv_foldl _ (fun gg _ hg => inv_add_character gg _ hg) _ _ h
              | exact inv_foldl _ (fun gg _ hg => inv_insert_character_at gg _ hg) _ _ h
              | exact inv_foldl _ (fun gg _ hg => inv_advance_to_next_tabstop gg _ hg) _ _ h
              | exact inv_foldl _ (fun gg _ hg => inv_move_to_previous_tabstop gg hg) _ _ h
              | (apply inv_change_size
                 repeat' split
                 all_goals
                   first
                     | (refine ⟨h.1, ?_⟩
                        intro la vp cur hc
                        simp at hc)
                     | (rename_i heq2
                        refine ⟨h.2 _ _ _ heq2, ?_⟩
                        intro la vp cur hc
                        simp at hc))
              | (refine ⟨Nat.zero_le _, ?_⟩
                 intro la vp cur hc
                 cases hc
                 exact h.1)
              | (refine ⟨Nat.zero_le _, ?_⟩
                 intro la vp cur hc
                 simp at hc)
              | (show g.reset_terminal_state.ScrollbackInv
                 refine ⟨?_, ?_⟩
                 · simp [Grid.reset_terminal_state]
                 · intro la vp cur hc
                   simp [Grid.reset_terminal_state] at hc)
              | (rename_i heq
                 refine ⟨h.2 _ _ _ heq, ?_⟩
                 intro la vp cur hc
                 simp at hc)
              | (refine ⟨h.1, ?_⟩
                 intro la vp cur hc
                 simp at hc)
          · rw [if_neg hh4]
            by_cases hh5 : c = 'A'
            · rw [if_pos hh5]
              repeat' split
              all_goals
                first
                | exact ⟨h.1, h.2⟩
                | exact h
                | exact inv_move_cursor_to g _ _ _ h
                | exact inv_move_cursor_up_pre g _ h
                | exact inv_move_cursor_down g _ _ h
                | exact inv_move_cursor_back g _ h
                | exact inv_clear_all_after_cursor g _ h
                | exact inv_clear_all_before_cursor g _ h
                | exact inv_delete_lines_in_scroll_region g _ _ h
                | exact inv_add_empty_lines_in_scroll_region g _ _ h
                | exact inv_rotate_scroll_region_up g _ h
                | exact inv_rotate_scroll_region_down g _ h
                | exact inv_restore_cursor_position g h
                | exact inv_add_canonical_line g h
                | exact inv_move_cursor_up_with_scrolling g 1 h
                | exact inv_set_horizontal_tabstop g h
                | exact inv_foldl _ (fun gg _ hg => inv_add_character gg _ hg) _ _ h
                | exact inv_foldl _ (fun gg _ hg => inv_insert_character_at gg _ hg) _ _ h
                | exact inv_foldl _ (fun gg _ hg => inv_advance_to_next_tabstop gg _ hg) _ _ h
                | exact inv_foldl _ (fun gg _ hg => inv_move_to_previous_tabstop gg hg) _ _ h
                | (apply inv_change_size
                   repeat' split
                   all_goals
                     first
                       | (refine ⟨h.1, ?_⟩
                          intro la vp cur hc
                          simp at hc)
                       | (rename_i heq2
                          refine ⟨h.2 _ _ _ heq2, ?_⟩
                          intro la vp cur hc
                          simp at hc))
                | (refine ⟨Nat.zero_le _, ?_⟩
                   intro la vp cur hc
                   cases hc
                   exact h.1)
                | (refine ⟨Nat.zero_le _, ?_⟩
                   intro la vp cur hc
                   simp at hc)
                | (show g.reset_terminal_state.ScrollbackInv
                   refine ⟨?_, ?_⟩
                   · simp [Grid.reset_terminal_state]
                   · intro la vp cur hc
                     simp [Grid.reset_terminal_state] at hc)
                | (rename_i heq
                   refine ⟨h.2 _ _ _ heq, ?_⟩
                   intro la vp cur hc
                   simp at hc)
                | (refine ⟨h.1, ?_⟩
                   intro la vp cur hc
                   simp at hc)
            · rw [if_neg hh5]
              by_cases hh6 : c = 'B' ∨ c = 'e'
              · rw [if_pos hh6]
                repeat' split
                all_goals
                  first
                  | exact ⟨h.1, h.2⟩
                  | exact h
                  | exact inv_move_cursor_to g _ _ _ h
                  | exact inv_move_cursor_up_pre g _ h
                  | exact inv_move_cursor_down g _ _ h
                  | exact inv_move_cursor_back g _ h
                  | exact inv_clear_all_after_cursor g _ h
                  | exact inv_clear_all_before_cursor g _ h
                  | exact inv_delete_lines_in_scroll_region g _ _ h
                  | exact inv_add_empty_lines_in_scroll_region g _ _ h
                  | exact inv_rotate_scroll_region_up g _ h
                  | exact inv_rotate_scroll_region_down g _ h
                  | exact inv_restore_cursor_position g h
                  | exact inv_add_canonical_line g h
                  | exact inv_move_cursor_up_with_scrolling g 1 h
                  | exact inv_set_horizontal_tabstop g h
                  | exact inv_foldl _ (fun gg _ hg => inv_add_character gg _ hg) _ _ h
                  | exact inv_foldl _ (fun gg _ hg => inv_insert_character_at gg _ hg) _ _ h
                  | exact inv_foldl _ (fun gg _ hg => inv_advance_to_next_tabstop gg _ hg) _ _ h
                  | exact inv_foldl _ (fun gg _ hg => inv_move_to_previous_tabstop gg hg) _ _ h
                  | (apply inv_change_size
                     repeat' split
                     all_goals
                       first
                         | (refine ⟨h.1, ?_⟩
                            intro la vp cur hc
                            simp at hc)
                         | (rename_i heq2
                            refine ⟨h.2 _ _ _ heq2, ?_⟩
                            intro la vp cur hc
                            simp at hc))
                  | (refine ⟨Nat.zero_le _, ?_⟩
                     intro la vp cur hc
                     cases hc
                     exact h.1)
                  | (refine ⟨Nat.zero_le _, ?_⟩
                     intro la vp cur hc
                     simp at hc)
                  | (show g.reset_terminal_state.ScrollbackInv
                     refine ⟨?_, ?_⟩
                     · simp [Grid.reset_terminal_state]
                     · intro la vp cur hc
                       simp [Grid.reset_terminal_state] at hc)
                  | (rename_i heq
                     refine ⟨h.2 _ _ _ heq, ?_⟩
                     intro la vp cur hc
                     simp at hc)
                  | (refine ⟨h.1, ?_⟩
                     intro la vp cur hc
                     simp at hc)
              · rw [if_neg hh6]
                by_cases hh7 : c = 'D'
                · rw [if_pos hh7]
                  repeat' split
                  all_goals
                    first
                    | exact ⟨h.1, h.2⟩
                    | exact h
                    | exact inv_move_cursor_to g _ _ _ h
                    | exact inv_move_cursor_up_pre g _ h
                    | exact inv_move_cursor_down g _ _ h
                    | exact inv_move_cursor_back g _ h
                    | exact inv_clear_all_after_cursor g _ h
                    | exact inv_clear_all_before_cursor g _ h
                    | exact inv_delete_lines_in_scroll_region g _ _ h
                    | exact inv_add_empty_lines_in_scroll_region g _ _ h
                    | exact inv_rotate_scroll_region_up g _ h
                    | exact inv_rotate_scroll_region_down g _ h
                    | exact inv_restore_cursor_position g h
                    | exact inv_add_canonical_line g h
                    | exact inv_move_cursor_up_with_scrolling g 1 h
                    | exact inv_set_horizontal_tabstop g h
                    | exact inv_foldl _ (fun gg _ hg => inv_add_character gg _ hg) _ _ h
                    | exact inv_foldl _ (fun gg _ hg => inv_insert_character_at gg _ hg) _ _ h
                    | exact inv_foldl _ (fun gg _ hg => inv_advance_to_next_tabstop gg _ hg) _ _ h
                    | exact inv_foldl _ (fun gg _ hg => inv_move_to_previous_tabstop gg hg) _ _ h
                    | (apply inv_change_size
                       repeat' split
                       all_goals
                         first
                           | (refine ⟨h.1, ?_⟩
                              intro la vp cur hc
                              simp at hc)
                           | (rename_i heq2
                              refine ⟨h.2 _ _ _ heq2, ?_⟩
                              intro la vp cur hc
                              simp at hc))
                    | (refine ⟨Nat.zero_le _, ?_⟩
                       intro la vp cur hc
                       cases hc
                       exact h.1)
                    | (refine ⟨Nat.zero_le _, ?_⟩
                       intro la vp cur hc
                       simp at hc)
                    | (show g.reset_terminal_state.ScrollbackInv
                       refine ⟨?_, ?_⟩
                       · simp [Grid.reset_terminal_state]
                       · intro la vp cur hc
                         simp [Grid.reset_terminal_state] at hc)
                    | (rename_i heq
                       refine ⟨h.2 _ _ _ heq, ?_⟩
                       intro la vp cur hc
                       simp at hc)
                    | (refine ⟨h.1, ?_⟩
                       intro la vp cur hc
                       simp at hc)
                · rw [if_neg hh7]
                  by_cases hh8 : c = 'l'
                  · rw [if_pos hh8]
                    repeat' split
                    all_goals
                      first
                      | exact ⟨h.1, h.2⟩
                      | exact h
                      | exact inv_move_cursor_to g _ _ _ h
                      | exact inv_move_cursor_up_pre g _ h
                      | exact inv_move_cursor_down g _ _ h
                      | exact inv_move_cursor_back g _ h
                      | exact inv_clear_all_after_cursor g _ h
                      | exact inv_clear_all_before_cursor g _ h
                      | exact inv_delete_lines_in_scroll_region g _ _ h
                      | exact inv_add_empty_lines_in_scroll_region g _ _ h
                      | exact inv_rotate_scroll_region_up g _ h
                      | exact inv_rotate_scroll_region_down g _ h
                      | exact inv_restore_cursor_position g h
                      | exact inv_add_canonical_line g h
                      | exact inv_move_cursor_up_with_scrolling g 1 h
                      | exact inv_set_horizontal_tabstop g h
                      | exact inv_foldl _ (fun gg _ hg => inv_add_character gg _ hg) _ _ h
                      | exact inv_foldl _ (fun gg _ hg => inv_insert_character_at gg _ hg) _ _ h
                      | exact inv_foldl _ (fun gg _ hg => inv_advance_to_next_tabstop gg _ hg) _ _ h
                      | exact inv_foldl _ (fun gg _ hg => inv_move_to_previous_tabstop gg hg) _ _ h
                      | (apply inv_change_size
                         repeat' split
                         all_goals
                           first
                             | (refine ⟨h.1, ?_⟩
                                intro la vp cur hc
                                simp at hc)
                             | (rename_i heq2
                                refine ⟨h.2 _ _ _ heq2, ?_⟩
                                intro la vp cur hc
                                simp at hc))
                      | (refine ⟨Nat.zero_le _, ?_⟩
                         intro la vp cur hc
                         cases hc
                         exact h.1)
                      | (refine ⟨Nat.zero_le _, ?_⟩
                         intro la vp cur hc
                         simp at hc)
                      | (show g.reset_terminal_state.ScrollbackInv
                         refine ⟨?_, ?_⟩
                         · simp [Grid.reset_terminal_state]
                         · intro la vp cur hc
                           simp [Grid.reset_terminal_state] at hc)
                      | (rename_i heq
                         refine ⟨h.2 _ _ _ heq, ?_⟩
                         intro la vp cur hc
                         simp at hc)
                      | (refine ⟨h.1, ?_⟩
                         intro la vp cur hc
                         simp at hc)
                  · rw [if_neg hh8]
                    by_cases hh9 : c = 'h'
                    · rw [if_pos hh9]
                      repeat' split
                      all_goals
                        first
                        | exact ⟨h.1, h.2⟩
                        | exact h
                        | exact inv_move_cursor_to g _ _ _ h
                        | exact inv_move_cursor_up_pre g _ h
                        | exact inv_move_cursor_down g _ _ h
                        | exact inv_move_cursor_back g _ h
                        | exact inv_clear_all_after_cursor g _ h
                        | exact inv_clear_all_before_cursor g _ h
                        | exact inv_delete_lines_in_scroll_region g _ _ h
                        | exact inv_add_empty_lines_in_scroll_region g _ _ h
                        | exact inv_rotate_scroll_region_up g _ h
                        | exact inv_rotate_scroll_region_down g _ h
                        | exact inv_restore_cursor_position g h
                        | exact inv_add_canonical_line g h
                        | exact inv_move_cursor_up_with_scrolling g 1 h
                        | exact inv_set_horizontal_tabstop g h
                        | exact inv_foldl _ (fun gg _ hg => inv_add_character gg _ hg) _ _ h
                        | exact inv_foldl _ (fun gg _ hg => inv_insert_character_at gg _ hg) _ _ h
                        | exact inv_foldl _ (fun gg _ hg => inv_advance_to_next_tabstop gg _ hg) _ _ h
                        | exact inv_foldl _ (fun gg _ hg => inv_move_to_previous_tabstop gg hg) _ _ h
                        | (apply inv_change_size
                           repeat' split
                           all_goals
                             first
                               | (refine ⟨h.1, ?_⟩
                                  intro la vp cur hc
                                  simp at hc)
                               | (rename_i heq2
                                  refine ⟨h.2 _ _ _ heq2, ?_⟩
                                  intro la vp cur hc
                                  simp at hc))
                        | (refine ⟨Nat.zero_le _, ?_⟩
                           intro la vp cur hc
                           cases hc
                           exact h.1)
                        | (refine ⟨Nat.zero_le _, ?_⟩
                           intro la vp cur hc
                           simp at hc)
                        | (show g.reset_terminal_state.ScrollbackInv
                           refine ⟨?_, ?_⟩
                           · simp [Grid.reset_terminal_state]
                           · intro la vp cur hc
                             simp [Grid.reset_terminal_state] at hc)
                        | (rename_i heq
                           refine ⟨h.2 _ _ _ heq, ?_⟩
                           intro la vp cur hc
                           simp at hc)
                        | (refine ⟨h.1, ?_⟩
                           intro la vp cur hc
                           simp at hc)
                    · rw [if_neg hh9]
                      by_cases hh10 : c = 'r'
                      · rw [if_pos hh10]
                        repeat' split
                        all_goals
                          first
                          | exact ⟨h.1, h.2⟩
                          | exact h
                          | exact inv_move_cursor_to g _ _ _ h
                          | exact inv_move_cursor_up_pre g _ h
                          | exact inv_move_cursor_down g _ _ h
                          | exact inv_move_cursor_back g _ h
                          | exact inv_clear_all_after_cursor g _ h
                          | exact inv_clear_all_before_cursor g _ h
                          | exact inv_delete_lines_in_scroll_region g _ _ h
                          | exact inv_add_empty_lines_in_scroll_region g _ _ h
                          | exact inv_rotate_scroll_region_up g _ h
                          | exact inv_rotate_scroll_region_down g _ h
                          | exact inv_restore_cursor_position g h
                          | exact inv_add_canonical_line g h
                          | exact inv_move_cursor_up_with_scrolling g 1 h
                          | exact inv_set_horizontal_tabstop g h
                          | exact inv_foldl _ (fun gg _ hg => inv_add_character gg _ hg) _ _ h
                          | exact inv_foldl _ (fun gg _ hg => inv_insert_character_at gg _ hg) _ _ h
                          | exact inv_foldl _ (fun gg _ hg => inv_advance_to_next_tabstop gg _ hg) _ _ h
                          | exact inv_foldl _ (fun gg _ hg => inv_move_to_previous_tabstop gg hg) _ _ h
                          | (apply inv_change_size
                             repeat' split
                             all_goals
                               first
                                 | (refine ⟨h.1, ?_⟩
                                    intro la vp cur hc
                                    simp at hc)
                                 | (rename_i heq2
                                    refine ⟨h.2 _ _ _ heq2, ?_⟩
                                    intro la vp cur hc
                                    simp at hc))
                          | (refine ⟨Nat.zero_le _, ?_⟩
                             intro la vp cur hc
                             cases hc
                             exact h.1)
                          | (refine ⟨Nat.zero_le _, ?_⟩
                             intro la vp cur hc
                             simp at hc)
                          | (show g.reset_terminal_state.ScrollbackInv
                             refine ⟨?_, ?_⟩
                             · simp [Grid.reset_terminal_state]
                             · intro la vp cur hc
                               simp [Grid.reset_terminal_state] at hc)
                          | (rename_i heq
                             refine ⟨h.2 _ _ _ heq, ?_⟩
                             intro la vp cur hc
                             simp at hc)
                          | (refine ⟨h.1, ?_⟩
                             intro la vp cur hc
                             simp at hc)
                      · rw [if_neg hh10]
                        by_cases hh11 : c = 'M'
                        · rw [if_pos hh11]
                          repeat' split
                          all_goals
                            first
                            | exact ⟨h.1, h.2⟩
                            | exact h
                            | exact inv_move_cursor_to g _ _ _ h
                            | exact inv_move_cursor_up_pre g _ h
                            | exact inv_move_cursor_down g _ _ h
                            | exact inv_move_cursor_back g _ h
                            | exact inv_clear_all_after_cursor g _ h
                            | exact inv_clear_all_before_cursor g _ h
                            | exact inv_delete_lines_in_scroll_region g _ _ h
                            | exact inv_add_empty_lines_in_scroll_region g _ _ h
                            | exact inv_rotate_scroll_region_up g _ h
                            | exact inv_rotate_scroll_region_down g _ h
                            | exact inv_restore_cursor_position g h
                            | exact inv_add_canonical_line g h
                            | exact inv_move_cursor_up_with_scrolling g 1 h
                            | exact inv_set_horizontal_tabstop g h
                            | exact inv_foldl _ (fun gg _ hg => inv_add_character gg _ hg) _ _ h
                            | exact inv_foldl _ (fun gg _ hg => inv_insert_character_at gg _ hg) _ _ h
                            | exact inv_foldl _ (fun gg _ hg => inv_advance_to_next_tabstop gg _ hg) _ _ h
                            | exact inv_foldl _ (fun gg _ hg => inv_move_to_previous_tabstop gg hg) _ _ h
                            | (apply inv_change_size
                               repeat' split
                               all_goals
                                 first
                                   | (refine ⟨h.1, ?_⟩
                                      intro la vp cur hc
                                      simp at hc)
                                   | (rename_i heq2
                                      refine ⟨h.2 _ _ _ heq2, ?_⟩
                                      intro la vp cur hc
                                      simp at hc))
                            | (refine ⟨Nat.zero_le _, ?_⟩
                               intro la vp cur hc
                               cases hc
                               exact h.1)
                            | (refine ⟨Nat.zero_le _, ?_⟩
                               intro la vp cur hc
                               simp at hc)
                            | (show g.reset_terminal_state.ScrollbackInv
                               refine ⟨?_, ?_⟩
                               · simp [Grid.reset_terminal_state]
                               · intro la vp cur hc
                                 simp [Grid.reset_terminal_state] at hc)
                            | (rename_i heq
                               refine ⟨h.2 _ _ _ heq, ?_⟩
                               intro la vp cur hc
                               simp at hc)
                            | (refine ⟨h.1, ?_⟩
                               intro la vp cur hc
                               simp at hc)
                        · rw [if_neg hh11]
                          by_cases hh12 : c = 'L'
                          · rw [if_pos hh12]
                            repeat' split
                            all_goals
                              first
                              | exact ⟨h.1, h.2⟩
                              | exact h
                              | exact inv_move_cursor_to g _ _ _ h
                              | exact inv_move_cursor_up_pre g _ h
                              | exact inv_move_cursor_down g _ _ h
                              | exact inv_move_cursor_back g _ h
                              | exact inv_clear_all_after_cursor g _ h
                              | exact inv_clear_all_before_cursor g _ h
                              | exact inv_delete_lines_in_scroll_region g _ _ h
                              | exact inv_add_empty_lines_in_scroll_region g _ _ h
                              | exact inv_rotate_scroll_region_up g _ h
                              | exact inv_rotate_scroll_region_down g _ h
                              | exact inv_restore_cursor_position g h
                              | exact inv_add_canonical_line g h
                              | exact inv_move_cursor_up_with_scrolling g 1 h
                              | exact inv_set_horizontal_tabstop g h
                              | exact inv_foldl _ (fun gg _ hg => inv_add_character gg _ hg) _ _ h
                              | exact inv_foldl _ (fun gg _ hg => inv_insert_character_at gg _ hg) _ _ h
                              | exact inv_foldl _ (fun gg _ hg => inv_advance_to_next_tabstop gg _ hg) _ _ h
                              | exact inv_foldl _ (fun gg _ hg => inv_move_to_previous_tabstop gg hg) _ _ h
                              | (apply inv_change_size
                                 repeat' split
                                 all_goals
                                   first
                                     | (refine ⟨h.1, ?_⟩
                                        intro la vp cur hc
                                        simp at hc)
                                     | (rename_i heq2
                                        refine ⟨h.2 _ _ _ heq2, ?_⟩
                                        intro la vp cur hc
                                        simp at hc))
                              | (refine ⟨Nat.zero_le _, ?_⟩
                                 intro la vp cur hc
                                 cases hc
                                 exact h.1)
                              | (refine ⟨Nat.zero_le _, ?_⟩
                                 intro la vp cur hc
                                 simp at hc)
                              | (show g.reset_terminal_state.ScrollbackInv
                                 refine ⟨?_, ?_⟩
                                 · simp [Grid.reset_terminal_state]
                                 · intro la vp cur hc
                                   simp [Grid.reset_terminal_state] at hc)
                              | (rename_i heq
                                 refine ⟨h.2 _ _ _ heq, ?_⟩
                                 intro la vp cur hc
                                 simp at hc)
                              | (refine ⟨h.1, ?_⟩
                                 intro la vp cur hc
                                 simp at hc)
                          · rw [if_neg hh12]
                            by_cases hh13 : c = 'G' ∨ c = Grid.csi_dispatch.chr96
                            · rw [if_pos hh13]
                              repeat' split
                              all_goals
                                first
                                | exact ⟨h.1, h.2⟩
                                | exact h
                                | exact inv_move_cursor_to g _ _ _ h
                                | exact inv_move_cursor_up_pre g _ h
                                | exact inv_move_cursor_down g _ _ h
                                | exact inv_move_cursor_back g _ h
                                | exact inv_clear_all_after_cursor g _ h
                                | exact inv_clear_all_before_cursor g _ h
                                | exact inv_delete_lines_in_scroll_region g _ _ h
                                | exact inv_add_empty_lines_in_scroll_region g _ _ h
                                | exact inv_rotate_scroll_region_up g _ h
                                | exact inv_rotate_scroll_region_down g _ h
                                | exact inv_restore_cursor_position g h
                                | exact inv_add_canonical_line g h
                                | exact inv_move_cursor_up_with_scrolling g 1 h
                                | exact inv_set_horizontal_tabstop g h
                                | exact inv_foldl _ (fun gg _ hg => inv_add_character gg _ hg) _ _ h
                                | exact inv_foldl _ (fun gg _ hg => inv_insert_character_at gg _ hg) _ _ h
                                | exact inv_foldl _ (fun gg _ hg => inv_advance_to_next_tabstop gg _ hg) _ _ h
                                | exact inv_foldl _ (fun gg _ hg => inv_move_to_previous_tabstop gg hg) _ _ h
                                | (apply inv_change_size
                                   repeat' split
                                   all_goals
                                     first
                                       | (refine ⟨h.1, ?_⟩
                                          intro la vp cur hc
                                          simp at hc)
                                       | (rename_i heq2
                                          refine ⟨h.2 _ _ _ heq2, ?_⟩
                                          intro la vp cur hc
                                          simp at hc))
                                | (refine ⟨Nat.zero_le _, ?_⟩
                                   intro la vp cur hc
                                   cases hc
                                   exact h.1)
                                | (refine ⟨Nat.zero_le _, ?_⟩
                                   intro la vp cur hc
                                   simp at hc)
                                | (show g.reset_terminal_state.ScrollbackInv
                                   refine ⟨?_, ?_⟩
                                   · simp [Grid.reset_terminal_state]
                                   · intro la vp cur hc
                                     simp [Grid.reset_terminal_state] at hc)
                                | (rename_i heq
                                   refine ⟨h.2 _ _ _ heq, ?_⟩
                                   intro la vp cur hc
                                   simp at hc)
                                | (refine ⟨h.1, ?_⟩
                                   intro la vp cur hc
                                   simp at hc)
                            · rw [if_neg hh13]
                              by_cases hh14 : c = 'g'
                              · rw [if_pos hh14]
                                repeat' split
                                all_goals
                                  first
                                  | exact ⟨h.1, h.2⟩
                                  | exact h
                                  | exact inv_move_cursor_to g _ _ _ h
                                  | exact inv_move_cursor_up_pre g _ h
                                  | exact inv_move_cursor_down g _ _ h
                                  | exact inv_move_cursor_back g _ h
                                  | exact inv_clear_all_after_cursor g _ h
                                  | exact inv_clear_all_before_cursor g _ h
                                  | exact inv_delete_lines_in_scroll_region g _ _ h
                                  | exact inv_add_empty_lines_in_scroll_region g _ _ h
                                  | exact inv_rotate_scroll_region_up g _ h
                                  | exact inv_rotate_scroll_region_down g _ h
                                  | exact inv_restore_cursor_position g h
                                  | exact inv_add_canonical_line g h
                                  | exact inv_move_cursor_up_with_scrolling g 1 h
                                  | exact inv_set_horizontal_tabstop g h
                                  | exact inv_foldl _ (fun gg _ hg => inv_add_character gg _ hg) _ _ h
                                  | exact inv_foldl _ (fun gg _ hg => inv_insert_character_at gg _ hg) _ _ h
                                  | exact inv_foldl _ (fun gg _ hg => inv_advance_to_next_tabstop gg _ hg) _ _ h
                                  | exact inv_foldl _ (fun gg _ hg => inv_move_to_previous_tabstop gg hg) _ _ h
                                  | (apply inv_change_size
                                     repeat' split
                                     all_goals
                                       first
                                         | (refine ⟨h.1, ?_⟩
                                            intro la vp cur hc
                                            simp at hc)
                                         | (rename_i heq2
                                            refine ⟨h.2 _ _ _ heq2, ?_⟩
                                            intro la vp cur hc
                                            simp at hc))
                                  | (refine ⟨Nat.zero_le _, ?_⟩
                                     intro la vp cur hc
                                     cases hc
                                     exact h.1)
                                  | (refine ⟨Nat.zero_le _, ?_⟩
                                     intro la vp cur hc
                                     simp at hc)
                                  | (show g.reset_terminal_state.ScrollbackInv
                                     refine ⟨?_, ?_⟩
                                     · simp [Grid.reset_terminal_state]
                                     · intro la vp cur hc
                                       simp [Grid.reset_terminal_state] at hc)
                                  | (rename_i heq
                                     refine ⟨h.2 _ _ _ heq, ?_⟩
                                     intro la vp cur hc
                                     simp at hc)
                                  | (refine ⟨h.1, ?_⟩
                                     intro la vp cur hc
                                     simp at hc)
                              · rw [if_neg hh14]
                                by_cases hh15 : c = 'd'
                                · rw [if_pos hh15]
                                  repeat' split
                                  all_goals
                                    first
                                    | exact ⟨h.1, h.2⟩
                                    | exact h
                                    | exact inv_move_cursor_to g _ _ _ h
                                    | exact inv_move_cursor_up_pre g _ h
                                    | exact inv_move_cursor_down g _ _ h
                                    | exact inv_move_cursor_back g _ h
                                    | exact inv_clear_all_after_cursor g _ h
                                    | exact inv_clear_all_before_cursor g _ h
                                    | exact inv_delete_lines_in_scroll_region g _ _ h
                                    | exact inv_add_empty_lines_in_scroll_region g _ _ h
                                    | exact inv_rotate_scroll_region_up g _ h
                                    | exact inv_rotate_scroll_region_down g _ h
                                    | exact inv_restore_cursor_position g h
                                    | exact inv_add_canonical_line g h
                                    | exact inv_move_cursor_up_with_scrolling g 1 h
                                    | exact inv_set_horizontal_tabstop g h
                                    | exact inv_foldl _ (fun gg _ hg => inv_add_character gg _ hg) _ _ h
                                    | exact inv_foldl _ (fun gg _ hg => inv_insert_character_at gg _ hg) _ _ h
                                    | exact inv_foldl _ (fun gg _ hg => inv_advance_to_next_tabstop gg _ hg) _ _ h
                                    | exact inv_foldl _ (fun gg _ hg => inv_move_to_previous_tabstop gg hg) _ _ h
                                    | (apply inv_change_size
                                       repeat' split
                                       all_goals
                                         first
                                           | (refine ⟨h.1, ?_⟩
                                              intro la vp cur hc
                                              simp at hc)
                                           | (rename_i heq2
                                              refine ⟨h.2 _ _ _ heq2, ?_⟩
                                              intro la vp cur hc
                                              simp at hc))
                                    | (refine ⟨Nat.zero_le _, ?_⟩
                                       intro la vp cur hc
                                       cases hc
                                       exact h.1)
                                    | (refine ⟨Nat.zero_le _, ?_⟩
                                       intro la vp cur hc
                                       simp at hc)
                                    | (show g.reset_terminal_state.ScrollbackInv
                                       refine ⟨?_, ?_⟩
                                       · simp [Grid.reset_terminal_state]
                                       · intro la vp cur hc
                                         simp [Grid.reset_terminal_state] at hc)
                                    | (rename_i heq
                                       refine ⟨h.2 _ _ _ heq, ?_⟩
                                       intro la vp cur hc
                                       simp at hc)
                                    | (refine ⟨h.1, ?_⟩
                                       intro la vp cur hc
                                       simp at hc)
                                · rw [if_neg hh15]
                                  by_cases hh16 : c = 'P'
                                  · rw [if_pos hh16]
                                    repeat' split
                                    all_goals
                                      first
                                      | exact ⟨h.1, h.2⟩
                                      | exact h
                                      | exact inv_move_cursor_to g _ _ _ h
                                      | exact inv_move_cursor_up_pre g _ h
                                      | exact inv_move_cursor_down g _ _ h
                                      | exact inv_move_cursor_back g _ h
                                      | exact inv_clear_all_after_cursor g _ h
                                      | exact inv_clear_all_before_cursor g _ h
                                      | exact inv_delete_lines_in_scroll_region g _ _ h
                                      | exact inv_add_empty_lines_in_scroll_region g _ _ h
                                      | exact inv_rotate_scroll_region_up g _ h
                                      | exact inv_rotate_scroll_region_down g _ h
                                      | exact inv_restore_cursor_position g h
                                      | exact inv_add_canonical_line g h
                                      | exact inv_move_cursor_up_with_scrolling g 1 h
                                      | exact inv_set_horizontal_tabstop g h
                                      | exact inv_foldl _ (fun gg _ hg => inv_add_character gg _ hg) _ _ h
                                      | exact inv_foldl _ (fun gg _ hg => inv_insert_character_at gg _ hg) _ _ h
                                      | exact inv_foldl _ (fun gg _ hg => inv_advance_to_next_tabstop gg _ hg) _ _ h
                                      | exact inv_foldl _ (fun gg _ hg => inv_move_to_previous_tabstop gg hg) _ _ h
                                      | (apply inv_change_size
                                         repeat' split
                                         all_goals
                                           first
                                             | (refine ⟨h.1, ?_⟩
                                                intro la vp cur hc
                                                simp at hc)
                                             | (rename_i heq2
                                                refine ⟨h.2 _ _ _ heq2, ?_⟩
                                                intro la vp cur hc
                                                simp at hc))
                                      | (refine ⟨Nat.zero_le _, ?_⟩
                                         intro la vp cur hc
                                         cases hc
                                         exact h.1)
                                      | (refine ⟨Nat.zero_le _, ?_⟩
                                         intro la vp cur hc
                                         simp at hc)
                                      | (show g.reset_terminal_state.ScrollbackInv
                                         refine ⟨?_, ?_⟩
                                         · simp [Grid.reset_terminal_state]
                                         · intro la vp cur hc
                                           simp [Grid.reset_terminal_state] at hc)
                                      | (rename_i heq
                                         refine ⟨h.2 _ _ _ heq, ?_⟩
                                         intro la vp cur hc
                                         simp at hc)
                                      | (refine ⟨h.1, ?_⟩
                                         intro la vp cur hc
                                         simp at hc)
                                  · rw [if_neg hh16]
                                    by_cases hh17 : c = 'X'
                                    · rw [if_pos hh17]
                                      repeat' split
                                      all_goals
                                        first
                                        | exact ⟨h.1, h.2⟩
                                        | exact h
                                        | exact inv_move_cursor_to g _ _ _ h
                                        | exact inv_move_cursor_up_pre g _ h
                                        | exact inv_move_cursor_down g _ _ h
                                        | exact inv_move_cursor_back g _ h
                                        | exact inv_clear_all_after_cursor g _ h
                                        | exact inv_clear_all_before_cursor g _ h
                                        | exact inv_delete_lines_in_scroll_region g _ _ h
                                        | exact inv_add_empty_lines_in_scroll_region g _ _ h
                                        | exact inv_rotate_scroll_region_up g _ h
                                        | exact inv_rotate_scroll_region_down g _ h
                                        | exact inv_restore_cursor_position g h
                                        | exact inv_add_canonical_line g h
                                        | exact inv_move_cursor_up_with_scrolling g 1 h
                                        | exact inv_set_horizontal_tabstop g h
                                        | exact inv_foldl _ (fun gg _ hg => inv_add_character gg _ hg) _ _ h
                                        | exact inv_foldl _ (fun gg _ hg => inv_insert_character_at gg _ hg) _ _ h
                                        | exact inv_foldl _ (fun gg _ hg => inv_advance_to_next_tabstop gg _ hg) _ _ h
                                        | exact inv_foldl _ (fun gg _ hg => inv_move_to_previous_tabstop gg hg) _ _ h
                                        | (apply inv_change_size
                                           repeat' split
                                           all_goals
                                             first
                                               | (refine ⟨h.1, ?_⟩
                                                  intro la vp cur hc
                                                  simp at hc)
                                               | (rename_i heq2
                                                  refine ⟨h.2 _ _ _ heq2, ?_⟩
                                                  intro la vp cur hc
                                                  simp at hc))
                                        | (refine ⟨Nat.zero_le _, ?_⟩
                                           intro la vp cur hc
                                           cases hc
                                           exact h.1)
                                        | (refine ⟨Nat.zero_le _, ?_⟩
                                           intro la vp cur hc
                                           simp at hc)
                                        | (show g.reset_terminal_state.ScrollbackInv
                                           refine ⟨?_, ?_⟩
                                           · simp [Grid.reset_terminal_state]
                                           · intro la vp cur hc
                                             simp [Grid.reset_terminal_state] at hc)
                                        | (rename_i heq
                                           refine ⟨h.2 _ _ _ heq, ?_⟩
                                           intro la vp cur hc
                                           simp at hc)
                                        | (refine ⟨h.1, ?_⟩
                                           intro la vp cur hc
                                           simp at hc)
                                    · rw [if_neg hh17]
                                      by_cases hh18 : c = 'T'
                                      · rw [if_pos hh18]
                                        repeat' split
                                        all_goals
                                          first
                                          | exact ⟨h.1, h.2⟩
                                          | exact h
                                          | exact inv_move_cursor_to g _ _ _ h
                                          | exact inv_move_cursor_up_pre g _ h
                                          | exact inv_move_cursor_down g _ _ h
                                          | exact inv_move_cursor_back g _ h
                                          | exact inv_clear_all_after_cursor g _ h
                                          | exact inv_clear_all_before_cursor g _ h
                                          | exact inv_delete_lines_in_scroll_region g _ _ h
                                          | exact inv_add_empty_lines_in_scroll_region g _ _ h
                                          | exact inv_rotate_scroll_region_up g _ h
                                          | exact inv_rotate_scroll_region_down g _ h
                                          | exact inv_restore_cursor_position g h
                                          | exact inv_add_canonical_line g h
                                          | exact inv_move_cursor_up_with_scrolling g 1 h
                                          | exact inv_set_horizontal_tabstop g h
                                          | exact inv_foldl _ (fun gg _ hg => inv_add_character gg _ hg) _ _ h
                                          | exact inv_foldl _ (fun gg _ hg => inv_insert_character_at gg _ hg) _ _ h
                                          | exact inv_foldl _ (fun gg _ hg => inv_advance_to_next_tabstop gg _ hg) _ _ h
                                          | exact inv_foldl _ (fun gg _ hg => inv_move_to_previous_tabstop gg hg) _ _ h
                                          | (apply inv_change_size
                                             repeat' split
                                             all_goals
                                               first
                                                 | (refine ⟨h.1, ?_⟩
                                                    intro la vp cur hc
                                                    simp at hc)
                                                 | (rename_i heq2
                                                    refine ⟨h.2 _ _ _ heq2, ?_⟩
                                                    intro la vp cur hc
                                                    simp at hc))
                                          | (refine ⟨Nat.zero_le _, ?_⟩
                                             intro la vp cur hc
                                             cases hc
                                             exact h.1)
                                          | (refine ⟨Nat.zero_le _, ?_⟩
                                             intro la vp cur hc
                                             simp at hc)
                                          | (show g.reset_terminal_state.ScrollbackInv
                                             refine ⟨?_, ?_⟩
                                             · simp [Grid.reset_terminal_state]
                                             · intro la vp cur hc
                                               simp [Grid.reset_terminal_state] at hc)
                                          | (rename_i heq
                                             refine ⟨h.2 _ _ _ heq, ?_⟩
                                             intro la vp cur hc
                                             simp at hc)
                                          | (refine ⟨h.1, ?_⟩
                                             intro la vp cur hc
                                             simp at hc)
                                      · rw [if_neg hh18]
                                        by_cases hh19 : c = 'S'
                                        · rw [if_pos hh19]
                                          repeat' split
                                          all_goals
                                            first
                                            | exact ⟨h.1, h.2⟩
                                            | exact h
                                            | exact inv_move_cursor_to g _ _ _ h
                                            | exact inv_move_cursor_up_pre g _ h
                                            | exact inv_move_cursor_down g _ _ h
                                            | exact inv_move_cursor_back g _ h
                                            | exact inv_clear_all_after_cursor g _ h
                                            | exact inv_clear_all_before_cursor g _ h
                                            | exact inv_delete_lines_in_scroll_region g _ _ h
                                            | exact inv_add_empty_lines_in_scroll_region g _ _ h
                                            | exact inv_rotate_scroll_region_up g _ h
                                            | exact inv_rotate_scroll_region_down g _ h
                                            | exact inv_restore_cursor_position g h
                                            | exact inv_add_canonical_line g h
                                            | exact inv_move_cursor_up_with_scrolling g 1 h
                                            | exact inv_set_horizontal_tabstop g h
                                            | exact inv_foldl _ (fun gg _ hg => inv_add_character gg _ hg) _ _ h
                                            | exact inv_foldl _ (fun gg _ hg => inv_insert_character_at gg _ hg) _ _ h
                                            | exact inv_foldl _ (fun gg _ hg => inv_advance_to_next_tabstop gg _ hg) _ _ h
                                            | exact inv_foldl _ (fun gg _ hg => inv_move_to_previous_tabstop gg hg) _ _ h
                                            | (apply inv_change_size
                                               repeat' split
                                               all_goals
                                                 first
                                                   | (refine ⟨h.1, ?_⟩
                                                      intro la vp cur hc
                                                      simp at hc)
                                                   | (rename_i heq2
                                                      refine ⟨h.2 _ _ _ heq2, ?_⟩
                                                      intro la vp cur hc
                                                      simp at hc))
                                            | (refine ⟨Nat.zero_le _, ?_⟩
                                               intro la vp cur hc
                                               cases hc
                                               exact h.1)
                                            | (refine ⟨Nat.zero_le _, ?_⟩
                                               intro la vp cur hc
                                               simp at hc)
                                            | (show g.reset_terminal_state.ScrollbackInv
                                               refine ⟨?_, ?_⟩
                                               · simp [Grid.reset_terminal_state]
                                               · intro la vp cur hc
                                                 simp [Grid.reset_terminal_state] at hc)
                                            | (rename_i heq
                                               refine ⟨h.2 _ _ _ heq, ?_⟩
                                               intro la vp cur hc
                                               simp at hc)
                                            | (refine ⟨h.1, ?_⟩
                                               intro la vp cur hc
                                               simp at hc)
                                        · rw [if_neg hh19]
                                          by_cases hh20 : c = 's'
                                          · rw [if_pos hh20]
                                            repeat' split
                                            all_goals
                                              first
                                              | exact ⟨h.1, h.2⟩
                                              | exact h
                                              | exact inv_move_cursor_to g _ _ _ h
                                              | exact inv_move_cursor_up_pre g _ h
                                              | exact inv_move_cursor_down g _ _ h
                                              | exact inv_move_cursor_back g _ h
                                              | exact inv_clear_all_after_cursor g _ h
                                              | exact inv_clear_all_before_cursor g _ h
                                              | exact inv_delete_lines_in_scroll_region g _ _ h
                                              | exact inv_add_empty_lines_in_scroll_region g _ _ h
                                              | exact inv_rotate_scroll_region_up g _ h
                                              | exact inv_rotate_scroll_region_down g _ h
                                              | exact inv_restore_cursor_position g h
                                              | exact inv_add_canonical_line g h
                                              | exact inv_move_cursor_up_with_scrolling g 1 h
                                              | exact inv_set_horizontal_tabstop g h
                                              | exact inv_foldl _ (fun gg _ hg => inv_add_character gg _ hg) _ _ h
                                              | exact inv_foldl _ (fun gg _ hg => inv_insert_character_at gg _ hg) _ _ h
                                              | exact inv_foldl _ (fun gg _ hg => inv_advance_to_next_tabstop gg _ hg) _ _ h
                                              | exact inv_foldl _ (fun gg _ hg => inv_move_to_previous_tabstop gg hg) _ _ h
                                              | (apply inv_change_size
                                                 repeat' split
                                                 all_goals
                                                   first
                                                     | (refine ⟨h.1, ?_⟩
                                                        intro la vp cur hc
                                                        simp at hc)
                                                     | (rename_i heq2
                                                        refine ⟨h.2 _ _ _ heq2, ?_⟩
                                                        intro la vp cur hc
                                                        simp at hc))
                                              | (refine ⟨Nat.zero_le _, ?_⟩
                                                 intro la vp cur hc
                                                 cases hc
                                                 exact h.1)
                                              | (refine ⟨Nat.zero_le _, ?_⟩
                                                 intro la vp cur hc
                                                 simp at hc)
                                              | (show g.reset_terminal_state.ScrollbackInv
                                                 refine ⟨?_, ?_⟩
                                                 · simp [Grid.reset_terminal_state]
                                                 · intro la vp cur hc
                                                   simp [Grid.reset_terminal_state] at hc)
                                              | (rename_i heq
                                                 refine ⟨h.2 _ _ _ heq, ?_⟩
                                                 intro la vp cur hc
                                                 simp at hc)
                                              | (refine ⟨h.1, ?_⟩
                                                 intro la vp cur hc
                                                 simp at hc)
                                          · rw [if_neg hh20]
                                            by_cases hh21 : c = 'u'
                                            · rw [if_pos hh21]
                                              repeat' split
                                              all_goals
                                                first
                                                | exact ⟨h.1, h.2⟩
                                                | exact h
                                                | exact inv_move_cursor_to g _ _ _ h
                                                | exact inv_move_cursor_up_pre g _ h
                                                | exact inv_move_cursor_down g _ _ h
                                                | exact inv_move_cursor_back g _ h
                                                | exact inv_clear_all_after_cursor g _ h
                                                | exact inv_clear_all_before_cursor g _ h
                                                | exact inv_delete_lines_in_scroll_region g _ _ h
                                                | exact inv_add_empty_lines_in_scroll_region g _ _ h
                                                | exact inv_rotate_scroll_region_up g _ h
                                                | exact inv_rotate_scroll_region_down g _ h
                                                | exact inv_restore_cursor_position g h
                                                | exact inv_add_canonical_line g h
                                                | exact inv_move_cursor_up_with_scrolling g 1 h
                                                | exact inv_set_horizontal_tabstop g h
                                                | exact inv_foldl _ (fun gg _ hg => inv_add_character gg _ hg) _ _ h
                                                | exact inv_foldl _ (fun gg _ hg => inv_insert_character_at gg _ hg) _ _ h
                                                | exact inv_foldl _ (fun gg _ hg => inv_advance_to_next_tabstop gg _ hg) _ _ h
                                                | exact inv_foldl _ (fun gg _ hg => inv_move_to_previous_tabstop gg hg) _ _ h
                                                | (apply inv_change_size
                                                   repeat' split
                                                   all_goals
                                                     first
                                                       | (refine ⟨h.1, ?_⟩
                                                          intro la vp cur hc
                                                          simp at hc)
                                                       | (rename_i heq2
                                                          refine ⟨h.2 _ _ _ heq2, ?_⟩
                                                          intro la vp cur hc
                                                          simp at hc))
                                                | (refine ⟨Nat.zero_le _, ?_⟩
                                                   intro la vp cur hc
                                                   cases hc
                                                   exact h.1)
                                                | (refine ⟨Nat.zero_le _, ?_⟩
                                                   intro la vp cur hc
                                                   simp at hc)
                                                | (show g.reset_terminal_state.ScrollbackInv
                                                   refine ⟨?_, ?_⟩
                                                   · simp [Grid.reset_terminal_state]
                                                   · intro la vp cur hc
                                                     simp [Grid.reset_terminal_state] at hc)
                                                | (rename_i heq
                                                   refine ⟨h.2 _ _ _ heq, ?_⟩
                                                   intro la vp cur hc
                                                   simp at hc)
                                                | (refine ⟨h.1, ?_⟩
                                                   intro la vp cur hc
                                                   simp at hc)
                                            · rw [if_neg hh21]
                                              by_cases hh22 : c = '@'
                                              · rw [if_pos hh22]
                                                repeat' split
                                                all_goals
                                                  first
                                                  | exact ⟨h.1, h.2⟩
                                                  | exact h
                                                  | exact inv_move_cursor_to g _ _ _ h
                                                  | exact inv_move_cursor_up_pre g _ h
                                                  | exact inv_move_cursor_down g _ _ h
                                                  | exact inv_move_cursor_back g _ h
                                                  | exact inv_clear_all_after_cursor g _ h
                                                  | exact inv_clear_all_before_cursor g _ h
                                                  | exact inv_delete_lines_in_scroll_region g _ _ h
                                                  | exact inv_add_empty_lines_in_scroll_region g _ _ h
                                                  | exact inv_rotate_scroll_region_up g _ h
                                                  | exact inv_rotate_scroll_region_down g _ h
                                                  | exact inv_restore_cursor_position g h
                                                  | exact inv_add_canonical_line g h
                                                  | exact inv_move_cursor_up_with_scrolling g 1 h
                                                  | exact inv_set_horizontal_tabstop g h
                                                  | exact inv_foldl _ (fun gg _ hg => inv_add_character gg _ hg) _ _ h
                                                  | exact inv_foldl _ (fun gg _ hg => inv_insert_character_at gg _ hg) _ _ h
                                                  | exact inv_foldl _ (fun gg _ hg => inv_advance_to_next_tabstop gg _ hg) _ _ h
                                                  | exact inv_foldl _ (fun gg _ hg => inv_move_to_previous_tabstop gg hg) _ _ h
                                                  | (apply inv_change_size
                                                     repeat' split
                                                     all_goals
                                                       first
                                                         | (refine ⟨h.1, ?_⟩
                                                            intro la vp cur hc
                                                            simp at hc)
                                                         | (rename_i heq2
                                                            refine ⟨h.2 _ _ _ heq2, ?_⟩
                                                            intro la vp cur hc
                                                            simp at hc))
                                                  | (refine ⟨Nat.zero_le _, ?_⟩
                                                     intro la vp cur hc
                                                     cases hc
                                                     exact h.1)
                                                  | (refine ⟨Nat.zero_le _, ?_⟩
                                                     intro la vp cur hc
                                                     simp at hc)
                                                  | (show g.reset_terminal_state.ScrollbackInv
                                                     refine ⟨?_, ?_⟩
                                                     · simp [Grid.reset_terminal_state]
                                                     · intro la vp cur hc
                                                       simp [Grid.reset_terminal_state] at hc)
                                                  | (rename_i heq
                                                     refine ⟨h.2 _ _ _ heq, ?_⟩
                                                     intro la vp cur hc
                                                     simp at hc)
                                                  | (refine ⟨h.1, ?_⟩
                                                     intro la vp cur hc
                                                     simp at hc)
                                              · rw [if_neg hh22]
                                                by_cases hh23 : c = 'b'
                                                · rw [if_pos hh23]
                                                  repeat' split
                                                  all_goals
                                                    first
                                                    | exact ⟨h.1, h.2⟩
                                                    | exact h
                                                    | exact inv_move_cursor_to g _ _ _ h
                                                    | exact inv_move_cursor_up_pre g _ h
                                                    | exact inv_move_cursor_down g _ _ h
                                                    | exact inv_move_cursor_back g _ h
                                                    | exact inv_clear_all_after_cursor g _ h
                                                    | exact inv_clear_all_before_cursor g _ h
                                                    | exact inv_delete_lines_in_scroll_region g _ _ h
                                                    | exact inv_add_empty_lines_in_scroll_region g _ _ h
                                                    | exact inv_rotate_scroll_region_up g _ h
                                                    | exact inv_rotate_scroll_region_down g _ h
                                                    | exact inv_restore_cursor_position g h
                                                    | exact inv_add_canonical_line g h
                                                    | exact inv_move_cursor_up_with_scrolling g 1 h
                                                    | exact inv_set_horizontal_tabstop g h
                                                    | exact inv_foldl _ (fun gg _ hg => inv_add_character gg _ hg) _ _ h
                                                    | exact inv_foldl _ (fun gg _ hg => inv_insert_character_at gg _ hg) _ _ h
                                                    | exact inv_foldl _ (fun gg _ hg => inv_advance_to_next_tabstop gg _ hg) _ _ h
                                                    | exact inv_foldl _ (fun gg _ hg => inv_move_to_previous_tabstop gg hg) _ _ h
                                                    | (apply inv_change_size
                                                       repeat' split
                                                       all_goals
                                                         first
                                                           | (refine ⟨h.1, ?_⟩
                                                              intro la vp cur hc
                                                              simp at hc)
                                                           | (rename_i heq2
                                                              refine ⟨h.2 _ _ _ heq2, ?_⟩
                                                              intro la vp cur hc
                                                              simp at hc))
                                                    | (refine ⟨Nat.zero_le _, ?_⟩
                                                       intro la vp cur hc
                                                       cases hc
                                                       exact h.1)
                                                    | (refine ⟨Nat.zero_le _, ?_⟩
                                                       intro la vp cur hc
                                                       simp at hc)
                                                    | (show g.reset_terminal_state.ScrollbackInv
                                                       refine ⟨?_, ?_⟩
                                                       · simp [Grid.reset_terminal_state]
                                                       · intro la vp cur hc
                                                         simp [Grid.reset_terminal_state] at hc)
                                                    | (rename_i heq
                                                       refine ⟨h.2 _ _ _ heq, ?_⟩
                                                       intro la vp cur hc
                                                       simp at hc)
                                                    | (refine ⟨h.1, ?_⟩
                                                       intro la vp cur hc
                                                       simp at hc)
                                                · rw [if_neg hh23]
                                                  by_cases hh24 : c = 'E'
                                                  · rw [if_pos hh24]
                                                    repeat' split
                                                    all_goals
                                                      first
                                                      | exact ⟨h.1, h.2⟩
                                                      | exact h
                                                      | exact inv_move_cursor_to g _ _ _ h
                                                      | exact inv_move_cursor_up_pre g _ h
                                                      | exact inv_move_cursor_down g _ _ h
                                                      | exact inv_move_cursor_back g _ h
                                                      | exact inv_clear_all_after_cursor g _ h
                                                      | exact inv_clear_all_before_cursor g _ h
                                                      | exact inv_delete_lines_in_scroll_region g _ _ h
                                                      | exact inv_add_empty_lines_in_scroll_region g _ _ h
                                                      | exact inv_rotate_scroll_region_up g _ h
                                                      | exact inv_rotate_scroll_region_down g _ h
                                                      | exact inv_restore_cursor_position g h
                                                      | exact inv_add_canonical_line g h
                                                      | exact inv_move_cursor_up_with_scrolling g 1 h
                                                      | exact inv_set_horizontal_tabstop g h
                                                      | exact inv_foldl _ (fun gg _ hg => inv_add_character gg _ hg) _ _ h
                                                      | exact inv_foldl _ (fun gg _ hg => inv_insert_character_at gg _ hg) _ _ h
                                                      | exact inv_foldl _ (fun gg _ hg => inv_advance_to_next_tabstop gg _ hg) _ _ h
                                                      | exact inv_foldl _ (fun gg _ hg => inv_move_to_previous_tabstop gg hg) _ _ h
                                                      | (apply inv_change_size
                                                         repeat' split
                                                         all_goals
                                                           first
                                                             | (refine ⟨h.1, ?_⟩
                                                                intro la vp cur hc
                                                                simp at hc)
                                                             | (rename_i heq2
                                                                refine ⟨h.2 _ _ _ heq2, ?_⟩
                                                                intro la vp cur hc
                                                                simp at hc))
                                                      | (refine ⟨Nat.zero_le _, ?_⟩
                                                         intro la vp cur hc
                                                         cases hc
                                                         exact h.1)
                                                      | (refine ⟨Nat.zero_le _, ?_⟩
                                                         intro la vp cur hc
                                                         simp at hc)
                                                      | (show g.reset_terminal_state.ScrollbackInv
                                                         refine ⟨?_, ?_⟩
                                                         · simp [Grid.reset_terminal_state]
                                                         · intro la vp cur hc
                                                           simp [Grid.reset_terminal_state] at hc)
                                                      | (rename_i heq
                                                         refine ⟨h.2 _ _ _ heq, ?_⟩
                                                         intro la vp cur hc
                                                         simp at hc)
                                                      | (refine ⟨h.1, ?_⟩
                                                         intro la vp cur hc
                                                         simp at hc)
                                                  · rw [if_neg hh24]
                                                    by_cases hh25 : c = 'F'
                                                    · rw [if_pos hh25]
                                                      repeat' split
                                                      all_goals
                                                        first
                                                        | exact ⟨h.1, h.2⟩
                                                        | exact h
                                                        | exact inv_move_cursor_to g _ _ _ h
                                                        | exact inv_move_cursor_up_pre g _ h
                                                        | exact inv_move_cursor_down g _ _ h
                                                        | exact inv_move_cursor_back g _ h
                                                        | exact inv_clear_all_after_cursor g _ h
                                                        | exact inv_clear_all_before_cursor g _ h
                                                        | exact inv_delete_lines_in_scroll_region g _ _ h
                                                        | exact inv_add_empty_lines_in_scroll_region g _ _ h
                                                        | exact inv_rotate_scroll_region_up g _ h
                                                        | exact inv_rotate_scroll_region_down g _ h
                                                        | exact inv_restore_cursor_position g h
                                                        | exact inv_add_canonical_line g h
                                                        | exact inv_move_cursor_up_with_scrolling g 1 h
                                                        | exact inv_set_horizontal_tabstop g h
                                                        | exact inv_foldl _ (fun gg _ hg => inv_add_character gg _ hg) _ _ h
                                                        | exact inv_foldl _ (fun gg _ hg => inv_insert_character_at gg _ hg) _ _ h
                                                        | exact inv_foldl _ (fun gg _ hg => inv_advance_to_next_tabstop gg _ hg) _ _ h
                                                        | exact inv_foldl _ (fun gg _ hg => inv_move_to_previous_tabstop gg hg) _ _ h
                                                        | (apply inv_change_size
                                                           repeat' split
                                                           all_goals
                                                             first
                                                               | (refine ⟨h.1, ?_⟩
                                                                  intro la vp cur hc
                                                                  simp at hc)
                                                               | (rename_i heq2
                                                                  refine ⟨h.2 _ _ _ heq2, ?_⟩
                                                                  intro la vp cur hc
                                                                  simp at hc))
                                                        | (refine ⟨Nat.zero_le _, ?_⟩
                                                           intro la vp cur hc
                                                           cases hc
                                                           exact h.1)
                                                        | (refine ⟨Nat.zero_le _, ?_⟩
                                                           intro la vp cur hc
                                                           simp at hc)
                                                        | (show g.reset_terminal_state.ScrollbackInv
                                                           refine ⟨?_, ?_⟩
                                                           · simp [Grid.reset_terminal_state]
                                                           · intro la vp cur hc
                                                             simp [Grid.reset_terminal_state] at hc)
                                                        | (rename_i heq
                                                           refine ⟨h.2 _ _ _ heq, ?_⟩
                                                           intro la vp cur hc
                                                           simp at hc)
                                                        | (refine ⟨h.1, ?_⟩
                                                           intro la vp cur hc
                                                           simp at hc)
                                                    · rw [if_neg hh25]
                                                      by_cases hh26 : c = 'I'
                                                      · rw [if_pos hh26]
                                                        repeat' split
                                                        all_goals
                                                          first
                                                          | exact ⟨h.1, h.2⟩
                                                          | exact h
                                                          | exact inv_move_cursor_to g _ _ _ h
                                                          | exact inv_move_cursor_up_pre g _ h
                                                          | exact inv_move_cursor_down g _ _ h
                                                          | exact inv_move_cursor_back g _ h
                                                          | exact inv_clear_all_after_cursor g _ h
                                                          | exact inv_clear_all_before_cursor g _ h
                                                          | exact inv_delete_lines_in_scroll_region g _ _ h
                                                          | exact inv_add_empty_lines_in_scroll_region g _ _ h
                                                          | exact inv_rotate_scroll_region_up g _ h
                                                          | exact inv_rotate_scroll_region_down g _ h
                                                          | exact inv_restore_cursor_position g h
                                                          | exact inv_add_canonical_line g h
                                                          | exact inv_move_cursor_up_with_scrolling g 1 h
                                                          | exact inv_set_horizontal_tabstop g h
                                                          | exact inv_foldl _ (fun gg _ hg => inv_add_character gg _ hg) _ _ h
                                                          | exact inv_foldl _ (fun gg _ hg => inv_insert_character_at gg _ hg) _ _ h
                                                          | exact inv_foldl _ (fun gg _ hg => inv_advance_to_next_tabstop gg _ hg) _ _ h
                                                          | exact inv_foldl _ (fun gg _ hg => inv_move_to_previous_tabstop gg hg) _ _ h
                                                          | (apply inv_change_size
                                                             repeat' split
                                                             all_goals
                                                               first
                                                                 | (refine ⟨h.1, ?_⟩
                                                                    intro la vp cur hc
                                                                    simp at hc)
                                                                 | (rename_i heq2
                                                                    refine ⟨h.2 _ _ _ heq2, ?_⟩
                                                                    intro la vp cur hc
                                                                    simp at hc))
                                                          | (refine ⟨Nat.zero_le _, ?_⟩
                                                             intro la vp cur hc
                                                             cases hc
                                                             exact h.1)
                                                          | (refine ⟨Nat.zero_le _, ?_⟩
                                                             intro la vp cur hc
                                                             simp at hc)
                                                          | (show g.reset_terminal_state.ScrollbackInv
                                                             refine ⟨?_, ?_⟩
                                                             · simp [Grid.reset_terminal_state]
                                                             · intro la vp cur hc
                                                               simp [Grid.reset_terminal_state] at hc)
                                                          | (rename_i heq
                                                             refine ⟨h.2 _ _ _ heq, ?_⟩
                                                             intro la vp cur hc
                                                             simp at hc)
                                                          | (refine ⟨h.1, ?_⟩
                                                             intro la vp cur hc
                                                             simp at hc)
                                                      · rw [if_neg hh26]
                                                        by_cases hh27 : c = 'q'
                                                        · rw [if_pos hh27]
                                                          repeat' split
                                                          all_goals
                                                            first
                                                            | exact ⟨h.1, h.2⟩
                                                            | exact h
                                                            | exact inv_move_cursor_to g _ _ _ h
                                                            | exact inv_move_cursor_up_pre g _ h
                                                            | exact inv_move_cursor_down g _ _ h
                                                            | exact inv_move_cursor_back g _ h
                                                            | exact inv_clear_all_after_cursor g _ h
                                                            | exact inv_clear_all_before_cursor g _ h
                                                            | exact inv_delete_lines_in_scroll_region g _ _ h
                                                            | exact inv_add_empty_lines_in_scroll_region g _ _ h
                                                            | exact inv_rotate_scroll_region_up g _ h
                                                            | exact inv_rotate_scroll_region_down g _ h
                                                            | exact inv_restore_cursor_position g h
                                                            | exact inv_add_canonical_line g h
                                                            | exact inv_move_cursor_up_with_scrolling g 1 h
                                                            | exact inv_set_horizontal_tabstop g h
                                                            | exact inv_foldl _ (fun gg _ hg => inv_add_character gg _ hg) _ _ h
                                                            | exact inv_foldl _ (fun gg _ hg => inv_insert_character_at gg _ hg) _ _ h
                                                            | exact inv_foldl _ (fun gg _ hg => inv_advance_to_next_tabstop gg _ hg) _ _ h
                                                            | exact inv_foldl _ (fun gg _ hg => inv_move_to_previous_tabstop gg hg) _ _ h
                                                            | (apply inv_change_size
                                                               repeat' split
                                                               all_goals
                                                                 first
                                                                   | (refine ⟨h.1, ?_⟩
                                                                      intro la vp cur hc
                                                                      simp at hc)
                                                                   | (rename_i heq2
                                                                      refine ⟨h.2 _ _ _ heq2, ?_⟩
                                                                      intro la vp cur hc
                                                                      simp at hc))
                                                            | (refine ⟨Nat.zero_le _, ?_⟩
                                                               intro la vp cur hc
                                                               cases hc
                                                               exact h.1)
                                                            | (refine ⟨Nat.zero_le _, ?_⟩
                                                               intro la vp cur hc
                                                               simp at hc)
                                                            | (show g.reset_terminal_state.ScrollbackInv
                                                               refine ⟨?_, ?_⟩
                                                               · simp [Grid.reset_terminal_state]
                                                               · intro la vp cur hc
                                                                 simp [Grid.reset_terminal_state] at hc)
                                                            | (rename_i heq
                                                               refine ⟨h.2 _ _ _ heq, ?_⟩
                                                               intro la vp cur hc
                                                               simp at hc)
                                                            | (refine ⟨h.1, ?_⟩
                                                               intro la vp cur hc
                                                               simp at hc)
                                                        · rw [if_neg hh27]
                                                          by_cases hh28 : c = 'Z'
                                                          · rw [if_pos hh28]
                                                            repeat' split
                                                            all_goals
                                                              first
                                                              | exact ⟨h.1, h.2⟩
                                                              | exact h
                                                              | exact inv_move_cursor_to g _ _ _ h
                                                              | exact inv_move_cursor_up_pre g _ h
                                                              | exact inv_move_cursor_down g _ _ h
                                                              | exact inv_move_cursor_back g _ h
                                                              | exact inv_clear_all_after_cursor g _ h
                                                              | exact inv_clear_all_before_cursor g _ h
                                                              | exact inv_delete_lines_in_scroll_region g _ _ h
                                                              | exact inv_add_empty_lines_in_scroll_region g _ _ h
                                                              | exact inv_rotate_scroll_region_up g _ h
                                                              | exact inv_rotate_scroll_region_down g _ h
                                                              | exact inv_restore_cursor_position g h
                                                              | exact inv_add_canonical_line g h
                                                              | exact inv_move_cursor_up_with_scrolling g 1 h
                                                              | exact inv_set_horizontal_tabstop g h
                                                              | exact inv_foldl _ (fun gg _ hg => inv_add_character gg _ hg) _ _ h
                                                              | exact inv_foldl _ (fun gg _ hg => inv_insert_character_at gg _ hg) _ _ h
                                                              | exact inv_foldl _ (fun gg _ hg => inv_advance_to_next_tabstop gg _ hg) _ _ h
                                                              | exact inv_foldl _ (fun gg _ hg => inv_move_to_previous_tabstop gg hg) _ _ h
                                                              | (apply inv_change_size
                                                                 repeat' split
                                                                 all_goals
                                                                   first
                                                                     | (refine ⟨h.1, ?_⟩
                                                                        intro la vp cur hc
                                                                        simp at hc)
                                                                     | (rename_i heq2
                                                                        refine ⟨h.2 _ _ _ heq2, ?_⟩
                                                                        intro la vp cur hc
                                                                        simp at hc))
                                                              | (refine ⟨Nat.zero_le _, ?_⟩
                                                                 intro la vp cur hc
                                                                 cases hc
                                                                 exact h.1)
                                                              | (refine ⟨Nat.zero_le _, ?_⟩
                                                                 intro la vp cur hc
                                                                 simp at hc)
                                                              | (show g.reset_terminal_state.ScrollbackInv
                                                                 refine ⟨?_, ?_⟩
                                                                 · simp [Grid.reset_terminal_state]
                                                                 · intro la vp cur hc
                                                                   simp [Grid.reset_terminal_state] at hc)
                                                              | (rename_i heq
                                                                 refine ⟨h.2 _ _ _ heq, ?_⟩
                                                                 intro la vp cur hc
                                                                 simp at hc)
                                                              | (refine ⟨h.1, ?_⟩
                                                                 intro la vp cur hc
                                                                 simp at hc)
                                                          · rw [if_neg hh28]
                                                            by_cases hh29 : c = 'c'
                                                            · rw [if_pos hh29]
                                                              repeat' split
                                                              all_goals
                                                                first
                                                                | exact ⟨h.1, h.2⟩
                                                                | exact h
                                                                | exact inv_move_cursor_to g _ _ _ h
                                                                | exact inv_move_cursor_up_pre g _ h
                                                                | exact inv_move_cursor_down g _ _ h
                                                                | exact inv_move_cursor_back g _ h
                                                                | exact inv_clear_all_after_cursor g _ h
                                                                | exact inv_clear_all_before_cursor g _ h
                                                                | exact inv_delete_lines_in_scroll_region g _ _ h
                                                                | exact inv_add_empty_lines_in_scroll_region g _ _ h
                                                                | exact inv_rotate_scroll_region_up g _ h
                                                                | exact inv_rotate_scroll_region_down g _ h
                                                                | exact inv_restore_cursor_position g h
                                                                | exact inv_add_canonical_line g h
                                                                | exact inv_move_cursor_up_with_scrolling g 1 h
                                                                | exact inv_set_horizontal_tabstop g h
                                                                | exact inv_foldl _ (fun gg _ hg => inv_add_character gg _ hg) _ _ h
                                                                | exact inv_foldl _ (fun gg _ hg => inv_insert_character_at gg _ hg) _ _ h
                                                                | exact inv_foldl _ (fun gg _ hg => inv_advance_to_next_tabstop gg _ hg) _ _ h
                                                                | exact inv_foldl _ (fun gg _ hg => inv_move_to_previous_tabstop gg hg) _ _ h
                                                                | (apply inv_change_size
                                                                   repeat' split
                                                                   all_goals
                                                                     first
                                                                       | (refine ⟨h.1, ?_⟩
                                                                          intro la vp cur hc
                                                                          simp at hc)
                                                                       | (rename_i heq2
                                                                          refine ⟨h.2 _ _ _ heq2, ?_⟩
                                                                          intro la vp cur hc
                                                                          simp at hc))
                                                                | (refine ⟨Nat.zero_le _, ?_⟩
                                                                   intro la vp cur hc
                                                                   cases hc
                                                                   exact h.1)
                                                                | (refine ⟨Nat.zero_le _, ?_⟩
                                                                   intro la vp cur hc
                                                                   simp at hc)
                                                                | (show g.reset_terminal_state.ScrollbackInv
                                                                   refine ⟨?_, ?_⟩
                                                                   · simp [Grid.reset_terminal_state]
                                                                   · intro la vp cur hc
                                                                     simp [Grid.reset_terminal_state] at hc)
                                                                | (rename_i heq
                                                                   refine ⟨h.2 _ _ _ heq, ?_⟩
                                                                   intro la vp cur hc
                                                                   simp at hc)
                                                                | (refine ⟨h.1, ?_⟩
                                                                   intro la vp cur hc
                                                                   simp at hc)
                                                            · rw [if_neg hh29]
                                                              by_cases hh30 : c = 'n'
                                                              · rw [if_pos hh30]
                                                                repeat' split
                                                                all_goals
                                                                  first
                                                                  | exact ⟨h.1, h.2⟩
                                                                  | exact h
                                                                  | exact inv_move_cursor_to g _ _ _ h
                                                                  | exact inv_move_cursor_up_pre g _ h
                                                                  | exact inv_move_cursor_down g _ _ h
                                                                  | exact inv_move_cursor_back g _ h
                                                                  | exact inv_clear_all_after_cursor g _ h
                                                                  | exact inv_clear_all_before_cursor g _ h
                                                                  | exact inv_delete_lines_in_scroll_region g _ _ h
                                                                  | exact inv_add_empty_lines_in_scroll_region g _ _ h
                                                                  | exact inv_rotate_scroll_region_up g _ h
                                                                  | exact inv_rotate_scroll_region_down g _ h
                                                                  | exact inv_restore_cursor_position g h
                                                                  | exact inv_add_canonical_line g h
                                                                  | exact inv_move_cursor_up_with_scrolling g 1 h
                                                                  | exact inv_set_horizontal_tabstop g h
                                                                  | exact inv_foldl _ (fun gg _ hg => inv_add_character gg _ hg) _ _ h
                                                                  | exact inv_foldl _ (fun gg _ hg => inv_insert_character_at gg _ hg) _ _ h
                                                                  | exact inv_foldl _ (fun gg _ hg => inv_advance_to_next_tabstop gg _ hg) _ _ h
                                                                  | exact inv_foldl _ (fun gg _ hg => inv_move_to_previous_tabstop gg hg) _ _ h
                                                                  | (apply inv_change_size
                                                                     repeat' split
                                                                     all_goals
                                                                       first
                                                                         | (refine ⟨h.1, ?_⟩
                                                                            intro la vp cur hc
                                                                            simp at hc)
                                                                         | (rename_i heq2
                                                                            refine ⟨h.2 _ _ _ heq2, ?_⟩
                                                                            intro la vp cur hc
                                                                            simp at hc))
                                                                  | (refine ⟨Nat.zero_le _, ?_⟩
                                                                     intro la vp cur hc
                                                                     cases hc
                                                                     exact h.1)
                                                                  | (refine ⟨Nat.zero_le _, ?_⟩
                                                                     intro la vp cur hc
                                                                     simp at hc)
                                                                  | (show g.reset_terminal_state.ScrollbackInv
                                                                     refine ⟨?_, ?_⟩
                                                                     · simp [Grid.reset_terminal_state]
                                                                     · intro la vp cur hc
                                                                       simp [Grid.reset_terminal_state] at hc)
                                                                  | (rename_i heq
                                                                     refine ⟨h.2 _ _ _ heq, ?_⟩
                                                                     intro la vp cur hc
                                                                     simp at hc)
                                                                  | (refine ⟨h.1, ?_⟩
                                                                     intro la vp cur hc
                                                                     simp at hc)
                                                              · rw [if_neg hh30]
                                                                by_cases hh31 : c = 't'
                                                                · rw [if_pos hh31]
                                                                  repeat' split
                                                                  all_goals
                                                                    first
                                                                    | exact ⟨h.1, h.2⟩
                                                                    | exact h
                                                                    | exact inv_move_cursor_to g _ _ _ h
                                                                    | exact inv_move_cursor_up_pre g _ h
                                                                    | exact inv_move_cursor_down g _ _ h
                                                                    | exact inv_move_cursor_back g _ h
                                                                    | exact inv_clear_all_after_cursor g _ h
                                                                    | exact inv_clear_all_before_cursor g _ h
                                                                    | exact inv_delete_lines_in_scroll_region g _ _ h
                                                                    | exact inv_add_empty_lines_in_scroll_region g _ _ h
                                                                    | exact inv_rotate_scroll_region_up g _ h
                                                                    | exact inv_rotate_scroll_region_down g _ h
                                                                    | exact inv_restore_cursor_position g h
                                                                    | exact inv_add_canonical_line g h
                                                                    | exact inv_move_cursor_up_with_scrolling g 1 h
                                                                    | exact inv_set_horizontal_tabstop g h
                                                                    | exact inv_foldl _ (fun gg _ hg => inv_add_character gg _ hg) _ _ h
                                                                    | exact inv_foldl _ (fun gg _ hg => inv_insert_character_at gg _ hg) _ _ h
                                                                    | exact inv_foldl _ (fun gg _ hg => inv_advance_to_next_tabstop gg _ hg) _ _ h
                                                                    | exact inv_foldl _ (fun gg _ hg => inv_move_to_previous_tabstop gg hg) _ _ h
                                                                    | (apply inv_change_size
                                                                       repeat' split
                                                                       all_goals
                                                                         first
                                                                           | (refine ⟨h.1, ?_⟩
                                                                              intro la vp cur hc
                                                                              simp at hc)
                                                                           | (rename_i heq2
                                                                              refine ⟨h.2 _ _ _ heq2, ?_⟩
                                                                              intro la vp cur hc
                                                                              simp at hc))
                                                                    | (refine ⟨Nat.zero_le _, ?_⟩
                                                                       intro la vp cur hc
                                                                       cases hc
                                                                       exact h.1)
                                                                    | (refine ⟨Nat.zero_le _, ?_⟩
                                                                       intro la vp cur hc
                                                                       simp at hc)
                                                                    | (show g.reset_terminal_state.ScrollbackInv
                                                                       refine ⟨?_, ?_⟩
                                                                       · simp [Grid.reset_terminal_state]
                                                                       · intro la vp cur hc
                                                                         simp [Grid.reset_terminal_state] at hc)
                                                                    | (rename_i heq
                                                                       refine ⟨h.2 _ _ _ heq, ?_⟩
                                                                       intro la vp cur hc
                                                                       simp at hc)
                                                                    | (refine ⟨h.1, ?_⟩
                                                                       intro la vp cur hc
                                                                       simp at hc)
                                                                · rw [if_neg hh31]
                                                                  exact h



theorem inv_applyEvent (g : Grid) (e : VteEvent) (h : g.ScrollbackInv) :
    (g.applyEvent e).ScrollbackInv := by
  cases e with
  | print c w => exact inv_print g c w h
  | execute b => exact inv_execute g b h
  | csi params ints c => exact inv_csi_dispatch g params ints c h
  | esc ints b => exact inv_esc_dispatch g ints b h
  | osc params bell => exact inv_osc_dispatch g params bell h

theorem inv_applyOp (g : Grid) (op : GridOp) (h : g.ScrollbackInv) :
    (g.applyOp op).ScrollbackInv := by
  cases op with
  | advanceEvent e => exact inv_applyEvent g e h
  | resizeOp rows columns => exact inv_change_size g rows columns h
  | scrollUpOp count => exact inv_move_viewport_up g count h
  | scrollDownOp count => exact inv_move_viewport_down g count h
  | resetViewportOp => exact inv_reset_viewport g h

/-- C5: the scrollback buffer never exceeds `SCROLL_BACK` (10000) rows: every
sequence of top-level grid operations (VT advance actions, resizes, and the
scrollback navigation entry points) from a fresh grid keeps
`lines_above.len() ≤ SCROLL_BACK`, and every insertion path into the
scrollback goes through `bounded_push`, which drops the oldest row from the
front of the deque once the bound is reached. -/
theorem C5_scrollback_bound :
    (∀ (ops : List GridOp) (rows columns : Nat),
      (Grid.run rows columns ops).lines_above.length ≤ SCROLL_BACK) ∧
    (∀ (q : List Row) (v : Row), bounded_push q v =
      if SCROLL_BACK ≤ q.length then q.tail ++ [v] else q ++ [v]) := by
  constructor
  · intro ops rows columns
    have hinit : (Grid.new rows columns).ScrollbackInv := by
      refine ⟨by simp [Grid.new], ?_⟩
      intro la vp cur hc
      simp [Grid.new] at hc
    have main : ∀ (l : List GridOp) (g : Grid), g.ScrollbackInv →
        (l.foldl Grid.applyOp g).ScrollbackInv := by
      intro l
      induction l with
      | nil => intro g hg; exact hg
      | cons op rest ih => intro g hg; exact ih _ (inv_applyOp g op hg)
    exact (main ops (Grid.new rows columns) hinit).1
  · intro q v
    rfl

end Zellij
